import Mathlib

/-!
# Hardware-intrinsic classification of the JIT (`src/coreclr/jit/hwintrinsic.h`)

A shallow embedding of the descriptor flag vocabulary, the classification
predicates of `HWIntrinsicInfo`, the identifier-keyed resolution switches and
the ARM64 invocation view `HWIntrinsic`, followed by the properties proved
about them.

Conventions of the embedding:

* `unsigned int` flag words are natural numbers, `&` is `&&&`;
* the registry accessor `HWIntrinsicInfo::lookup` is defined in a translation
  unit that is not part of the sources, so every function that consults it
  takes the registry as its first argument `lookup`;
* a function that can hit `assert` or `unreached()` returns `Except JitError`;
* the header is compiled once per target, so the target-specific vocabulary
  lives in the namespaces `XArch` and `Arm64`.

The development also covers `roundUp` of `src/coreclr/jit/jit.h` and, outside the
namespace `Jit`, the interlocked helpers of
`src/coreclr/nativeaot/Runtime/unix/PalRedhawkInline.h` (namespace `NativeAot`)
and the path predicates and platform identifier of
`src/native/corehost/hostmisc/pal.windows.cpp` (namespace `pal`).
-/

set_option linter.dupNamespace false

namespace Jit

/-! ## Fatal internal errors -/

/-- The two abort paths of the header: a failed `assert` and `unreached()`. -/
inductive JitError where
  | assertionFailed
  | unreachedCode
  deriving DecidableEq, Repr

/-- Modelled from the spec: the `assert` macro, whose definition is not among
the sources. Section 7 makes a violated internal invariant fatal for the
current compilation, so a false condition ends the computation. -/
def assert (cond : Bool) : Except JitError Unit :=
  if cond then .ok () else .error .assertionFailed

/-- Modelled from the spec: the `unreached()` macro, whose definition is not
among the sources; it is the abort-style internal-error path of section 7. -/
def unreached {α : Type} : Except JitError α :=
  .error .unreachedCode

/-! ## Types and expression nodes -/

/-- Modelled from the spec: the `var_types` enumeration, whose declaration is
not among the sources. The header names the untyped placeholder `TYP_UNKNOWN`
and the initial value `TYP_UNDEF`; `other n` stands for every other type. -/
inductive var_types where
  | TYP_UNDEF
  | TYP_UNKNOWN
  | other (n : Nat)
  deriving DecidableEq, Repr

export var_types (TYP_UNDEF TYP_UNKNOWN)

/-- Modelled from the spec: an expression-tree node `GenTree`, declared in a
header that is not among the sources. Section 6 has the tree supply operand
references and a declared type; the node is reduced to its identity and the
type `TypeGet()` returns. -/
structure GenTree where
  gtTreeID : Nat
  gtType : var_types
  deriving DecidableEq, Repr

def GenTree.TypeGet (tree : GenTree) : var_types :=
  tree.gtType

/-- Modelled from the spec: the `instruction` enumeration, whose declaration is
not among the sources; section 3 calls its values target instruction tags. -/
abbrev instruction := Nat

/-! ## Flag vocabulary shared by both targets -/

/-- The type of a descriptor flag word, `enum HWIntrinsicFlag : unsigned int`. -/
abbrev HWIntrinsicFlag := Nat

def HW_Flag_NoFlag : HWIntrinsicFlag := 0
def HW_Flag_Commutative : HWIntrinsicFlag := 0x1
def HW_Flag_NoCodeGen : HWIntrinsicFlag := 0x2
def HW_Flag_InvalidNodeId : HWIntrinsicFlag := 0x4
def HW_Flag_BaseTypeFromFirstArg : HWIntrinsicFlag := 0x8
def HW_Flag_BaseTypeFromSecondArg : HWIntrinsicFlag := 0x10
def HW_Flag_NoFloatingPointUsed : HWIntrinsicFlag := 0x20
def HW_Flag_NoJmpTableIMM : HWIntrinsicFlag := 0x40
def HW_Flag_SpecialCodeGen : HWIntrinsicFlag := 0x80
def HW_Flag_SpecialImport : HWIntrinsicFlag := 0x100
def HW_Flag_MultiReg : HWIntrinsicFlag := 0x200
def HW_Flag_SpecialSideEffect_Barrier : HWIntrinsicFlag := 0x8000000
def HW_Flag_SpecialSideEffect_Other : HWIntrinsicFlag := 0x10000000
def HW_Flag_SpecialSideEffectMask : HWIntrinsicFlag :=
  HW_Flag_SpecialSideEffect_Barrier ||| HW_Flag_SpecialSideEffect_Other
def HW_Flag_MaybeNoJmpTableIMM : HWIntrinsicFlag := 0x20000000
def HW_Flag_FmaIntrinsic : HWIntrinsicFlag := 0x40000000
def HW_Flag_CanBenefitFromConstantProp : HWIntrinsicFlag := 0x80000000

/-- A flag word carries a flag when every bit of the flag is set in the word. -/
def Carries (flags flag : HWIntrinsicFlag) : Prop :=
  flags &&& flag = flag

instance (flags flag : HWIntrinsicFlag) : Decidable (Carries flags flag) := by
  unfold Carries
  infer_instance

/-- Setting a flag in a flag word, `flags | flag`. -/
def setFlag (flags flag : HWIntrinsicFlag) : HWIntrinsicFlag :=
  flags ||| flag

/-- Clearing a flag in a 32-bit flag word, `flags & ~flag`. -/
def clearFlag (flags flag : HWIntrinsicFlag) : HWIntrinsicFlag :=
  flags &&& (0xFFFFFFFF ^^^ flag)

/-- The flags declared for both targets, `HW_Flag_NoFlag` and the side-effect mask apart. -/
def commonFlags : List HWIntrinsicFlag :=
  [HW_Flag_Commutative, HW_Flag_NoCodeGen, HW_Flag_InvalidNodeId, HW_Flag_BaseTypeFromFirstArg,
   HW_Flag_BaseTypeFromSecondArg, HW_Flag_NoFloatingPointUsed, HW_Flag_NoJmpTableIMM,
   HW_Flag_SpecialCodeGen, HW_Flag_SpecialImport, HW_Flag_MultiReg,
   HW_Flag_SpecialSideEffect_Barrier, HW_Flag_SpecialSideEffect_Other,
   HW_Flag_MaybeNoJmpTableIMM, HW_Flag_FmaIntrinsic, HW_Flag_CanBenefitFromConstantProp]

/-! ## Descriptors and the registry -/

/-- The descriptor `struct HWIntrinsicInfo`, over the identifier type `NI` and
the category type `Cat` of the target the header is compiled for. -/
structure HWIntrinsicInfo (NI Cat : Type) where
  name : String
  flags : HWIntrinsicFlag
  id : NI
  ins : List Nat
  isa : Nat
  simdSize : Int
  numArgs : Int
  category : Cat

/-- The registry accessor `HWIntrinsicInfo::lookup(NamedIntrinsic)`. -/
abbrev Registry (NI Cat : Type) := NI → HWIntrinsicInfo NI Cat

namespace HWIntrinsicInfo

variable {NI Cat : Type}

def lookupId (lookup : Registry NI Cat) (id : NI) : NI :=
  (lookup id).id

/-- Modelled from the spec: the registry accessor `HWIntrinsicInfo::lookup`, which the
header only declares. Section 3 has one descriptor for each supported identifier and a total
reverse index from the identifier to its descriptor; section 4.1 has `lookup` fail fatally
on an invalid identifier. The registry is the table of its descriptors, searched by
identifier. -/
def registryLookup [DecidableEq NI] (table : List (HWIntrinsicInfo NI Cat)) (id : NI) :
    Except JitError (HWIntrinsicInfo NI Cat) :=
  match table.find? (fun entry => entry.id == id) with
  | some entry => .ok entry
  | none => .error .assertionFailed

/-- An identifier is valid for a table when the table has a descriptor for it. -/
def ValidId (table : List (HWIntrinsicInfo NI Cat)) (id : NI) : Prop :=
  ∃ entry ∈ table, entry.id = id

/-- The conversion of a signed value to `unsigned`, as in the assignment
`*pSimdSize = lookup(id).simdSize`. -/
def toUnsigned (value : Int) : Nat :=
  (value % 2 ^ 32).toNat

/-- The function `tryLookupSimdSize(id, pSimdSize)`: the returned flag and the
value of `*pSimdSize` after the call, given its value before the call. -/
def tryLookupSimdSize (lookup : Registry NI Cat) (id : NI) (pSimdSize : Nat) : Bool × Nat :=
  let succeeded := false
  if (lookup id).simdSize != -1 then
    (true, toUnsigned (lookup id).simdSize)
  else
    (succeeded, pSimdSize)

def lookupNumArgs (lookup : Registry NI Cat) (id : NI) : Int :=
  (lookup id).numArgs

def lookupCategory (lookup : Registry NI Cat) (id : NI) : Cat :=
  (lookup id).category

def lookupFlags (lookup : Registry NI Cat) (id : NI) : HWIntrinsicFlag :=
  (lookup id).flags

def IsCommutative (lookup : Registry NI Cat) (id : NI) : Bool :=
  let flags := lookupFlags lookup id
  (flags &&& HW_Flag_Commutative) != 0

def CanBenefitFromConstantProp (lookup : Registry NI Cat) (id : NI) : Bool :=
  let flags := lookupFlags lookup id
  (flags &&& HW_Flag_CanBenefitFromConstantProp) != 0

def RequiresCodegen (lookup : Registry NI Cat) (id : NI) : Bool :=
  let flags := lookupFlags lookup id
  (flags &&& (HW_Flag_NoCodeGen ||| HW_Flag_InvalidNodeId)) == 0

def BaseTypeFromFirstArg (lookup : Registry NI Cat) (id : NI) : Bool :=
  let flags := lookupFlags lookup id
  (flags &&& HW_Flag_BaseTypeFromFirstArg) != 0

def IsFloatingPointUsed (lookup : Registry NI Cat) (id : NI) : Bool :=
  let flags := lookupFlags lookup id
  (flags &&& HW_Flag_NoFloatingPointUsed) == 0

def NoJmpTableImm (lookup : Registry NI Cat) (id : NI) : Bool :=
  let flags := lookupFlags lookup id
  (flags &&& HW_Flag_NoJmpTableIMM) != 0

def BaseTypeFromSecondArg (lookup : Registry NI Cat) (id : NI) : Bool :=
  let flags := lookupFlags lookup id
  (flags &&& HW_Flag_BaseTypeFromSecondArg) != 0

def HasSpecialCodegen (lookup : Registry NI Cat) (id : NI) : Bool :=
  let flags := lookupFlags lookup id
  (flags &&& HW_Flag_SpecialCodeGen) != 0

def HasSpecialImport (lookup : Registry NI Cat) (id : NI) : Bool :=
  let flags := lookupFlags lookup id
  (flags &&& (HW_Flag_SpecialImport ||| HW_Flag_InvalidNodeId)) != 0

def IsInvalidNodeId (lookup : Registry NI Cat) (id : NI) : Bool :=
  let flags := lookupFlags lookup id
  (flags &&& HW_Flag_InvalidNodeId) != 0

def IsMultiReg (lookup : Registry NI Cat) (id : NI) : Bool :=
  let flags := lookupFlags lookup id
  (flags &&& HW_Flag_MultiReg) != 0

def HasSpecialSideEffect (lookup : Registry NI Cat) (id : NI) : Bool :=
  let flags := lookupFlags lookup id
  (flags &&& HW_Flag_SpecialSideEffectMask) != 0

def HasSpecialSideEffect_Barrier (lookup : Registry NI Cat) (id : NI) : Bool :=
  let flags := lookupFlags lookup id
  (flags &&& HW_Flag_SpecialSideEffect_Barrier) != 0

def MaybeNoJmpTableImm (lookup : Registry NI Cat) (id : NI) : Bool :=
  let flags := lookupFlags lookup id
  (flags &&& HW_Flag_MaybeNoJmpTableIMM) != 0

def IsFmaIntrinsic (lookup : Registry NI Cat) (id : NI) : Bool :=
  let flags := lookupFlags lookup id
  (flags &&& HW_Flag_FmaIntrinsic) != 0

end HWIntrinsicInfo

/-! ## The x86 family -/

namespace XArch

/-- The x86 `enum HWIntrinsicCategory`. -/
inductive HWIntrinsicCategory where
  | HW_Category_SimpleSIMD
  | HW_Category_IMM
  | HW_Category_Scalar
  | HW_Category_SIMDScalar
  | HW_Category_MemoryLoad
  | HW_Category_MemoryStore
  | HW_Category_Helper
  | HW_Category_Special
  deriving DecidableEq, Repr

export HWIntrinsicCategory (HW_Category_SimpleSIMD HW_Category_IMM HW_Category_Scalar
  HW_Category_SIMDScalar HW_Category_MemoryLoad HW_Category_MemoryStore HW_Category_Helper
  HW_Category_Special)

def HW_Flag_FullRangeIMM : HWIntrinsicFlag := 0x400
def HW_Flag_MaybeIMM : HWIntrinsicFlag := 0x800
def HW_Flag_CopyUpperBits : HWIntrinsicFlag := 0x1000
def HW_Flag_MaybeMemoryLoad : HWIntrinsicFlag := 0x2000
def HW_Flag_MaybeMemoryStore : HWIntrinsicFlag := 0x4000
def HW_Flag_NoRMWSemantics : HWIntrinsicFlag := 0x8000
def HW_Flag_NoContainment : HWIntrinsicFlag := 0x10000
def HW_Flag_ReturnsPerElementMask : HWIntrinsicFlag := 0x20000
def HW_Flag_AvxOnlyCompatible : HWIntrinsicFlag := 0x40000
def HW_Flag_MaybeCommutative : HWIntrinsicFlag := 0x80000
def HW_Flag_NoEvexSemantics : HWIntrinsicFlag := 0x100000
def HW_Flag_RmwIntrinsic : HWIntrinsicFlag := 0x200000
def HW_Flag_PermuteVar2x : HWIntrinsicFlag := 0x400000
def HW_Flag_EmbRoundingCompatible : HWIntrinsicFlag := 0x1000000
def HW_Flag_NormalizeSmallTypeToInt : HWIntrinsicFlag := 0x4000000

/-- The x86 flag vocabulary: the shared flags and the x86-specific ones. -/
def allFlags : List HWIntrinsicFlag :=
  commonFlags ++
    [HW_Flag_FullRangeIMM, HW_Flag_MaybeIMM, HW_Flag_CopyUpperBits, HW_Flag_MaybeMemoryLoad,
     HW_Flag_MaybeMemoryStore, HW_Flag_NoRMWSemantics, HW_Flag_NoContainment,
     HW_Flag_ReturnsPerElementMask, HW_Flag_AvxOnlyCompatible, HW_Flag_MaybeCommutative,
     HW_Flag_NoEvexSemantics, HW_Flag_RmwIntrinsic, HW_Flag_PermuteVar2x,
     HW_Flag_EmbRoundingCompatible, HW_Flag_NormalizeSmallTypeToInt]

/-- Modelled from the spec: the `NamedIntrinsic` enumeration of an x86 build,
whose declaration is not among the sources. The identifiers the header names
are constructors; `other n` stands for every identifier it does not name. -/
inductive NamedIntrinsic where
  | NI_X86Base_DivRem
  | NI_X86Base_X64_DivRem
  | NI_AVX2_ShiftLeftLogicalVariable
  | NI_AVX2_ShiftRightArithmeticVariable
  | NI_AVX2_ShiftRightLogicalVariable
  | NI_AVX512_ShiftLeftLogicalVariable
  | NI_AVX512_ShiftRightArithmeticVariable
  | NI_AVX512_ShiftRightLogicalVariable
  | NI_Vector128_Create
  | NI_Vector256_Create
  | NI_Vector512_Create
  | NI_Vector128_CreateScalar
  | NI_Vector256_CreateScalar
  | NI_Vector512_CreateScalar
  | NI_Vector128_CreateScalarUnsafe
  | NI_Vector256_CreateScalarUnsafe
  | NI_Vector512_CreateScalarUnsafe
  | NI_Vector128_GetElement
  | NI_Vector256_GetElement
  | NI_Vector512_GetElement
  | NI_Vector128_ToScalar
  | NI_Vector256_ToScalar
  | NI_Vector512_ToScalar
  | other (n : Nat)
  deriving DecidableEq, Repr

/-- The registry of an x86 build. -/
abbrev Info := Registry NamedIntrinsic HWIntrinsicCategory

open HWIntrinsicInfo

def genIsTableDrivenHWIntrinsic (lookup : Info) (intrinsicId : NamedIntrinsic)
    (category : HWIntrinsicCategory) : Bool :=
  let tableDrivenCategory :=
    (category != HW_Category_Special) && (category != HW_Category_Scalar) &&
      (category != HW_Category_Helper)
  let tableDrivenFlag := !HasSpecialCodegen lookup intrinsicId
  tableDrivenCategory && tableDrivenFlag

def HasRMWSemantics (lookup : Info) (id : NamedIntrinsic) : Bool :=
  let flags := lookupFlags lookup id
  (flags &&& HW_Flag_NoRMWSemantics) == 0

def SupportsContainment (lookup : Info) (id : NamedIntrinsic) : Bool :=
  let flags := lookupFlags lookup id
  (flags &&& HW_Flag_NoContainment) == 0

def HasImmediateOperand (lookup : Info) (id : NamedIntrinsic) : Bool :=
  lookupCategory lookup id == HW_Category_IMM

def HasFullRangeImm (lookup : Info) (id : NamedIntrinsic) : Bool :=
  let flags := lookupFlags lookup id
  (flags &&& HW_Flag_FullRangeIMM) != 0

def MaybeImm (lookup : Info) (id : NamedIntrinsic) : Bool :=
  let flags := lookupFlags lookup id
  (flags &&& HW_Flag_MaybeIMM) != 0

/-- Modelled from the spec: the function `lookupImmUpperBound`, which the header only
declares. Section 8 gives a full-range-flagged identifier the complete range of the 8-bit
immediate, 0 to 255, and a restricted identifier a strict, non-empty subset of it: the
range from 0 to the identifier's own bound below 255, read from the table `restricted`. -/
def lookupImmUpperBound (lookup : Info) (restricted : NamedIntrinsic → Fin 255)
    (id : NamedIntrinsic) : Int :=
  if HasFullRangeImm lookup id then 255 else ((restricted id : Nat) : Int)

/-- An immediate value is legal for an identifier when it lies between 0 and the upper
bound. -/
def LegalImm (lookup : Info) (restricted : NamedIntrinsic → Fin 255) (id : NamedIntrinsic)
    (imm : Int) : Prop :=
  0 ≤ imm ∧ imm ≤ lookupImmUpperBound lookup restricted id

def GetMultiRegCount (lookup : Info) (id : NamedIntrinsic) : Except JitError Int := do
  assert (IsMultiReg lookup id)
  match id with
  | .NI_X86Base_DivRem
  | .NI_X86Base_X64_DivRem => pure 2
  | _ => unreached

/-! ### Integer comparison modes -/

/-- The enumeration `enum class IntComparisonMode : uint8_t`, as the value of its
underlying type. -/
structure IntComparisonMode where
  code : Nat
  deriving DecidableEq, Repr

def IntComparisonMode.Equal : IntComparisonMode := ⟨0⟩
def IntComparisonMode.LessThan : IntComparisonMode := ⟨1⟩
def IntComparisonMode.LessThanOrEqual : IntComparisonMode := ⟨2⟩
def IntComparisonMode.False : IntComparisonMode := ⟨3⟩
def IntComparisonMode.NotEqual : IntComparisonMode := ⟨4⟩
def IntComparisonMode.GreaterThanOrEqual : IntComparisonMode := ⟨5⟩
def IntComparisonMode.GreaterThan : IntComparisonMode := ⟨6⟩
def IntComparisonMode.True : IntComparisonMode := ⟨7⟩
def IntComparisonMode.NotGreaterThanOrEqual : IntComparisonMode := IntComparisonMode.LessThan
def IntComparisonMode.NotGreaterThan : IntComparisonMode := IntComparisonMode.LessThanOrEqual
def IntComparisonMode.NotLessThan : IntComparisonMode := IntComparisonMode.GreaterThanOrEqual
def IntComparisonMode.NotLessThanOrEqual : IntComparisonMode := IntComparisonMode.GreaterThan

/-- The eight enumerators of `IntComparisonMode` that are given a code of their
own, in the order of their declaration. -/
def IntComparisonMode.all : List IntComparisonMode :=
  [.Equal, .LessThan, .LessThanOrEqual, .False, .NotEqual, .GreaterThanOrEqual, .GreaterThan,
   .True]

/-- Modelled from the spec: the comparison a mode stands for. The header gives
the enumerators their codes only, and no function that evaluates a mode is among
the sources; each code is read as the comparison its enumerator names, over a
linearly ordered type. A code above 7 names no comparison. -/
def IntComparisonMode.holds {α : Type} [LinearOrder α] (mode : IntComparisonMode) (a b : α) :
    Option Bool :=
  match mode.code with
  | 0 => some (decide (a = b))
  | 1 => some (decide (a < b))
  | 2 => some (decide (a ≤ b))
  | 3 => some false
  | 4 => some (decide (a ≠ b))
  | 5 => some (decide (a ≥ b))
  | 6 => some (decide (a > b))
  | 7 => some true
  | _ => none

/-! ### The ternary logic vocabulary -/

/-- The enumeration `enum class TernaryLogicUseFlags : uint8_t`, as the value of its
underlying type. -/
structure TernaryLogicUseFlags where
  bits : Nat
  deriving DecidableEq, Repr

def TernaryLogicUseFlags.None : TernaryLogicUseFlags := ⟨0⟩
def TernaryLogicUseFlags.A : TernaryLogicUseFlags := ⟨1 <<< 0⟩
def TernaryLogicUseFlags.B : TernaryLogicUseFlags := ⟨1 <<< 1⟩
def TernaryLogicUseFlags.C : TernaryLogicUseFlags := ⟨1 <<< 2⟩
def TernaryLogicUseFlags.AB : TernaryLogicUseFlags :=
  ⟨TernaryLogicUseFlags.A.bits ||| TernaryLogicUseFlags.B.bits⟩
def TernaryLogicUseFlags.AC : TernaryLogicUseFlags :=
  ⟨TernaryLogicUseFlags.A.bits ||| TernaryLogicUseFlags.C.bits⟩
def TernaryLogicUseFlags.BC : TernaryLogicUseFlags :=
  ⟨TernaryLogicUseFlags.B.bits ||| TernaryLogicUseFlags.C.bits⟩
def TernaryLogicUseFlags.ABC : TernaryLogicUseFlags :=
  ⟨TernaryLogicUseFlags.A.bits ||| TernaryLogicUseFlags.B.bits ||| TernaryLogicUseFlags.C.bits⟩

/-- The eight enumerators of `TernaryLogicUseFlags`. -/
def TernaryLogicUseFlags.all : List TernaryLogicUseFlags :=
  [.None, .A, .B, .C, .AB, .AC, .BC, .ABC]

/-- A use-flag set contains an input when it has the input's bit. -/
def TernaryLogicUseFlags.Uses (flags input : TernaryLogicUseFlags) : Prop :=
  Carries flags.bits input.bits

/-- The enumeration `enum class TernaryLogicOperKind : uint8_t`, as the value of its
underlying type. -/
structure TernaryLogicOperKind where
  code : Nat
  deriving DecidableEq, Repr

def TernaryLogicOperKind.None : TernaryLogicOperKind := ⟨0⟩
def TernaryLogicOperKind.Select : TernaryLogicOperKind := ⟨1⟩
def TernaryLogicOperKind.True : TernaryLogicOperKind := ⟨2⟩
def TernaryLogicOperKind.False : TernaryLogicOperKind := ⟨3⟩
def TernaryLogicOperKind.Not : TernaryLogicOperKind := ⟨4⟩
def TernaryLogicOperKind.And : TernaryLogicOperKind := ⟨5⟩
def TernaryLogicOperKind.Nand : TernaryLogicOperKind := ⟨6⟩
def TernaryLogicOperKind.Or : TernaryLogicOperKind := ⟨7⟩
def TernaryLogicOperKind.Nor : TernaryLogicOperKind := ⟨8⟩
def TernaryLogicOperKind.Xor : TernaryLogicOperKind := ⟨9⟩
def TernaryLogicOperKind.Xnor : TernaryLogicOperKind := ⟨10⟩
def TernaryLogicOperKind.Cond : TernaryLogicOperKind := ⟨11⟩
def TernaryLogicOperKind.Major : TernaryLogicOperKind := ⟨12⟩
def TernaryLogicOperKind.Minor : TernaryLogicOperKind := ⟨13⟩

/-- The fourteen enumerators of `TernaryLogicOperKind`, in the order of their declaration. -/
def TernaryLogicOperKind.all : List TernaryLogicOperKind :=
  [.None, .Select, .True, .False, .Not, .And, .Nand, .Or, .Nor, .Xor, .Xnor, .Cond, .Major,
   .Minor]

/-- The value a bit-field of the given width holds after `value` has been stored in it. -/
def bitField (width value : Nat) : Nat :=
  value % 2 ^ width

/-- The entry `struct TernaryLogicInfo`: three operator slots of 4 bits, each with a use-flag
set of 3 bits. -/
structure TernaryLogicInfo where
  oper1 : TernaryLogicOperKind
  oper1Use : TernaryLogicUseFlags
  oper2 : TernaryLogicOperKind
  oper2Use : TernaryLogicUseFlags
  oper3 : TernaryLogicOperKind
  oper3Use : TernaryLogicUseFlags
  deriving DecidableEq, Repr

namespace TernaryLogicInfo

/-- The values of an entry are what its bit-fields can hold: operators below `2 ^ 4`,
use-flag sets below `2 ^ 3`. -/
def InFields (self : TernaryLogicInfo) : Prop :=
  self.oper1.code < 2 ^ 4 ∧ self.oper1Use.bits < 2 ^ 3 ∧ self.oper2.code < 2 ^ 4 ∧
    self.oper2Use.bits < 2 ^ 3 ∧ self.oper3.code < 2 ^ 4 ∧ self.oper3Use.bits < 2 ^ 3

instance (self : TernaryLogicInfo) : Decidable self.InFields := by
  unfold InFields
  infer_instance

/-- The assignment of an operator and a use-flag set to the first slot. -/
def storeSlot1 (self : TernaryLogicInfo) (oper : TernaryLogicOperKind)
    (use : TernaryLogicUseFlags) : TernaryLogicInfo :=
  { self with oper1 := ⟨bitField 4 oper.code⟩, oper1Use := ⟨bitField 3 use.bits⟩ }

/-- The assignment of an operator and a use-flag set to the second slot. -/
def storeSlot2 (self : TernaryLogicInfo) (oper : TernaryLogicOperKind)
    (use : TernaryLogicUseFlags) : TernaryLogicInfo :=
  { self with oper2 := ⟨bitField 4 oper.code⟩, oper2Use := ⟨bitField 3 use.bits⟩ }

/-- The assignment of an operator and a use-flag set to the third slot. -/
def storeSlot3 (self : TernaryLogicInfo) (oper : TernaryLogicOperKind)
    (use : TernaryLogicUseFlags) : TernaryLogicInfo :=
  { self with oper3 := ⟨bitField 4 oper.code⟩, oper3Use := ⟨bitField 3 use.bits⟩ }

/-- The method `GetAllUseFlags`; `static_cast<uint8_t>` and the `uint8_t` accumulator
keep the low eight bits. -/
def GetAllUseFlags (self : TernaryLogicInfo) : TernaryLogicUseFlags :=
  let useFlagsBits : Nat := 0
  let useFlagsBits := (useFlagsBits ||| self.oper1Use.bits % 256) % 256
  let useFlagsBits := (useFlagsBits ||| self.oper2Use.bits % 256) % 256
  let useFlagsBits := (useFlagsBits ||| self.oper3Use.bits % 256) % 256
  ⟨useFlagsBits⟩

end TernaryLogicInfo

/-- An entry with one operator: `And` of the inputs A and B. -/
def sampleTernary : TernaryLogicInfo :=
  { oper1 := .And, oper1Use := .AB, oper2 := .None, oper2Use := .None, oper3 := .None,
    oper3Use := .None }

/-- Modelled from the spec: an intrinsic node `GenTreeHWIntrinsic` of an x86
build, declared in a header that is not among the sources, reduced to what the
accessors used by `lookupIns` return. -/
structure GenTreeHWIntrinsic where
  gtHWIntrinsicId : NamedIntrinsic
  gtSimdBaseType : var_types
  gtType : var_types

def GenTreeHWIntrinsic.GetHWIntrinsicId (node : GenTreeHWIntrinsic) : NamedIntrinsic :=
  node.gtHWIntrinsicId

def GenTreeHWIntrinsic.GetSimdBaseType (node : GenTreeHWIntrinsic) : var_types :=
  node.gtSimdBaseType

def GenTreeHWIntrinsic.TypeGet (node : GenTreeHWIntrinsic) : var_types :=
  node.gtType

/-- The function `lookupIns(GenTreeHWIntrinsic*, Compiler*)`. The overload
`lookupIns(NamedIntrinsic, var_types, Compiler*)` is only declared in the
header and is taken as the parameter `lookupInsOfType`; a null node is `none`. -/
def lookupIns {Compiler : Type} (lookup : Info)
    (lookupInsOfType : NamedIntrinsic → var_types → Compiler → Except JitError instruction)
    (intrinsicNode : Option GenTreeHWIntrinsic) (comp : Compiler) :
    Except JitError instruction :=
  match intrinsicNode with
  | none => .error .assertionFailed
  | some intrinsicNode =>
    let intrinsic := intrinsicNode.GetHWIntrinsicId
    let type :=
      if lookupCategory lookup intrinsic == HW_Category_Scalar then
        intrinsicNode.TypeGet
      else
        intrinsicNode.GetSimdBaseType
    lookupInsOfType intrinsic type comp

/-! ### The case labels of `GetMultiRegCount` -/

/-- The case labels of the x86 switch of `GetMultiRegCount`: the operations that divide a
scalar result in two (quotient and remainder). -/
def divRems : List NamedIntrinsic :=
  [.NI_X86Base_DivRem, .NI_X86Base_X64_DivRem]

/-- A descriptor with the given flag word and category and no fixed size or arity. -/
def descriptor (id : NamedIntrinsic) (flags : HWIntrinsicFlag)
    (category : HWIntrinsicCategory) : HWIntrinsicInfo NamedIntrinsic HWIntrinsicCategory :=
  { name := "", flags := flags, id := id, ins := [], isa := 0, simdSize := -1, numArgs := -1,
    category := category }

/-- A registry that gives every identifier the same flag word and category. -/
def uniformRegistry (flags : HWIntrinsicFlag) (category : HWIntrinsicCategory) : Info :=
  fun id => descriptor id flags category

/-- An x86 intrinsic node whose own type and SIMD base type differ. -/
def sampleNode : GenTreeHWIntrinsic :=
  { gtHWIntrinsicId := .NI_Vector128_Create, gtSimdBaseType := .other 7, gtType := .other 9 }

end XArch

/-! ## The ARM64 family -/

namespace Arm64

/-- The ARM64 `enum HWIntrinsicCategory`. -/
inductive HWIntrinsicCategory where
  | HW_Category_SIMD
  | HW_Category_Scalar
  | HW_Category_MemoryLoad
  | HW_Category_MemoryStore
  | HW_Category_ShiftLeftByImmediate
  | HW_Category_ShiftRightByImmediate
  | HW_Category_SIMDByIndexedElement
  | HW_Category_Helper
  | HW_Category_Special
  deriving DecidableEq, Repr

export HWIntrinsicCategory (HW_Category_SIMD HW_Category_Scalar HW_Category_MemoryLoad
  HW_Category_MemoryStore HW_Category_ShiftLeftByImmediate HW_Category_ShiftRightByImmediate
  HW_Category_SIMDByIndexedElement HW_Category_Helper HW_Category_Special)

def HW_Flag_HasImmediateOperand : HWIntrinsicFlag := 0x400
def HW_Flag_HasRMWSemantics : HWIntrinsicFlag := 0x800
def HW_Flag_SIMDScalar : HWIntrinsicFlag := 0x1000
def HW_Flag_SupportsContainment : HWIntrinsicFlag := 0x2000
def HW_Flag_NeedsConsecutiveRegisters : HWIntrinsicFlag := 0x4000
def HW_Flag_Scalable : HWIntrinsicFlag := 0x8000
def HW_Flag_ReturnsPerElementMask : HWIntrinsicFlag := 0x10000
def HW_Flag_ExplicitMaskedOperation : HWIntrinsicFlag := 0x20000
def HW_Flag_LowMaskedOperation : HWIntrinsicFlag := 0x40000
def HW_Flag_OptionalEmbeddedMaskedOperation : HWIntrinsicFlag := 0x80000
def HW_Flag_EmbeddedMaskedOperation : HWIntrinsicFlag := 0x100000
def HW_Flag_HasScalarInputVariant : HWIntrinsicFlag := 0x200000
def HW_Flag_LowVectorOperation : HWIntrinsicFlag := 0x400000
def HW_Flag_ZeroingMaskedOperation : HWIntrinsicFlag := 0x800000
def HW_Flag_BaseTypeFromValueTupleArg : HWIntrinsicFlag := 0x1000000
def HW_Flag_ReduceOperation : HWIntrinsicFlag := 0x2000000
def HW_Flag_HasAllMaskVariant : HWIntrinsicFlag := 0x4000000

/-- The ARM64 flag vocabulary: the shared flags and the ARM64-specific ones. -/
def allFlags : List HWIntrinsicFlag :=
  commonFlags ++
    [HW_Flag_HasImmediateOperand, HW_Flag_HasRMWSemantics, HW_Flag_SIMDScalar,
     HW_Flag_SupportsContainment, HW_Flag_NeedsConsecutiveRegisters, HW_Flag_Scalable,
     HW_Flag_ReturnsPerElementMask, HW_Flag_ExplicitMaskedOperation,
     HW_Flag_LowMaskedOperation, HW_Flag_OptionalEmbeddedMaskedOperation,
     HW_Flag_EmbeddedMaskedOperation, HW_Flag_HasScalarInputVariant,
     HW_Flag_LowVectorOperation, HW_Flag_ZeroingMaskedOperation,
     HW_Flag_BaseTypeFromValueTupleArg, HW_Flag_ReduceOperation, HW_Flag_HasAllMaskVariant]

/-- Modelled from the spec: the `NamedIntrinsic` enumeration of an ARM64 build,
whose declaration is not among the sources. The identifiers the header names
are constructors; `other n` stands for every identifier it does not name. -/
inductive NamedIntrinsic where
  | NI_AdvSimd_Arm64_LoadPairScalarVector64
  | NI_AdvSimd_Arm64_LoadPairScalarVector64NonTemporal
  | NI_AdvSimd_Arm64_LoadPairVector64
  | NI_AdvSimd_Arm64_LoadPairVector64NonTemporal
  | NI_AdvSimd_Arm64_LoadPairVector128
  | NI_AdvSimd_Arm64_LoadPairVector128NonTemporal
  | NI_AdvSimd_Load2xVector64AndUnzip
  | NI_AdvSimd_Arm64_Load2xVector128AndUnzip
  | NI_AdvSimd_Load2xVector64
  | NI_AdvSimd_Arm64_Load2xVector128
  | NI_AdvSimd_LoadAndInsertScalarVector64x2
  | NI_AdvSimd_Arm64_LoadAndInsertScalarVector128x2
  | NI_AdvSimd_LoadAndReplicateToVector64x2
  | NI_AdvSimd_Arm64_LoadAndReplicateToVector128x2
  | NI_Sve_Load2xVectorAndUnzip
  | NI_AdvSimd_Load3xVector64AndUnzip
  | NI_AdvSimd_Arm64_Load3xVector128AndUnzip
  | NI_AdvSimd_Load3xVector64
  | NI_AdvSimd_Arm64_Load3xVector128
  | NI_AdvSimd_LoadAndInsertScalarVector64x3
  | NI_AdvSimd_Arm64_LoadAndInsertScalarVector128x3
  | NI_AdvSimd_LoadAndReplicateToVector64x3
  | NI_AdvSimd_Arm64_LoadAndReplicateToVector128x3
  | NI_Sve_Load3xVectorAndUnzip
  | NI_AdvSimd_Load4xVector64AndUnzip
  | NI_AdvSimd_Arm64_Load4xVector128AndUnzip
  | NI_AdvSimd_Load4xVector64
  | NI_AdvSimd_Arm64_Load4xVector128
  | NI_AdvSimd_LoadAndInsertScalarVector64x4
  | NI_AdvSimd_Arm64_LoadAndInsertScalarVector128x4
  | NI_AdvSimd_LoadAndReplicateToVector64x4
  | NI_AdvSimd_Arm64_LoadAndReplicateToVector128x4
  | NI_Sve_Load4xVectorAndUnzip
  | NI_Vector64_Create
  | NI_Vector128_Create
  | NI_Vector64_CreateScalar
  | NI_Vector128_CreateScalar
  | NI_Vector64_CreateScalarUnsafe
  | NI_Vector128_CreateScalarUnsafe
  | NI_Vector64_GetElement
  | NI_Vector128_GetElement
  | NI_Vector64_ToScalar
  | NI_Vector128_ToScalar
  | NI_Sve_ConditionalExtractAfterLastActiveElement
  | NI_Sve_ConditionalExtractAfterLastActiveElementScalar
  | NI_Sve_ConditionalExtractLastActiveElement
  | NI_Sve_ConditionalExtractLastActiveElementScalar
  | NI_Sve_SaturatingDecrementBy16BitElementCount
  | NI_Sve_SaturatingDecrementBy16BitElementCountScalar
  | NI_Sve_SaturatingDecrementBy32BitElementCount
  | NI_Sve_SaturatingDecrementBy32BitElementCountScalar
  | NI_Sve_SaturatingDecrementBy64BitElementCount
  | NI_Sve_SaturatingDecrementBy64BitElementCountScalar
  | NI_Sve_SaturatingIncrementBy16BitElementCount
  | NI_Sve_SaturatingIncrementBy16BitElementCountScalar
  | NI_Sve_SaturatingIncrementBy32BitElementCount
  | NI_Sve_SaturatingIncrementBy32BitElementCountScalar
  | NI_Sve_SaturatingIncrementBy64BitElementCount
  | NI_Sve_SaturatingIncrementBy64BitElementCountScalar
  | NI_Sve_And
  | NI_Sve_And_Predicates
  | NI_Sve_BitwiseClear
  | NI_Sve_BitwiseClear_Predicates
  | NI_Sve_Xor
  | NI_Sve_Xor_Predicates
  | NI_Sve_Or
  | NI_Sve_Or_Predicates
  | NI_Sve_ZipHigh
  | NI_Sve_ZipHigh_Predicates
  | NI_Sve_ZipLow
  | NI_Sve_ZipLow_Predicates
  | NI_Sve_UnzipOdd
  | NI_Sve_UnzipOdd_Predicates
  | NI_Sve_UnzipEven
  | NI_Sve_UnzipEven_Predicates
  | NI_Sve_TransposeEven
  | NI_Sve_TransposeEven_Predicates
  | NI_Sve_TransposeOdd
  | NI_Sve_TransposeOdd_Predicates
  | NI_Sve_ReverseElement
  | NI_Sve_ReverseElement_Predicates
  | NI_Sve_ConditionalSelect
  | NI_Sve_ConditionalSelect_Predicates
  | NI_AdvSimd_Insert
  | NI_AdvSimd_InsertScalar
  | NI_AdvSimd_LoadAndInsertScalar
  | NI_AdvSimd_Arm64_LoadAndInsertScalar
  | NI_AdvSimd_Arm64_InsertSelectedScalar
  | NI_Sve_SaturatingDecrementBy8BitElementCount
  | NI_Sve_SaturatingIncrementBy8BitElementCount
  | NI_Sve_MultiplyAddRotateComplexBySelectedScalar
  | NI_Sve2_DotProductRotateComplexBySelectedIndex
  | other (n : Nat)
  deriving Repr

namespace NamedIntrinsic

/-- The identifiers the header names, in the order it first mentions them. -/
def named : List NamedIntrinsic :=
  [NI_AdvSimd_Arm64_LoadPairScalarVector64,
   NI_AdvSimd_Arm64_LoadPairScalarVector64NonTemporal,
   NI_AdvSimd_Arm64_LoadPairVector64,
   NI_AdvSimd_Arm64_LoadPairVector64NonTemporal,
   NI_AdvSimd_Arm64_LoadPairVector128,
   NI_AdvSimd_Arm64_LoadPairVector128NonTemporal,
   NI_AdvSimd_Load2xVector64AndUnzip,
   NI_AdvSimd_Arm64_Load2xVector128AndUnzip,
   NI_AdvSimd_Load2xVector64,
   NI_AdvSimd_Arm64_Load2xVector128,
   NI_AdvSimd_LoadAndInsertScalarVector64x2,
   NI_AdvSimd_Arm64_LoadAndInsertScalarVector128x2,
   NI_AdvSimd_LoadAndReplicateToVector64x2,
   NI_AdvSimd_Arm64_LoadAndReplicateToVector128x2,
   NI_Sve_Load2xVectorAndUnzip,
   NI_AdvSimd_Load3xVector64AndUnzip,
   NI_AdvSimd_Arm64_Load3xVector128AndUnzip,
   NI_AdvSimd_Load3xVector64,
   NI_AdvSimd_Arm64_Load3xVector128,
   NI_AdvSimd_LoadAndInsertScalarVector64x3,
   NI_AdvSimd_Arm64_LoadAndInsertScalarVector128x3,
   NI_AdvSimd_LoadAndReplicateToVector64x3,
   NI_AdvSimd_Arm64_LoadAndReplicateToVector128x3,
   NI_Sve_Load3xVectorAndUnzip,
   NI_AdvSimd_Load4xVector64AndUnzip,
   NI_AdvSimd_Arm64_Load4xVector128AndUnzip,
   NI_AdvSimd_Load4xVector64,
   NI_AdvSimd_Arm64_Load4xVector128,
   NI_AdvSimd_LoadAndInsertScalarVector64x4,
   NI_AdvSimd_Arm64_LoadAndInsertScalarVector128x4,
   NI_AdvSimd_LoadAndReplicateToVector64x4,
   NI_AdvSimd_Arm64_LoadAndReplicateToVector128x4,
   NI_Sve_Load4xVectorAndUnzip,
   NI_Vector64_Create,
   NI_Vector128_Create,
   NI_Vector64_CreateScalar,
   NI_Vector128_CreateScalar,
   NI_Vector64_CreateScalarUnsafe,
   NI_Vector128_CreateScalarUnsafe,
   NI_Vector64_GetElement,
   NI_Vector128_GetElement,
   NI_Vector64_ToScalar,
   NI_Vector128_ToScalar,
   NI_Sve_ConditionalExtractAfterLastActiveElement,
   NI_Sve_ConditionalExtractAfterLastActiveElementScalar,
   NI_Sve_ConditionalExtractLastActiveElement,
   NI_Sve_ConditionalExtractLastActiveElementScalar,
   NI_Sve_SaturatingDecrementBy16BitElementCount,
   NI_Sve_SaturatingDecrementBy16BitElementCountScalar,
   NI_Sve_SaturatingDecrementBy32BitElementCount,
   NI_Sve_SaturatingDecrementBy32BitElementCountScalar,
   NI_Sve_SaturatingDecrementBy64BitElementCount,
   NI_Sve_SaturatingDecrementBy64BitElementCountScalar,
   NI_Sve_SaturatingIncrementBy16BitElementCount,
   NI_Sve_SaturatingIncrementBy16BitElementCountScalar,
   NI_Sve_SaturatingIncrementBy32BitElementCount,
   NI_Sve_SaturatingIncrementBy32BitElementCountScalar,
   NI_Sve_SaturatingIncrementBy64BitElementCount,
   NI_Sve_SaturatingIncrementBy64BitElementCountScalar,
   NI_Sve_And,
   NI_Sve_And_Predicates,
   NI_Sve_BitwiseClear,
   NI_Sve_BitwiseClear_Predicates,
   NI_Sve_Xor,
   NI_Sve_Xor_Predicates,
   NI_Sve_Or,
   NI_Sve_Or_Predicates,
   NI_Sve_ZipHigh,
   NI_Sve_ZipHigh_Predicates,
   NI_Sve_ZipLow,
   NI_Sve_ZipLow_Predicates,
   NI_Sve_UnzipOdd,
   NI_Sve_UnzipOdd_Predicates,
   NI_Sve_UnzipEven,
   NI_Sve_UnzipEven_Predicates,
   NI_Sve_TransposeEven,
   NI_Sve_TransposeEven_Predicates,
   NI_Sve_TransposeOdd,
   NI_Sve_TransposeOdd_Predicates,
   NI_Sve_ReverseElement,
   NI_Sve_ReverseElement_Predicates,
   NI_Sve_ConditionalSelect,
   NI_Sve_ConditionalSelect_Predicates,
   NI_AdvSimd_Insert,
   NI_AdvSimd_InsertScalar,
   NI_AdvSimd_LoadAndInsertScalar,
   NI_AdvSimd_Arm64_LoadAndInsertScalar,
   NI_AdvSimd_Arm64_InsertSelectedScalar,
   NI_Sve_SaturatingDecrementBy8BitElementCount,
   NI_Sve_SaturatingIncrementBy8BitElementCount,
   NI_Sve_MultiplyAddRotateComplexBySelectedScalar,
   NI_Sve2_DotProductRotateComplexBySelectedIndex]

/-- An injective numbering of the identifiers, used only to decide equality
(the numeric values of the enumeration are not part of the model). -/
def code : NamedIntrinsic → Nat
  | NI_AdvSimd_Arm64_LoadPairScalarVector64 => 0
  | NI_AdvSimd_Arm64_LoadPairScalarVector64NonTemporal => 1
  | NI_AdvSimd_Arm64_LoadPairVector64 => 2
  | NI_AdvSimd_Arm64_LoadPairVector64NonTemporal => 3
  | NI_AdvSimd_Arm64_LoadPairVector128 => 4
  | NI_AdvSimd_Arm64_LoadPairVector128NonTemporal => 5
  | NI_AdvSimd_Load2xVector64AndUnzip => 6
  | NI_AdvSimd_Arm64_Load2xVector128AndUnzip => 7
  | NI_AdvSimd_Load2xVector64 => 8
  | NI_AdvSimd_Arm64_Load2xVector128 => 9
  | NI_AdvSimd_LoadAndInsertScalarVector64x2 => 10
  | NI_AdvSimd_Arm64_LoadAndInsertScalarVector128x2 => 11
  | NI_AdvSimd_LoadAndReplicateToVector64x2 => 12
  | NI_AdvSimd_Arm64_LoadAndReplicateToVector128x2 => 13
  | NI_Sve_Load2xVectorAndUnzip => 14
  | NI_AdvSimd_Load3xVector64AndUnzip => 15
  | NI_AdvSimd_Arm64_Load3xVector128AndUnzip => 16
  | NI_AdvSimd_Load3xVector64 => 17
  | NI_AdvSimd_Arm64_Load3xVector128 => 18
  | NI_AdvSimd_LoadAndInsertScalarVector64x3 => 19
  | NI_AdvSimd_Arm64_LoadAndInsertScalarVector128x3 => 20
  | NI_AdvSimd_LoadAndReplicateToVector64x3 => 21
  | NI_AdvSimd_Arm64_LoadAndReplicateToVector128x3 => 22
  | NI_Sve_Load3xVectorAndUnzip => 23
  | NI_AdvSimd_Load4xVector64AndUnzip => 24
  | NI_AdvSimd_Arm64_Load4xVector128AndUnzip => 25
  | NI_AdvSimd_Load4xVector64 => 26
  | NI_AdvSimd_Arm64_Load4xVector128 => 27
  | NI_AdvSimd_LoadAndInsertScalarVector64x4 => 28
  | NI_AdvSimd_Arm64_LoadAndInsertScalarVector128x4 => 29
  | NI_AdvSimd_LoadAndReplicateToVector64x4 => 30
  | NI_AdvSimd_Arm64_LoadAndReplicateToVector128x4 => 31
  | NI_Sve_Load4xVectorAndUnzip => 32
  | NI_Vector64_Create => 33
  | NI_Vector128_Create => 34
  | NI_Vector64_CreateScalar => 35
  | NI_Vector128_CreateScalar => 36
  | NI_Vector64_CreateScalarUnsafe => 37
  | NI_Vector128_CreateScalarUnsafe => 38
  | NI_Vector64_GetElement => 39
  | NI_Vector128_GetElement => 40
  | NI_Vector64_ToScalar => 41
  | NI_Vector128_ToScalar => 42
  | NI_Sve_ConditionalExtractAfterLastActiveElement => 43
  | NI_Sve_ConditionalExtractAfterLastActiveElementScalar => 44
  | NI_Sve_ConditionalExtractLastActiveElement => 45
  | NI_Sve_ConditionalExtractLastActiveElementScalar => 46
  | NI_Sve_SaturatingDecrementBy16BitElementCount => 47
  | NI_Sve_SaturatingDecrementBy16BitElementCountScalar => 48
  | NI_Sve_SaturatingDecrementBy32BitElementCount => 49
  | NI_Sve_SaturatingDecrementBy32BitElementCountScalar => 50
  | NI_Sve_SaturatingDecrementBy64BitElementCount => 51
  | NI_Sve_SaturatingDecrementBy64BitElementCountScalar => 52
  | NI_Sve_SaturatingIncrementBy16BitElementCount => 53
  | NI_Sve_SaturatingIncrementBy16BitElementCountScalar => 54
  | NI_Sve_SaturatingIncrementBy32BitElementCount => 55
  | NI_Sve_SaturatingIncrementBy32BitElementCountScalar => 56
  | NI_Sve_SaturatingIncrementBy64BitElementCount => 57
  | NI_Sve_SaturatingIncrementBy64BitElementCountScalar => 58
  | NI_Sve_And => 59
  | NI_Sve_And_Predicates => 60
  | NI_Sve_BitwiseClear => 61
  | NI_Sve_BitwiseClear_Predicates => 62
  | NI_Sve_Xor => 63
  | NI_Sve_Xor_Predicates => 64
  | NI_Sve_Or => 65
  | NI_Sve_Or_Predicates => 66
  | NI_Sve_ZipHigh => 67
  | NI_Sve_ZipHigh_Predicates => 68
  | NI_Sve_ZipLow => 69
  | NI_Sve_ZipLow_Predicates => 70
  | NI_Sve_UnzipOdd => 71
  | NI_Sve_UnzipOdd_Predicates => 72
  | NI_Sve_UnzipEven => 73
  | NI_Sve_UnzipEven_Predicates => 74
  | NI_Sve_TransposeEven => 75
  | NI_Sve_TransposeEven_Predicates => 76
  | NI_Sve_TransposeOdd => 77
  | NI_Sve_TransposeOdd_Predicates => 78
  | NI_Sve_ReverseElement => 79
  | NI_Sve_ReverseElement_Predicates => 80
  | NI_Sve_ConditionalSelect => 81
  | NI_Sve_ConditionalSelect_Predicates => 82
  | NI_AdvSimd_Insert => 83
  | NI_AdvSimd_InsertScalar => 84
  | NI_AdvSimd_LoadAndInsertScalar => 85
  | NI_AdvSimd_Arm64_LoadAndInsertScalar => 86
  | NI_AdvSimd_Arm64_InsertSelectedScalar => 87
  | NI_Sve_SaturatingDecrementBy8BitElementCount => 88
  | NI_Sve_SaturatingIncrementBy8BitElementCount => 89
  | NI_Sve_MultiplyAddRotateComplexBySelectedScalar => 90
  | NI_Sve2_DotProductRotateComplexBySelectedIndex => 91
  | other n => 92 + n

/-- The inverse of `code`. -/
def decode (c : Nat) : NamedIntrinsic :=
  if c < 92 then named.getD c (other 0) else other (c - 92)

theorem decode_code (id : NamedIntrinsic) : decode (code id) = id := by
  cases id <;> first | rfl | simp [decode, code]

instance : DecidableEq NamedIntrinsic := fun a b =>
  decidable_of_iff (code a = code b)
    ⟨fun h => by rw [← decode_code a, ← decode_code b, h], fun h => by rw [h]⟩

end NamedIntrinsic

export NamedIntrinsic (NI_AdvSimd_Arm64_LoadPairScalarVector64
  NI_AdvSimd_Arm64_LoadPairScalarVector64NonTemporal NI_AdvSimd_Arm64_LoadPairVector64
  NI_AdvSimd_Arm64_LoadPairVector64NonTemporal NI_AdvSimd_Arm64_LoadPairVector128
  NI_AdvSimd_Arm64_LoadPairVector128NonTemporal NI_AdvSimd_Load2xVector64AndUnzip
  NI_AdvSimd_Arm64_Load2xVector128AndUnzip NI_AdvSimd_Load2xVector64
  NI_AdvSimd_Arm64_Load2xVector128 NI_AdvSimd_LoadAndInsertScalarVector64x2
  NI_AdvSimd_Arm64_LoadAndInsertScalarVector128x2 NI_AdvSimd_LoadAndReplicateToVector64x2
  NI_AdvSimd_Arm64_LoadAndReplicateToVector128x2 NI_Sve_Load2xVectorAndUnzip
  NI_AdvSimd_Load3xVector64AndUnzip NI_AdvSimd_Arm64_Load3xVector128AndUnzip
  NI_AdvSimd_Load3xVector64 NI_AdvSimd_Arm64_Load3xVector128
  NI_AdvSimd_LoadAndInsertScalarVector64x3 NI_AdvSimd_Arm64_LoadAndInsertScalarVector128x3
  NI_AdvSimd_LoadAndReplicateToVector64x3 NI_AdvSimd_Arm64_LoadAndReplicateToVector128x3
  NI_Sve_Load3xVectorAndUnzip NI_AdvSimd_Load4xVector64AndUnzip
  NI_AdvSimd_Arm64_Load4xVector128AndUnzip NI_AdvSimd_Load4xVector64
  NI_AdvSimd_Arm64_Load4xVector128 NI_AdvSimd_LoadAndInsertScalarVector64x4
  NI_AdvSimd_Arm64_LoadAndInsertScalarVector128x4 NI_AdvSimd_LoadAndReplicateToVector64x4
  NI_AdvSimd_Arm64_LoadAndReplicateToVector128x4 NI_Sve_Load4xVectorAndUnzip
  NI_Vector64_Create NI_Vector128_Create NI_Vector64_CreateScalar NI_Vector128_CreateScalar
  NI_Vector64_CreateScalarUnsafe NI_Vector128_CreateScalarUnsafe NI_Vector64_GetElement
  NI_Vector128_GetElement NI_Vector64_ToScalar NI_Vector128_ToScalar
  NI_Sve_ConditionalExtractAfterLastActiveElement
  NI_Sve_ConditionalExtractAfterLastActiveElementScalar
  NI_Sve_ConditionalExtractLastActiveElement NI_Sve_ConditionalExtractLastActiveElementScalar
  NI_Sve_SaturatingDecrementBy16BitElementCount
  NI_Sve_SaturatingDecrementBy16BitElementCountScalar
  NI_Sve_SaturatingDecrementBy32BitElementCount
  NI_Sve_SaturatingDecrementBy32BitElementCountScalar
  NI_Sve_SaturatingDecrementBy64BitElementCount
  NI_Sve_SaturatingDecrementBy64BitElementCountScalar
  NI_Sve_SaturatingIncrementBy16BitElementCount
  NI_Sve_SaturatingIncrementBy16BitElementCountScalar
  NI_Sve_SaturatingIncrementBy32BitElementCount
  NI_Sve_SaturatingIncrementBy32BitElementCountScalar
  NI_Sve_SaturatingIncrementBy64BitElementCount
  NI_Sve_SaturatingIncrementBy64BitElementCountScalar
  NI_Sve_And NI_Sve_And_Predicates NI_Sve_BitwiseClear NI_Sve_BitwiseClear_Predicates
  NI_Sve_Xor NI_Sve_Xor_Predicates NI_Sve_Or NI_Sve_Or_Predicates NI_Sve_ZipHigh
  NI_Sve_ZipHigh_Predicates NI_Sve_ZipLow NI_Sve_ZipLow_Predicates NI_Sve_UnzipOdd
  NI_Sve_UnzipOdd_Predicates NI_Sve_UnzipEven NI_Sve_UnzipEven_Predicates
  NI_Sve_TransposeEven NI_Sve_TransposeEven_Predicates NI_Sve_TransposeOdd
  NI_Sve_TransposeOdd_Predicates NI_Sve_ReverseElement NI_Sve_ReverseElement_Predicates
  NI_Sve_ConditionalSelect NI_Sve_ConditionalSelect_Predicates NI_AdvSimd_Insert
  NI_AdvSimd_InsertScalar NI_AdvSimd_LoadAndInsertScalar NI_AdvSimd_Arm64_LoadAndInsertScalar
  NI_AdvSimd_Arm64_InsertSelectedScalar NI_Sve_SaturatingDecrementBy8BitElementCount
  NI_Sve_SaturatingIncrementBy8BitElementCount NI_Sve_MultiplyAddRotateComplexBySelectedScalar
  NI_Sve2_DotProductRotateComplexBySelectedIndex)

/-- The registry of an ARM64 build. -/
abbrev Info := Registry NamedIntrinsic HWIntrinsicCategory

open HWIntrinsicInfo

def NeedsConsecutiveRegisters (lookup : Info) (id : NamedIntrinsic) : Bool :=
  let flags := lookupFlags lookup id
  (flags &&& HW_Flag_NeedsConsecutiveRegisters) != 0

def HasRMWSemantics (lookup : Info) (id : NamedIntrinsic) : Bool :=
  let flags := lookupFlags lookup id
  (flags &&& HW_Flag_HasRMWSemantics) != 0

def SupportsContainment (lookup : Info) (id : NamedIntrinsic) : Bool :=
  let flags := lookupFlags lookup id
  (flags &&& HW_Flag_SupportsContainment) != 0

def HasImmediateOperand (lookup : Info) (id : NamedIntrinsic) : Bool :=
  let flags := lookupFlags lookup id
  (flags &&& HW_Flag_HasImmediateOperand) != 0

def GetMultiRegCount (lookup : Info) (id : NamedIntrinsic) : Except JitError Int := do
  assert (IsMultiReg lookup id)
  match id with
  | NI_AdvSimd_Arm64_LoadPairScalarVector64
  | NI_AdvSimd_Arm64_LoadPairScalarVector64NonTemporal
  | NI_AdvSimd_Arm64_LoadPairVector64
  | NI_AdvSimd_Arm64_LoadPairVector64NonTemporal
  | NI_AdvSimd_Arm64_LoadPairVector128
  | NI_AdvSimd_Arm64_LoadPairVector128NonTemporal
  | NI_AdvSimd_Load2xVector64AndUnzip
  | NI_AdvSimd_Arm64_Load2xVector128AndUnzip
  | NI_AdvSimd_Load2xVector64
  | NI_AdvSimd_Arm64_Load2xVector128
  | NI_AdvSimd_LoadAndInsertScalarVector64x2
  | NI_AdvSimd_Arm64_LoadAndInsertScalarVector128x2
  | NI_AdvSimd_LoadAndReplicateToVector64x2
  | NI_AdvSimd_Arm64_LoadAndReplicateToVector128x2
  | NI_Sve_Load2xVectorAndUnzip => pure 2
  | NI_AdvSimd_Load3xVector64AndUnzip
  | NI_AdvSimd_Arm64_Load3xVector128AndUnzip
  | NI_AdvSimd_Load3xVector64
  | NI_AdvSimd_Arm64_Load3xVector128
  | NI_AdvSimd_LoadAndInsertScalarVector64x3
  | NI_AdvSimd_Arm64_LoadAndInsertScalarVector128x3
  | NI_AdvSimd_LoadAndReplicateToVector64x3
  | NI_AdvSimd_Arm64_LoadAndReplicateToVector128x3
  | NI_Sve_Load3xVectorAndUnzip => pure 3
  | NI_AdvSimd_Load4xVector64AndUnzip
  | NI_AdvSimd_Arm64_Load4xVector128AndUnzip
  | NI_AdvSimd_Load4xVector64
  | NI_AdvSimd_Arm64_Load4xVector128
  | NI_AdvSimd_LoadAndInsertScalarVector64x4
  | NI_AdvSimd_Arm64_LoadAndInsertScalarVector128x4
  | NI_AdvSimd_LoadAndReplicateToVector64x4
  | NI_AdvSimd_Arm64_LoadAndReplicateToVector128x4
  | NI_Sve_Load4xVectorAndUnzip => pure 4
  | _ => unreached

def SIMDScalar (lookup : Info) (id : NamedIntrinsic) : Bool :=
  let flags := lookupFlags lookup id
  (flags &&& HW_Flag_SIMDScalar) != 0

def IsScalable (lookup : Info) (id : NamedIntrinsic) : Bool :=
  let flags := lookupFlags lookup id
  (flags &&& HW_Flag_Scalable) != 0

def IsLowVectorOperation (lookup : Info) (id : NamedIntrinsic) : Bool :=
  let flags := lookupFlags lookup id
  (flags &&& HW_Flag_LowVectorOperation) != 0

def IsOptionalEmbeddedMaskedOperation (lookup : Info) (id : NamedIntrinsic) : Bool :=
  let flags := lookupFlags lookup id
  (flags &&& HW_Flag_OptionalEmbeddedMaskedOperation) != 0

def IsEmbeddedMaskedOperation (lookup : Info) (id : NamedIntrinsic) : Bool :=
  let flags := lookupFlags lookup id
  (flags &&& HW_Flag_EmbeddedMaskedOperation) != 0

def IsExplicitMaskedOperation (lookup : Info) (id : NamedIntrinsic) : Bool :=
  let flags := lookupFlags lookup id
  (flags &&& HW_Flag_ExplicitMaskedOperation) != 0

def IsLowMaskedOperation (lookup : Info) (id : NamedIntrinsic) : Except JitError Bool := do
  let flags := lookupFlags lookup id
  let isLowMaskedOperation := (flags &&& HW_Flag_LowMaskedOperation) != 0
  if isLowMaskedOperation then
    assert (IsExplicitMaskedOperation lookup id || IsEmbeddedMaskedOperation lookup id ||
      IsOptionalEmbeddedMaskedOperation lookup id)
  pure isLowMaskedOperation

def HasScalarInputVariant (lookup : Info) (id : NamedIntrinsic) : Bool :=
  let flags := lookupFlags lookup id
  (flags &&& HW_Flag_HasScalarInputVariant) != 0

def IsZeroingMaskedOperation (lookup : Info) (id : NamedIntrinsic) : Bool :=
  let flags := lookupFlags lookup id
  (flags &&& HW_Flag_ZeroingMaskedOperation) != 0

def BaseTypeFromValueTupleArg (lookup : Info) (id : NamedIntrinsic) : Bool :=
  let flags := lookupFlags lookup id
  (flags &&& HW_Flag_BaseTypeFromValueTupleArg) != 0

def IsReduceOperation (lookup : Info) (id : NamedIntrinsic) : Bool :=
  let flags := lookupFlags lookup id
  (flags &&& HW_Flag_ReduceOperation) != 0

def GetScalarInputVariant (lookup : Info) (id : NamedIntrinsic) :
    Except JitError NamedIntrinsic := do
  assert (HasScalarInputVariant lookup id)
  match id with
  | NI_Sve_ConditionalExtractAfterLastActiveElement =>
    pure NI_Sve_ConditionalExtractAfterLastActiveElementScalar
  | NI_Sve_ConditionalExtractLastActiveElement =>
    pure NI_Sve_ConditionalExtractLastActiveElementScalar
  | NI_Sve_SaturatingDecrementBy16BitElementCount =>
    pure NI_Sve_SaturatingDecrementBy16BitElementCountScalar
  | NI_Sve_SaturatingDecrementBy32BitElementCount =>
    pure NI_Sve_SaturatingDecrementBy32BitElementCountScalar
  | NI_Sve_SaturatingDecrementBy64BitElementCount =>
    pure NI_Sve_SaturatingDecrementBy64BitElementCountScalar
  | NI_Sve_SaturatingIncrementBy16BitElementCount =>
    pure NI_Sve_SaturatingIncrementBy16BitElementCountScalar
  | NI_Sve_SaturatingIncrementBy32BitElementCount =>
    pure NI_Sve_SaturatingIncrementBy32BitElementCountScalar
  | NI_Sve_SaturatingIncrementBy64BitElementCount =>
    pure NI_Sve_SaturatingIncrementBy64BitElementCountScalar
  | _ => unreached

def HasAllMaskVariant (lookup : Info) (id : NamedIntrinsic) : Bool :=
  let flags := lookupFlags lookup id
  (flags &&& HW_Flag_HasAllMaskVariant) != 0

def GetMaskVariant (lookup : Info) (id : NamedIntrinsic) : Except JitError NamedIntrinsic := do
  assert (HasAllMaskVariant lookup id)
  match id with
  | NI_Sve_And => pure NI_Sve_And_Predicates
  | NI_Sve_BitwiseClear => pure NI_Sve_BitwiseClear_Predicates
  | NI_Sve_Xor => pure NI_Sve_Xor_Predicates
  | NI_Sve_Or => pure NI_Sve_Or_Predicates
  | NI_Sve_ZipHigh => pure NI_Sve_ZipHigh_Predicates
  | NI_Sve_ZipLow => pure NI_Sve_ZipLow_Predicates
  | NI_Sve_UnzipOdd => pure NI_Sve_UnzipOdd_Predicates
  | NI_Sve_UnzipEven => pure NI_Sve_UnzipEven_Predicates
  | NI_Sve_TransposeEven => pure NI_Sve_TransposeEven_Predicates
  | NI_Sve_TransposeOdd => pure NI_Sve_TransposeOdd_Predicates
  | NI_Sve_ReverseElement => pure NI_Sve_ReverseElement_Predicates
  | NI_Sve_ConditionalSelect => pure NI_Sve_ConditionalSelect_Predicates
  | _ => unreached

/-- Modelled from the spec: the signature record `CORINFO_SIG_INFO`, declared in
a header that is not among the sources, reduced to the one field
`GetImmOpsPositions` reads: the unsigned argument count `numArgs`. -/
structure CORINFO_SIG_INFO where
  numArgs : Nat
  deriving DecidableEq, Repr

/-- The function `GetImmOpsPositions`. The two `int*` out-parameters are passed
as the values the caller has in `*imm1Pos` and `*imm2Pos`; the result is the
pair of values the two cells hold on return. -/
def GetImmOpsPositions (id : NamedIntrinsic) (sig : CORINFO_SIG_INFO) (_imm1Pos imm2Pos : Int) :
    Except JitError (Int × Int) :=
  match id with
  | NI_AdvSimd_Insert
  | NI_AdvSimd_InsertScalar
  | NI_AdvSimd_LoadAndInsertScalar
  | NI_AdvSimd_LoadAndInsertScalarVector64x2
  | NI_AdvSimd_LoadAndInsertScalarVector64x3
  | NI_AdvSimd_LoadAndInsertScalarVector64x4
  | NI_AdvSimd_Arm64_LoadAndInsertScalar
  | NI_AdvSimd_Arm64_LoadAndInsertScalarVector128x2
  | NI_AdvSimd_Arm64_LoadAndInsertScalarVector128x3
  | NI_AdvSimd_Arm64_LoadAndInsertScalarVector128x4 => do
    assert (sig.numArgs == 3)
    let imm1Pos := 1
    pure (imm1Pos, imm2Pos)
  | NI_AdvSimd_Arm64_InsertSelectedScalar => do
    assert (sig.numArgs == 4)
    let imm1Pos := 2
    let imm2Pos := 0
    pure (imm1Pos, imm2Pos)
  | NI_Sve_SaturatingDecrementBy16BitElementCount
  | NI_Sve_SaturatingDecrementBy32BitElementCount
  | NI_Sve_SaturatingDecrementBy64BitElementCount
  | NI_Sve_SaturatingDecrementBy8BitElementCount
  | NI_Sve_SaturatingIncrementBy16BitElementCount
  | NI_Sve_SaturatingIncrementBy32BitElementCount
  | NI_Sve_SaturatingIncrementBy64BitElementCount
  | NI_Sve_SaturatingIncrementBy8BitElementCount
  | NI_Sve_SaturatingDecrementBy16BitElementCountScalar
  | NI_Sve_SaturatingDecrementBy32BitElementCountScalar
  | NI_Sve_SaturatingDecrementBy64BitElementCountScalar
  | NI_Sve_SaturatingIncrementBy16BitElementCountScalar
  | NI_Sve_SaturatingIncrementBy32BitElementCountScalar
  | NI_Sve_SaturatingIncrementBy64BitElementCountScalar => do
    assert (sig.numArgs == 3)
    let imm1Pos := 1
    let imm2Pos := 0
    pure (imm1Pos, imm2Pos)
  | NI_Sve_MultiplyAddRotateComplexBySelectedScalar
  | NI_Sve2_DotProductRotateComplexBySelectedIndex => do
    assert (sig.numArgs == 5)
    let imm1Pos := 0
    let imm2Pos := 1
    pure (imm1Pos, imm2Pos)
  | _ => do
    assert (sig.numArgs > 0)
    let imm1Pos := 0
    pure (imm1Pos, imm2Pos)

/-- The case labels of `GetImmOpsPositions` whose body stores only `*imm1Pos`:
the `Insert` and `LoadAndInsertScalar` group. The `default` label stores only
`*imm1Pos` as well. -/
def singleImmediateIds : List NamedIntrinsic :=
  [NI_AdvSimd_Insert, NI_AdvSimd_InsertScalar, NI_AdvSimd_LoadAndInsertScalar,
   NI_AdvSimd_LoadAndInsertScalarVector64x2, NI_AdvSimd_LoadAndInsertScalarVector64x3,
   NI_AdvSimd_LoadAndInsertScalarVector64x4, NI_AdvSimd_Arm64_LoadAndInsertScalar,
   NI_AdvSimd_Arm64_LoadAndInsertScalarVector128x2,
   NI_AdvSimd_Arm64_LoadAndInsertScalarVector128x3,
   NI_AdvSimd_Arm64_LoadAndInsertScalarVector128x4]

/-- The case labels of `GetImmOpsPositions` whose body stores both `*imm1Pos`
and `*imm2Pos`. -/
def twoImmediateIds : List NamedIntrinsic :=
  [NI_AdvSimd_Arm64_InsertSelectedScalar,
   NI_Sve_SaturatingDecrementBy16BitElementCount, NI_Sve_SaturatingDecrementBy32BitElementCount,
   NI_Sve_SaturatingDecrementBy64BitElementCount, NI_Sve_SaturatingDecrementBy8BitElementCount,
   NI_Sve_SaturatingIncrementBy16BitElementCount, NI_Sve_SaturatingIncrementBy32BitElementCount,
   NI_Sve_SaturatingIncrementBy64BitElementCount, NI_Sve_SaturatingIncrementBy8BitElementCount,
   NI_Sve_SaturatingDecrementBy16BitElementCountScalar,
   NI_Sve_SaturatingDecrementBy32BitElementCountScalar,
   NI_Sve_SaturatingDecrementBy64BitElementCountScalar,
   NI_Sve_SaturatingIncrementBy16BitElementCountScalar,
   NI_Sve_SaturatingIncrementBy32BitElementCountScalar,
   NI_Sve_SaturatingIncrementBy64BitElementCountScalar,
   NI_Sve_MultiplyAddRotateComplexBySelectedScalar,
   NI_Sve2_DotProductRotateComplexBySelectedIndex]

/-- The argument count the assertion of the case of `id` in `GetImmOpsPositions`
accepts: the exact count of a labelled case, none for the `default` case, whose
assertion accepts every positive count. -/
def assertedNumArgs (id : NamedIntrinsic) : Option Nat :=
  if id ∈ singleImmediateIds then some 3
  else if id = NI_AdvSimd_Arm64_InsertSelectedScalar then some 4
  else if id = NI_Sve_MultiplyAddRotateComplexBySelectedScalar ∨
      id = NI_Sve2_DotProductRotateComplexBySelectedIndex then some 5
  else if id ∈ twoImmediateIds then some 3
  else none

/-- The argument-count assertion of the case of `id`, as a predicate on the signature. -/
def ArgCountAccepted (id : NamedIntrinsic) (sig : CORINFO_SIG_INFO) : Prop :=
  match assertedNumArgs id with
  | some n => sig.numArgs = n
  | none => 0 < sig.numArgs

/-! ### The invocation view `struct HWIntrinsic` -/

/-- Modelled from the spec: an intrinsic node `GenTreeHWIntrinsic`, declared in
a header that is not among the sources, reduced to what the accessors used by
the view return: the identifier, the ordered operand list, the SIMD base type
and the node's own result type. -/
structure GenTreeHWIntrinsic where
  gtHWIntrinsicId : NamedIntrinsic
  operands : List GenTree
  gtSimdBaseType : var_types
  gtType : var_types

namespace GenTreeHWIntrinsic

def GetHWIntrinsicId (node : GenTreeHWIntrinsic) : NamedIntrinsic :=
  node.gtHWIntrinsicId

def GetOperandCount (node : GenTreeHWIntrinsic) : Nat :=
  node.operands.length

/-- The accessor `Op(i)`: the reference to the operand at the one-based position `i`. -/
def Op (node : GenTreeHWIntrinsic) (i : Nat) : Option GenTree :=
  match i with
  | 0 => none
  | k + 1 => node.operands[k]?

def GetSimdBaseType (node : GenTreeHWIntrinsic) : var_types :=
  node.gtSimdBaseType

def TypeGet (node : GenTreeHWIntrinsic) : var_types :=
  node.gtType

end GenTreeHWIntrinsic

/-- The view `struct HWIntrinsic`; a `GenTree*` slot is an `Option GenTree`,
`nullptr` being `none`. -/
structure HWIntrinsic where
  id : NamedIntrinsic
  category : HWIntrinsicCategory
  op1 : Option GenTree
  op2 : Option GenTree
  op3 : Option GenTree
  op4 : Option GenTree
  op5 : Option GenTree
  numOperands : Nat
  baseType : var_types
  deriving DecidableEq, Repr

namespace HWIntrinsic

def codeGenIsTableDriven (lookup : Info) (self : HWIntrinsic) : Bool :=
  let isTableDrivenCategory := self.category != HW_Category_Helper
  let isTableDrivenFlag := !HasSpecialCodegen lookup self.id
  isTableDrivenCategory && isTableDrivenFlag

/-- The body of `case 1:` of the switch in `InitializeOperands`, up to the `break`. -/
def operandsFromCase1 (node : GenTreeHWIntrinsic) (self : HWIntrinsic) : HWIntrinsic :=
  { self with op1 := node.Op 1 }

/-- The body of `case 2:`, which falls through to `case 1:`. -/
def operandsFromCase2 (node : GenTreeHWIntrinsic) (self : HWIntrinsic) : HWIntrinsic :=
  operandsFromCase1 node { self with op2 := node.Op 2 }

/-- The body of `case 3:`, which falls through to `case 2:`. -/
def operandsFromCase3 (node : GenTreeHWIntrinsic) (self : HWIntrinsic) : HWIntrinsic :=
  operandsFromCase2 node { self with op3 := node.Op 3 }

/-- The body of `case 4:`, which falls through to `case 3:`. -/
def operandsFromCase4 (node : GenTreeHWIntrinsic) (self : HWIntrinsic) : HWIntrinsic :=
  operandsFromCase3 node { self with op4 := node.Op 4 }

/-- The body of `case 5:`, which falls through to `case 4:`. -/
def operandsFromCase5 (node : GenTreeHWIntrinsic) (self : HWIntrinsic) : HWIntrinsic :=
  operandsFromCase4 node { self with op5 := node.Op 5 }

/-- The private method `InitializeOperands`: the outcome and the view it leaves behind. -/
def InitializeOperands (self : HWIntrinsic) (node : GenTreeHWIntrinsic) :
    Except JitError Unit × HWIntrinsic :=
  let self := { self with numOperands := node.GetOperandCount }
  match self.numOperands with
  | 5 => (.ok (), operandsFromCase5 node self)
  | 4 => (.ok (), operandsFromCase4 node self)
  | 3 => (.ok (), operandsFromCase3 node self)
  | 2 => (.ok (), operandsFromCase2 node self)
  | 1 => (.ok (), operandsFromCase1 node self)
  | 0 => (.ok (), self)
  | _ => (unreached, self)

/-- The chain `if (BaseTypeFromFirstArg) ... else if (BaseTypeFromSecondArg) ... else ...`
of `InitializeBaseType`, with its two assertions on the operand slots. -/
def inferBaseType (lookup : Info) (self : HWIntrinsic) (node : GenTreeHWIntrinsic) :
    Except JitError Unit × HWIntrinsic :=
  if BaseTypeFromFirstArg lookup self.id then
    match self.op1 with
    | none => (.error .assertionFailed, self)
    | some op1 => (.ok (), { self with baseType := op1.TypeGet })
  else if BaseTypeFromSecondArg lookup self.id then
    match self.op2 with
    | none => (.error .assertionFailed, self)
    | some op2 => (.ok (), { self with baseType := op2.TypeGet })
  else
    (.ok (), { self with baseType := node.TypeGet })

/-- The final statement `if (category == HW_Category_Scalar) baseType = genActualType(baseType)`
of the inference branch of `InitializeBaseType`. -/
def widenScalar (genActualType : var_types → var_types) (self : HWIntrinsic) : HWIntrinsic :=
  if self.category == HW_Category_Scalar then
    { self with baseType := genActualType self.baseType }
  else
    self

/-- The private method `InitializeBaseType`: the outcome and the view it leaves behind.
`genActualType` is declared in a header that is not among the sources and is
taken as a parameter. -/
def InitializeBaseType (lookup : Info) (genActualType : var_types → var_types)
    (self : HWIntrinsic) (node : GenTreeHWIntrinsic) : Except JitError Unit × HWIntrinsic :=
  let self := { self with baseType := node.GetSimdBaseType }
  if self.baseType == TYP_UNKNOWN then
    if !((self.category == HW_Category_Scalar) || (self.category == HW_Category_Special)) then
      (.error .assertionFailed, self)
    else
      match inferBaseType lookup self node with
      | (.error e, self) => (.error e, self)
      | (.ok (), self) => (.ok (), widenScalar genActualType self)
  else
    (.ok (), self)

/-- The view after the member initialisers of the constructor (null slots, no
operands, `TYP_UNDEF`) and the assignments of `id` and `category` in its body. -/
def fresh (id : NamedIntrinsic) (category : HWIntrinsicCategory) : Arm64.HWIntrinsic :=
  { id := id, category := category, op1 := none, op2 := none, op3 := none, op4 := none,
    op5 := none, numOperands := 0, baseType := TYP_UNDEF }

/-- The constructor `HWIntrinsic::HWIntrinsic(const GenTreeHWIntrinsic* node)`;
a null `node` is `none`. -/
def HWIntrinsic (lookup : Info) (genActualType : var_types → var_types)
    (node : Option GenTreeHWIntrinsic) : Except JitError Arm64.HWIntrinsic :=
  match node with
  | none => .error .assertionFailed
  | some node =>
    let id := node.GetHWIntrinsicId
    let category := lookupCategory lookup id
    if !RequiresCodegen lookup id then
      .error .assertionFailed
    else
      let self := fresh id category
      match InitializeOperands self node with
      | (.error e, _) => .error e
      | (.ok (), self) =>
        match InitializeBaseType lookup genActualType self node with
        | (.error e, _) => .error e
        | (.ok (), self) => .ok self

/-- The view the constructor hands to `InitializeBaseType`: the fresh view after
`InitializeOperands`. -/
def extracted (lookup : Info) (node : GenTreeHWIntrinsic) : Arm64.HWIntrinsic :=
  (InitializeOperands
    (fresh node.GetHWIntrinsicId (lookupCategory lookup node.GetHWIntrinsicId)) node).2

/-- The type the first-argument, second-argument, node-type rule names for a
node whose descriptor has the flag word `flags`: operand 1's type when the
first-argument flag is carried, otherwise operand 2's type when the
second-argument flag is carried, otherwise the node's own type; none when the
operand the rule names is absent. -/
def chosenType (flags : HWIntrinsicFlag) (node : GenTreeHWIntrinsic) : Option var_types :=
  if Carries flags HW_Flag_BaseTypeFromFirstArg then
    (node.Op 1).map GenTree.TypeGet
  else if Carries flags HW_Flag_BaseTypeFromSecondArg then
    (node.Op 2).map GenTree.TypeGet
  else
    some node.TypeGet

/-- The operand slot of the view at the one-based position `i`: `op1` to `op5`. -/
def slot (self : Arm64.HWIntrinsic) (i : Nat) : Option GenTree :=
  match i with
  | 1 => self.op1
  | 2 => self.op2
  | 3 => self.op3
  | 4 => self.op4
  | 5 => self.op5
  | _ => none

/-- Two views that agree on every field but `baseType`. -/
def SameButBaseType (v self : Arm64.HWIntrinsic) : Prop :=
  v.id = self.id ∧ v.category = self.category ∧ v.op1 = self.op1 ∧ v.op2 = self.op2 ∧
    v.op3 = self.op3 ∧ v.op4 = self.op4 ∧ v.op5 = self.op5 ∧ v.numOperands = self.numOperands

end HWIntrinsic

/-- The function `lookupIns(GenTreeHWIntrinsic*, Compiler*)`. The overload
`lookupIns(NamedIntrinsic, var_types, Compiler*)` is only declared in the
header and is taken as the parameter `lookupInsOfType`; a null node is `none`. -/
def lookupIns {Compiler : Type} (lookup : Info)
    (lookupInsOfType : NamedIntrinsic → var_types → Compiler → Except JitError instruction)
    (intrinsicNode : Option GenTreeHWIntrinsic) (comp : Compiler) :
    Except JitError instruction :=
  match intrinsicNode with
  | none => .error .assertionFailed
  | some intrinsicNode =>
    let intrinsic := intrinsicNode.GetHWIntrinsicId
    let type :=
      if lookupCategory lookup intrinsic == HW_Category_Scalar then
        intrinsicNode.TypeGet
      else
        intrinsicNode.GetSimdBaseType
    lookupInsOfType intrinsic type comp

/-! ### Sample descriptors and nodes -/

/-- A descriptor with the given flag word and category and no fixed size or arity. -/
def descriptor (id : NamedIntrinsic) (flags : HWIntrinsicFlag)
    (category : HWIntrinsicCategory) : HWIntrinsicInfo NamedIntrinsic HWIntrinsicCategory :=
  { name := "", flags := flags, id := id, ins := [], isa := 0, simdSize := -1, numArgs := -1,
    category := category }

/-- A registry that gives every identifier the same flag word and category. -/
def uniformRegistry (flags : HWIntrinsicFlag) (category : HWIntrinsicCategory) : Info :=
  fun id => descriptor id flags category

/-- A table of two descriptors, for `NI_Sve_And` and `NI_Sve_Or`. -/
def sampleTable : List (HWIntrinsicInfo NamedIntrinsic HWIntrinsicCategory) :=
  [descriptor NI_Sve_And HW_Flag_NoFlag HW_Category_SIMD,
   descriptor NI_Sve_Or HW_Flag_NoFlag HW_Category_SIMD]

/-- A node with six operands and a known base type. -/
def sixOperandNode : GenTreeHWIntrinsic :=
  { gtHWIntrinsicId := .other 0,
    operands := [⟨1, .other 3⟩, ⟨2, .other 3⟩, ⟨3, .other 3⟩, ⟨4, .other 3⟩, ⟨5, .other 3⟩,
      ⟨6, .other 3⟩],
    gtSimdBaseType := .other 7,
    gtType := .other 9 }

/-- A node with two operands whose base type is the untyped placeholder. -/
def untypedNode : GenTreeHWIntrinsic :=
  { gtHWIntrinsicId := .other 0,
    operands := [⟨1, .other 3⟩, ⟨2, .other 4⟩],
    gtSimdBaseType := TYP_UNKNOWN,
    gtType := .other 9 }

/-- A node without operands whose base type is the untyped placeholder. -/
def bareNode : GenTreeHWIntrinsic :=
  { gtHWIntrinsicId := .other 0,
    operands := [],
    gtSimdBaseType := TYP_UNKNOWN,
    gtType := .other 9 }

/-- A widening that sends the type `other 3` to `other 30` and keeps every other type. -/
def sampleActualType : var_types → var_types
  | .other 3 => .other 30
  | t => t

/-- An intrinsic node of scalar kind: three operands and a known base type. -/
def sampleNode : GenTreeHWIntrinsic :=
  { gtHWIntrinsicId := .other 0,
    operands := [⟨1, .other 3⟩, ⟨2, .other 4⟩, ⟨3, .other 4⟩],
    gtSimdBaseType := .other 7,
    gtType := .other 9 }

/-- The view the constructor builds for `sampleNode` under a flagless registry of scalars. -/
def sampleView : HWIntrinsic :=
  { id := .other 0, category := HW_Category_Scalar,
    op1 := some ⟨1, .other 3⟩, op2 := some ⟨2, .other 4⟩, op3 := some ⟨3, .other 4⟩,
    op4 := none, op5 := none, numOperands := 3, baseType := .other 7 }

/-! ### The case labels of `GetMultiRegCount` -/

/-- The `LoadPair` case labels of the ARM64 switch of `GetMultiRegCount`, which return 2. -/
def loadPairs : List NamedIntrinsic :=
  [NI_AdvSimd_Arm64_LoadPairScalarVector64, NI_AdvSimd_Arm64_LoadPairScalarVector64NonTemporal,
   NI_AdvSimd_Arm64_LoadPairVector64, NI_AdvSimd_Arm64_LoadPairVector64NonTemporal,
   NI_AdvSimd_Arm64_LoadPairVector128, NI_AdvSimd_Arm64_LoadPairVector128NonTemporal]

/-- The other case labels of the ARM64 switch of `GetMultiRegCount` that return 2. -/
def twoWayLoads : List NamedIntrinsic :=
  [NI_AdvSimd_Load2xVector64AndUnzip, NI_AdvSimd_Arm64_Load2xVector128AndUnzip,
   NI_AdvSimd_Load2xVector64, NI_AdvSimd_Arm64_Load2xVector128,
   NI_AdvSimd_LoadAndInsertScalarVector64x2, NI_AdvSimd_Arm64_LoadAndInsertScalarVector128x2,
   NI_AdvSimd_LoadAndReplicateToVector64x2, NI_AdvSimd_Arm64_LoadAndReplicateToVector128x2,
   NI_Sve_Load2xVectorAndUnzip]

/-- The case labels of the ARM64 switch of `GetMultiRegCount` that return 3. -/
def threeWayLoads : List NamedIntrinsic :=
  [NI_AdvSimd_Load3xVector64AndUnzip, NI_AdvSimd_Arm64_Load3xVector128AndUnzip,
   NI_AdvSimd_Load3xVector64, NI_AdvSimd_Arm64_Load3xVector128,
   NI_AdvSimd_LoadAndInsertScalarVector64x3, NI_AdvSimd_Arm64_LoadAndInsertScalarVector128x3,
   NI_AdvSimd_LoadAndReplicateToVector64x3, NI_AdvSimd_Arm64_LoadAndReplicateToVector128x3,
   NI_Sve_Load3xVectorAndUnzip]

/-- The case labels of the ARM64 switch of `GetMultiRegCount` that return 4. -/
def fourWayLoads : List NamedIntrinsic :=
  [NI_AdvSimd_Load4xVector64AndUnzip, NI_AdvSimd_Arm64_Load4xVector128AndUnzip,
   NI_AdvSimd_Load4xVector64, NI_AdvSimd_Arm64_Load4xVector128,
   NI_AdvSimd_LoadAndInsertScalarVector64x4, NI_AdvSimd_Arm64_LoadAndInsertScalarVector128x4,
   NI_AdvSimd_LoadAndReplicateToVector64x4, NI_AdvSimd_Arm64_LoadAndReplicateToVector128x4,
   NI_Sve_Load4xVectorAndUnzip]

/-! ### The mappings of `GetMaskVariant` and `GetScalarInputVariant` -/

/-- The case labels of the switch of `GetMaskVariant`, each with the identifier its case
returns. -/
def maskVariantPairs : List (NamedIntrinsic × NamedIntrinsic) :=
  [(NI_Sve_And, NI_Sve_And_Predicates),
   (NI_Sve_BitwiseClear, NI_Sve_BitwiseClear_Predicates),
   (NI_Sve_Xor, NI_Sve_Xor_Predicates),
   (NI_Sve_Or, NI_Sve_Or_Predicates),
   (NI_Sve_ZipHigh, NI_Sve_ZipHigh_Predicates),
   (NI_Sve_ZipLow, NI_Sve_ZipLow_Predicates),
   (NI_Sve_UnzipOdd, NI_Sve_UnzipOdd_Predicates),
   (NI_Sve_UnzipEven, NI_Sve_UnzipEven_Predicates),
   (NI_Sve_TransposeEven, NI_Sve_TransposeEven_Predicates),
   (NI_Sve_TransposeOdd, NI_Sve_TransposeOdd_Predicates),
   (NI_Sve_ReverseElement, NI_Sve_ReverseElement_Predicates),
   (NI_Sve_ConditionalSelect, NI_Sve_ConditionalSelect_Predicates)]

/-- The case labels of the switch of `GetScalarInputVariant`, each with the identifier its
case returns. -/
def scalarInputPairs : List (NamedIntrinsic × NamedIntrinsic) :=
  [(NI_Sve_ConditionalExtractAfterLastActiveElement,
      NI_Sve_ConditionalExtractAfterLastActiveElementScalar),
   (NI_Sve_ConditionalExtractLastActiveElement,
      NI_Sve_ConditionalExtractLastActiveElementScalar),
   (NI_Sve_SaturatingDecrementBy16BitElementCount,
      NI_Sve_SaturatingDecrementBy16BitElementCountScalar),
   (NI_Sve_SaturatingDecrementBy32BitElementCount,
      NI_Sve_SaturatingDecrementBy32BitElementCountScalar),
   (NI_Sve_SaturatingDecrementBy64BitElementCount,
      NI_Sve_SaturatingDecrementBy64BitElementCountScalar),
   (NI_Sve_SaturatingIncrementBy16BitElementCount,
      NI_Sve_SaturatingIncrementBy16BitElementCountScalar),
   (NI_Sve_SaturatingIncrementBy32BitElementCount,
      NI_Sve_SaturatingIncrementBy32BitElementCountScalar),
   (NI_Sve_SaturatingIncrementBy64BitElementCount,
      NI_Sve_SaturatingIncrementBy64BitElementCountScalar)]

/-- A registry that flags exactly the operations with a scalar-only variant. -/
def scalarInputRegistry : Info :=
  fun id => descriptor id
    (if id ∈ scalarInputPairs.map Prod.fst then HW_Flag_HasScalarInputVariant
     else HW_Flag_NoFlag)
    HW_Category_SIMD

end Arm64

/-! ## Rounding a size up (`src/coreclr/jit/jit.h`) -/

/-- The value `x - 1` of the unsigned type of `w` bits: zero wraps to `2 ^ w - 1`. -/
def wrappingPred (w x : Nat) : Nat :=
  (x + 2 ^ w - 1) % 2 ^ w

/-- The value `~x` of the unsigned type of `w` bits. -/
def bitNot (w x : Nat) : Nat :=
  (2 ^ w - 1) ^^^ x

/-- The function `roundUp(size_t size, size_t mult)`. The type `size_t` is `w`
bits wide (64 on a 64-bit host, 32 on a 32-bit host) and its addition wraps
modulo `2 ^ w`; `&&` does not evaluate its right operand when `mult` is zero. -/
def roundUp (w : Nat) (size mult : Nat) : Except JitError Nat := do
  assert (mult != 0 && ((mult &&& wrappingPred w mult) == 0))
  pure (((size + wrappingPred w mult) % 2 ^ w) &&& bitNot w (wrappingPred w mult))

end Jit

/-! # Interlocked helpers of the runtime (`src/coreclr/nativeaot/Runtime/unix/PalRedhawkInline.h`)

The functions are modelled in a single thread: a memory cell is passed in with
the value it holds and returned with the value it holds afterwards, and
`PalInterlockedOperationBarrier` changes no value. Signed integers are
integers in the range of their type; a conversion to a narrower signed type
keeps the low bits. -/

namespace NativeAot

/-- The conversion of an integer to `int32_t`. -/
def toInt32 (x : Int) : Int :=
  (x + 2 ^ 31) % 2 ^ 32 - 2 ^ 31

/-- The conversion of an integer to `int64_t`. -/
def toInt64 (x : Int) : Int :=
  (x + 2 ^ 63) % 2 ^ 64 - 2 ^ 63

/-- The conversion of an integer to `uint64_t` (and to `size_t`, `void*` on a 64-bit host). -/
def toUInt64 (x : Int) : Int :=
  x % 2 ^ 64

/-- The conversion of an integer to `__int128_t`. -/
def toInt128 (x : Int) : Int :=
  (x + 2 ^ 127) % 2 ^ 128 - 2 ^ 127

/-- A value is in the range of `int64_t`. -/
def IsInt64 (x : Int) : Prop :=
  -2 ^ 63 ≤ x ∧ x < 2 ^ 63

instance (x : Int) : Decidable (IsInt64 x) := by
  unfold IsInt64
  infer_instance

/-- The compiler builtins `__sync_swap(ptr, value)` and
`__atomic_exchange_n(ptr, value, order)` in a single thread: the previous
content of the cell and the cell afterwards. -/
def atomicExchange (cell value : Int) : Int × Int :=
  (cell, value)

/-- The compiler builtin `__sync_val_compare_and_swap(ptr, oldval, newval)` in a
single thread: the previous content of the cell, and the cell afterwards, which
is `newval` when the previous content equals `oldval`. -/
def atomicCompareAndSwap (cell oldval newval : Int) : Int × Int :=
  (cell, if cell = oldval then newval else cell)

/-- The function `PalInterlockedExchange64`: the returned value and `*pDst` afterwards.
The local `result` is declared `int32_t`, so the previous content is converted
to `int32_t` when it is stored in `result` and back to `int64_t` on return. -/
def PalInterlockedExchange64 (pDst : Int) (iValue : Int) : Int × Int :=
  let (previous, pDst) := atomicExchange pDst iValue
  let result := toInt32 previous
  (toInt64 result, pDst)

/-- The macro `PalInterlockedExchangePointer` of a 64-bit host: the returned
pointer and the pointer cell afterwards; a pointer is its address, below `2 ^ 64`.
The cell is read through `int64_t volatile*` and the value passed as
`(int64_t)(size_t)(_pValue)`; the result is converted back by `(void *)`. -/
def PalInterlockedExchangePointer (pDst : Nat) (pValue : Nat) : Nat × Nat :=
  let (result, cell) := PalInterlockedExchange64 (toInt64 pDst) (toInt64 (toUInt64 pValue))
  ((toUInt64 result).toNat, (toUInt64 cell).toNat)

/-- The 128-bit signed integer whose high and low 64-bit words are given:
`((__int128_t)high << 64) + (uint64_t)low`. -/
def int128OfWords (high low : Int) : Int :=
  toInt128 (toInt128 (high * 2 ^ 64) + toUInt64 low)

/-- The function `PalInterlockedCompareExchange128`: the returned `uint8_t`, the
two words of `pDst` afterwards and the two words of `pComparandAndResult`
afterwards. A pair is `(word [0], word [1])`; the hosts the function is
compiled for are little-endian, so `(__int128_t volatile*)pDst` reads word `[1]`
as the high half. The two arrays do not overlap. -/
def PalInterlockedCompareExchange128 (pDst : Int × Int) (iValueHigh iValueLow : Int)
    (pComparandAndResult : Int × Int) : Nat × (Int × Int) × (Int × Int) :=
  let iComparand := int128OfWords pComparandAndResult.2 pComparandAndResult.1
  let (iResult, stored) :=
    atomicCompareAndSwap (int128OfWords pDst.2 pDst.1) iComparand
      (int128OfWords iValueHigh iValueLow)
  let pDst := (toInt64 stored, toInt64 (stored / 2 ^ 64))
  let pComparandAndResult := (toInt64 iResult, toInt64 (iResult / 2 ^ 64))
  (if iComparand = iResult then 1 else 0, pDst, pComparandAndResult)

end NativeAot

/-! # Host paths and the platform identifier (`src/native/corehost/hostmisc/pal.windows.cpp`) -/

namespace pal

/-- The character type `pal::char_t`, `wchar_t` in the Windows build. -/
abbrev char_t := Char

/-- The string type `pal::string_t`, a sequence of `char_t`. -/
abbrev string_t := List char_t

/-- The literal macro `_X("...")`. -/
def _X (s : String) : string_t :=
  s.toList

/-- The backslash, the value of `DIR_SEPARATOR` in the Windows build. -/
def backslash : char_t :=
  Char.ofNat 92

/-- The function `is_directory_separator` of the anonymous namespace. The macro
`DIR_SEPARATOR` is defined in a header that is not among the sources and is
taken as a parameter. -/
def is_directory_separator (DIR_SEPARATOR : char_t) (c : char_t) : Bool :=
  c == DIR_SEPARATOR || c == '/'

/-- The character `path[i]`; every use is guarded by a test of the length. -/
def charAt (path : string_t) (i : Nat) : char_t :=
  path.getD i (Char.ofNat 0)

def is_path_rooted (DIR_SEPARATOR : char_t) (path : string_t) : Bool :=
  (path.length >= 1 && is_directory_separator DIR_SEPARATOR (charAt path 0)) ||
    (path.length >= 2 && charAt path 1 == ':')

def is_path_fully_qualified (DIR_SEPARATOR : char_t) (path : string_t) : Bool :=
  if path.length < 2 then
    false
  else if is_directory_separator DIR_SEPARATOR (charAt path 0) then
    charAt path 1 == '?' || is_directory_separator DIR_SEPARATOR (charAt path 1)
  else
    path.length >= 3 && charAt path 1 == ':' &&
      is_directory_separator DIR_SEPARATOR (charAt path 2)

/-- The two fields of `RTL_OSVERSIONINFOW` the function reads, both `ULONG`. -/
structure RTL_OSVERSIONINFOW where
  dwMajorVersion : Nat
  dwMinorVersion : Nat
  deriving DecidableEq, Repr

/-- The function `get_current_os_rid_platform`. The outcome of the query is
`some osinfo` when `ntdll.dll` loads, `RtlGetVersion` is found and returns 0,
and `none` otherwise. The function `pal::to_string` is defined in a translation
unit that is not among the sources and is taken as a parameter. -/
def get_current_os_rid_platform (to_string : Nat → string_t)
    (query : Option RTL_OSVERSIONINFOW) : string_t :=
  let ridOS : string_t := []
  match query with
  | none => ridOS
  | some osinfo =>
    let majorVer := 6
    let minorVer := 1
    let (majorVer, minorVer) :=
      if osinfo.dwMajorVersion > majorVer then (osinfo.dwMajorVersion, 0)
      else (majorVer, minorVer)
    let minorVer := if osinfo.dwMinorVersion > minorVer then osinfo.dwMinorVersion else minorVer
    if majorVer == 6 then
      match minorVer with
      | 1 => ridOS ++ _X "win7"
      | 2 => ridOS ++ _X "win8"
      | _ => ridOS ++ _X "win81"
    else if majorVer >= 10 then
      (ridOS ++ _X "win") ++ to_string majorVer
    else
      ridOS

/-- Decimal formatting, the behaviour of `pal::to_string` on an unsigned number. -/
def decimal (n : Nat) : string_t :=
  (toString n).toList

end pal

namespace Jit

/-! ## Reading single-bit flags -/

theorem land_two_pow (x k : Nat) : x &&& 2 ^ k = if x.testBit k then 2 ^ k else 0 := by
  apply Nat.eq_of_testBit_eq
  intro i
  by_cases hx : x.testBit k
  · by_cases hi : k = i
    · subst hi
      simp [hx, Nat.testBit_and, Nat.testBit_two_pow]
    · simp [hx, Nat.testBit_and, Nat.testBit_two_pow, hi]
  · by_cases hi : k = i
    · subst hi
      simp [hx, Nat.testBit_and]
    · simp [hx, Nat.testBit_and, Nat.testBit_two_pow, hi]

theorem two_pow_ne_zero (k : Nat) : (2 : Nat) ^ k ≠ 0 :=
  pow_ne_zero k (by decide)

/-- The test `(flags & flag) != 0` of a single-bit flag holds exactly when the word carries it. -/
theorem test_ne_zero_iff (flags k : Nat) :
    ((flags &&& 2 ^ k) != 0) = true ↔ Carries flags (2 ^ k) := by
  unfold Carries
  rw [land_two_pow]
  by_cases hx : flags.testBit k
  · simp [hx]
  · simp only [hx, bne_self_eq_false, Bool.false_eq_true, if_false, false_iff]
    exact fun h => two_pow_ne_zero k h.symm

/-- The test `(flags & flag) == 0` of a single-bit flag holds exactly when the word lacks it. -/
theorem test_eq_zero_iff (flags k : Nat) :
    ((flags &&& 2 ^ k) == 0) = true ↔ ¬ Carries flags (2 ^ k) := by
  rw [← test_ne_zero_iff]
  cases h : (flags &&& 2 ^ k) == 0 <;> simp [bne, h]

namespace HWIntrinsicInfo

variable {NI Cat : Type}

theorem HasSpecialCodegen_iff (lookup : Registry NI Cat) (id : NI) :
    HasSpecialCodegen lookup id = true ↔ Carries (lookup id).flags HW_Flag_SpecialCodeGen :=
  test_ne_zero_iff (lookup id).flags 7

theorem IsMultiReg_iff (lookup : Registry NI Cat) (id : NI) :
    IsMultiReg lookup id = true ↔ Carries (lookup id).flags HW_Flag_MultiReg :=
  test_ne_zero_iff (lookup id).flags 9

theorem IsMultiReg_eq_false_iff (lookup : Registry NI Cat) (id : NI) :
    IsMultiReg lookup id = false ↔ ¬ Carries (lookup id).flags HW_Flag_MultiReg := by
  rw [← IsMultiReg_iff, Bool.not_eq_true]

end HWIntrinsicInfo

/-! ## Table-driven code generation -/

/-- C1: on x86, `genIsTableDrivenHWIntrinsic(id, category)` is true exactly when
the category is none of special, scalar, helper and the descriptor of `id` does
not carry `HW_Flag_SpecialCodeGen`. -/
theorem XArch.genIsTableDrivenHWIntrinsic_iff (lookup : XArch.Info)
    (id : XArch.NamedIntrinsic) (category : XArch.HWIntrinsicCategory) :
    XArch.genIsTableDrivenHWIntrinsic lookup id category = true ↔
      (category ≠ XArch.HW_Category_Special ∧ category ≠ XArch.HW_Category_Scalar ∧
        category ≠ XArch.HW_Category_Helper) ∧
      ¬ Carries (lookup id).flags HW_Flag_SpecialCodeGen := by
  rw [← HWIntrinsicInfo.HasSpecialCodegen_iff]
  unfold XArch.genIsTableDrivenHWIntrinsic
  cases category <;> cases HWIntrinsicInfo.HasSpecialCodegen lookup id <;> decide

/-- C2, as the code has it: on ARM64, `codeGenIsTableDriven()` is true exactly
when the view's category is not helper and the descriptor of its identifier
does not carry `HW_Flag_SpecialCodeGen`; scalar and special views pass the gate. -/
theorem Arm64.codeGenIsTableDriven_iff (lookup : Arm64.Info) (self : Arm64.HWIntrinsic) :
    Arm64.HWIntrinsic.codeGenIsTableDriven lookup self = true ↔
      self.category ≠ Arm64.HW_Category_Helper ∧
      ¬ Carries (lookup self.id).flags HW_Flag_SpecialCodeGen := by
  rw [← HWIntrinsicInfo.HasSpecialCodegen_iff]
  unfold Arm64.HWIntrinsic.codeGenIsTableDriven
  cases self.category <;> cases HWIntrinsicInfo.HasSpecialCodegen lookup self.id <;> decide

/-- C2, as stated, fails: the view built for a scalar node whose descriptor has
no flags is table-driven on ARM64, although its category is scalar, so the
ARM64 gate is not the x86 gate. -/
theorem Arm64.codeGenIsTableDriven_scalar_counterexample :
    Arm64.HWIntrinsic.HWIntrinsic (Arm64.uniformRegistry HW_Flag_NoFlag Arm64.HW_Category_Scalar)
        id (some Arm64.sampleNode) = .ok Arm64.sampleView ∧
      ¬ (Arm64.HWIntrinsic.codeGenIsTableDriven
            (Arm64.uniformRegistry HW_Flag_NoFlag Arm64.HW_Category_Scalar)
            Arm64.sampleView = true ↔
          (Arm64.sampleView.category ≠ Arm64.HW_Category_Special ∧
            Arm64.sampleView.category ≠ Arm64.HW_Category_Scalar ∧
            Arm64.sampleView.category ≠ Arm64.HW_Category_Helper) ∧
          ¬ Carries
              ((Arm64.uniformRegistry HW_Flag_NoFlag Arm64.HW_Category_Scalar)
                Arm64.sampleView.id).flags
              HW_Flag_SpecialCodeGen) := by
  refine ⟨rfl, ?_⟩
  intro h
  have hdriven : Arm64.HWIntrinsic.codeGenIsTableDriven
      (Arm64.uniformRegistry HW_Flag_NoFlag Arm64.HW_Category_Scalar)
      Arm64.sampleView = true := by decide
  exact (h.mp hdriven).1.2.1 rfl

/-! ## Multi-register counts -/

/-- What the x86 switch of `GetMultiRegCount` does once the assertion has passed. -/
theorem XArch.GetMultiRegCount_of_flagged_x86 (lookup : XArch.Info) (id : XArch.NamedIntrinsic)
    (h : Carries (lookup id).flags HW_Flag_MultiReg) :
    XArch.GetMultiRegCount lookup id =
      if id ∈ XArch.divRems then .ok 2 else .error .unreachedCode := by
  have hf := (HWIntrinsicInfo.IsMultiReg_iff lookup id).mpr h
  cases id <;> simp [XArch.GetMultiRegCount, hf, assert, unreached, XArch.divRems] <;> rfl

/-- What the ARM64 switch of `GetMultiRegCount` does once the assertion has passed. -/
theorem Arm64.GetMultiRegCount_of_flagged_arm64 (lookup : Arm64.Info) (id : Arm64.NamedIntrinsic)
    (h : Carries (lookup id).flags HW_Flag_MultiReg) :
    Arm64.GetMultiRegCount lookup id =
      if id ∈ Arm64.loadPairs ∨ id ∈ Arm64.twoWayLoads then .ok 2
      else if id ∈ Arm64.threeWayLoads then .ok 3
      else if id ∈ Arm64.fourWayLoads then .ok 4
      else .error .unreachedCode := by
  have hf := (HWIntrinsicInfo.IsMultiReg_iff lookup id).mpr h
  unfold Arm64.GetMultiRegCount
  rw [hf]
  cases id
  case other n =>
    simp [assert, unreached, Arm64.loadPairs, Arm64.twoWayLoads,
      Arm64.threeWayLoads, Arm64.fourWayLoads]
    rfl
  all_goals rfl

/-- C4: for every identifier whose descriptor does not carry `HW_Flag_MultiReg`,
`GetMultiRegCount(id)` fails its assertion and returns no count, on x86 and on
ARM64. -/
theorem GetMultiRegCount_unflagged :
    (∀ (lookup : XArch.Info) (id : XArch.NamedIntrinsic),
      ¬ Carries (lookup id).flags HW_Flag_MultiReg →
        XArch.GetMultiRegCount lookup id = .error .assertionFailed) ∧
    (∀ (lookup : Arm64.Info) (id : Arm64.NamedIntrinsic),
      ¬ Carries (lookup id).flags HW_Flag_MultiReg →
        Arm64.GetMultiRegCount lookup id = .error .assertionFailed) := by
  constructor
  · intro lookup id h
    have hf := (HWIntrinsicInfo.IsMultiReg_eq_false_iff lookup id).mpr h
    unfold XArch.GetMultiRegCount
    rw [hf]
    rfl
  · intro lookup id h
    have hf := (HWIntrinsicInfo.IsMultiReg_eq_false_iff lookup id).mpr h
    unfold Arm64.GetMultiRegCount
    rw [hf]
    rfl

/-- C4 at concrete inputs: a vector creation on x86 and a bitwise operation on
ARM64, under registries that flag nothing. -/
theorem GetMultiRegCount_unflagged_witness :
    (¬ Carries ((XArch.uniformRegistry HW_Flag_NoFlag XArch.HW_Category_Helper)
        .NI_Vector128_Create).flags HW_Flag_MultiReg ∧
      XArch.GetMultiRegCount (XArch.uniformRegistry HW_Flag_NoFlag XArch.HW_Category_Helper)
        .NI_Vector128_Create = .error .assertionFailed) ∧
    (¬ Carries ((Arm64.uniformRegistry HW_Flag_NoFlag Arm64.HW_Category_SIMD)
        .NI_Sve_And).flags HW_Flag_MultiReg ∧
      Arm64.GetMultiRegCount (Arm64.uniformRegistry HW_Flag_NoFlag Arm64.HW_Category_SIMD)
        .NI_Sve_And = .error .assertionFailed) :=
  ⟨⟨by decide, GetMultiRegCount_unflagged.1 _ _ (by decide)⟩,
    ⟨by decide, GetMultiRegCount_unflagged.2 _ _ (by decide)⟩⟩

theorem Arm64.threeWayLoads_not_two :
    ∀ id ∈ Arm64.threeWayLoads, ¬ (id ∈ Arm64.loadPairs ∨ id ∈ Arm64.twoWayLoads) := by
  decide

theorem Arm64.fourWayLoads_not_two_three :
    ∀ id ∈ Arm64.fourWayLoads,
      ¬ (id ∈ Arm64.loadPairs ∨ id ∈ Arm64.twoWayLoads) ∧ id ∉ Arm64.threeWayLoads := by
  decide

/-- C5: for every multi-register identifier the switch of `GetMultiRegCount`
handles, the count is the number of vectors the operation loads or produces:
4 for the four-way loads, 3 for the three-way loads, 2 for the two-way loads
and the pair loads, and 2 for the x86 divisions; no other identifier gets a
count. -/
theorem GetMultiRegCount_count :
    (∀ (lookup : Arm64.Info) (id : Arm64.NamedIntrinsic),
      Carries (lookup id).flags HW_Flag_MultiReg →
        (id ∈ Arm64.fourWayLoads → Arm64.GetMultiRegCount lookup id = .ok 4) ∧
        (id ∈ Arm64.threeWayLoads → Arm64.GetMultiRegCount lookup id = .ok 3) ∧
        (id ∈ Arm64.twoWayLoads ∨ id ∈ Arm64.loadPairs →
          Arm64.GetMultiRegCount lookup id = .ok 2) ∧
        (∀ n, Arm64.GetMultiRegCount lookup id = .ok n →
          (n = 4 ∧ id ∈ Arm64.fourWayLoads) ∨ (n = 3 ∧ id ∈ Arm64.threeWayLoads) ∨
            (n = 2 ∧ (id ∈ Arm64.twoWayLoads ∨ id ∈ Arm64.loadPairs)))) ∧
    (∀ (lookup : XArch.Info) (id : XArch.NamedIntrinsic),
      Carries (lookup id).flags HW_Flag_MultiReg →
        (id ∈ XArch.divRems → XArch.GetMultiRegCount lookup id = .ok 2) ∧
        (∀ n, XArch.GetMultiRegCount lookup id = .ok n → n = 2 ∧ id ∈ XArch.divRems)) := by
  constructor
  · intro lookup id h
    rw [Arm64.GetMultiRegCount_of_flagged_arm64 lookup id h]
    refine ⟨?_, ?_, ?_, ?_⟩
    · intro h4
      have hn := Arm64.fourWayLoads_not_two_three id h4
      rw [if_neg hn.1, if_neg hn.2, if_pos h4]
    · intro h3
      rw [if_neg (Arm64.threeWayLoads_not_two id h3), if_pos h3]
    · intro h2
      rw [if_pos h2.symm]
    · intro n hn
      by_cases h2 : id ∈ Arm64.loadPairs ∨ id ∈ Arm64.twoWayLoads
      · rw [if_pos h2] at hn
        exact Or.inr (Or.inr ⟨(Except.ok.inj hn).symm, h2.symm⟩)
      · rw [if_neg h2] at hn
        by_cases h3 : id ∈ Arm64.threeWayLoads
        · rw [if_pos h3] at hn
          exact Or.inr (Or.inl ⟨(Except.ok.inj hn).symm, h3⟩)
        · rw [if_neg h3] at hn
          by_cases h4 : id ∈ Arm64.fourWayLoads
          · rw [if_pos h4] at hn
            exact Or.inl ⟨(Except.ok.inj hn).symm, h4⟩
          · rw [if_neg h4] at hn
            cases hn
  · intro lookup id h
    rw [XArch.GetMultiRegCount_of_flagged_x86 lookup id h]
    refine ⟨fun hd => by rw [if_pos hd], ?_⟩
    intro n hn
    by_cases hd : id ∈ XArch.divRems
    · rw [if_pos hd] at hn
      exact ⟨(Except.ok.inj hn).symm, hd⟩
    · rw [if_neg hd] at hn
      cases hn

/-- C5 at concrete inputs: a four-way load on ARM64 and the division on x86. -/
theorem GetMultiRegCount_count_witness :
    Arm64.GetMultiRegCount (Arm64.uniformRegistry HW_Flag_MultiReg Arm64.HW_Category_MemoryLoad)
        .NI_AdvSimd_Arm64_Load4xVector128AndUnzip = .ok 4 ∧
      XArch.GetMultiRegCount (XArch.uniformRegistry HW_Flag_MultiReg XArch.HW_Category_Scalar)
        .NI_X86Base_X64_DivRem = .ok 2 :=
  ⟨(GetMultiRegCount_count.1 (Arm64.uniformRegistry HW_Flag_MultiReg Arm64.HW_Category_MemoryLoad)
      .NI_AdvSimd_Arm64_Load4xVector128AndUnzip (by decide)).1 (by decide),
    (GetMultiRegCount_count.2 (XArch.uniformRegistry HW_Flag_MultiReg XArch.HW_Category_Scalar)
      .NI_X86Base_X64_DivRem (by decide)).1 (by decide)⟩

/-! ## Masking and predication -/

namespace Arm64

theorem lowMasked_test_iff (lookup : Info) (id : NamedIntrinsic) :
    (((lookup id).flags &&& HW_Flag_LowMaskedOperation) != 0) = true ↔
      Carries (lookup id).flags HW_Flag_LowMaskedOperation :=
  test_ne_zero_iff (lookup id).flags 18

theorem HasAllMaskVariant_iff (lookup : Info) (id : NamedIntrinsic) :
    HasAllMaskVariant lookup id = true ↔
      Carries (lookup id).flags HW_Flag_HasAllMaskVariant :=
  test_ne_zero_iff (lookup id).flags 26

theorem HasScalarInputVariant_iff (lookup : Info) (id : NamedIntrinsic) :
    HasScalarInputVariant lookup id = true ↔
      Carries (lookup id).flags HW_Flag_HasScalarInputVariant :=
  test_ne_zero_iff (lookup id).flags 21

/-- The three outcomes of `IsLowMaskedOperation`. -/
theorem IsLowMaskedOperation_eq (lookup : Info) (id : NamedIntrinsic) :
    IsLowMaskedOperation lookup id =
      if (((lookup id).flags &&& HW_Flag_LowMaskedOperation) != 0) = true then
        if (IsExplicitMaskedOperation lookup id || IsEmbeddedMaskedOperation lookup id ||
            IsOptionalEmbeddedMaskedOperation lookup id) = true then .ok true
        else .error .assertionFailed
      else .ok false := by
  unfold IsLowMaskedOperation
  simp only [HWIntrinsicInfo.lookupFlags]
  cases ((lookup id).flags &&& HW_Flag_LowMaskedOperation) != 0 <;>
    cases (IsExplicitMaskedOperation lookup id || IsEmbeddedMaskedOperation lookup id ||
      IsOptionalEmbeddedMaskedOperation lookup id) <;> rfl

end Arm64

/-- C6: on ARM64, `IsLowMaskedOperation(id)` returns true only if one of
`IsExplicitMaskedOperation(id)`, `IsEmbeddedMaskedOperation(id)`,
`IsOptionalEmbeddedMaskedOperation(id)` is true; a descriptor that carries the
low-masked flag and none of the three fails the assertion; and with one of the
three, or without the low-masked flag, the flag is returned. -/
theorem Arm64.IsLowMaskedOperation_masked (lookup : Arm64.Info) (id : Arm64.NamedIntrinsic) :
    (Arm64.IsLowMaskedOperation lookup id = .ok true →
      Arm64.IsExplicitMaskedOperation lookup id = true ∨
        Arm64.IsEmbeddedMaskedOperation lookup id = true ∨
        Arm64.IsOptionalEmbeddedMaskedOperation lookup id = true) ∧
    (Carries (lookup id).flags Arm64.HW_Flag_LowMaskedOperation →
      Arm64.IsExplicitMaskedOperation lookup id = false →
      Arm64.IsEmbeddedMaskedOperation lookup id = false →
      Arm64.IsOptionalEmbeddedMaskedOperation lookup id = false →
      Arm64.IsLowMaskedOperation lookup id = .error .assertionFailed) ∧
    (Carries (lookup id).flags Arm64.HW_Flag_LowMaskedOperation →
      (Arm64.IsExplicitMaskedOperation lookup id = true ∨
        Arm64.IsEmbeddedMaskedOperation lookup id = true ∨
        Arm64.IsOptionalEmbeddedMaskedOperation lookup id = true) →
      Arm64.IsLowMaskedOperation lookup id = .ok true) ∧
    (¬ Carries (lookup id).flags Arm64.HW_Flag_LowMaskedOperation →
      Arm64.IsLowMaskedOperation lookup id = .ok false) := by
  rw [Arm64.IsLowMaskedOperation_eq, ← Arm64.lowMasked_test_iff]
  cases ((lookup id).flags &&& Arm64.HW_Flag_LowMaskedOperation) != 0 <;>
    cases Arm64.IsExplicitMaskedOperation lookup id <;>
    cases Arm64.IsEmbeddedMaskedOperation lookup id <;>
    cases Arm64.IsOptionalEmbeddedMaskedOperation lookup id <;> simp

/-- C6 at concrete descriptors: low-masked with an explicit mask is reported,
low-masked alone fails the assertion. -/
theorem Arm64.IsLowMaskedOperation_masked_witness :
    Arm64.IsLowMaskedOperation
        (Arm64.uniformRegistry
          (Arm64.HW_Flag_LowMaskedOperation ||| Arm64.HW_Flag_ExplicitMaskedOperation)
          Arm64.HW_Category_SIMD) .NI_Sve_And = .ok true ∧
      Arm64.IsLowMaskedOperation
        (Arm64.uniformRegistry Arm64.HW_Flag_LowMaskedOperation Arm64.HW_Category_SIMD)
        .NI_Sve_And = .error .assertionFailed :=
  ⟨(Arm64.IsLowMaskedOperation_masked _ _).2.2.1 (by decide) (Or.inl (by decide)),
    (Arm64.IsLowMaskedOperation_masked _ _).2.1 (by decide) (by decide) (by decide) (by decide)⟩

/-! ## Mask-typed and scalar-input variants -/

/-- C7: for every identifier whose descriptor does not carry
`HW_Flag_HasAllMaskVariant`, `GetMaskVariant(id)` fails its assertion and
returns no identifier. -/
theorem Arm64.GetMaskVariant_unflagged (lookup : Arm64.Info) (id : Arm64.NamedIntrinsic)
    (h : ¬ Carries (lookup id).flags Arm64.HW_Flag_HasAllMaskVariant) :
    Arm64.GetMaskVariant lookup id = .error .assertionFailed ∧
      ∀ variant, Arm64.GetMaskVariant lookup id ≠ .ok variant := by
  have hf : Arm64.HasAllMaskVariant lookup id = false := by
    rw [← Bool.not_eq_true, Arm64.HasAllMaskVariant_iff]
    exact h
  have he : Arm64.GetMaskVariant lookup id = .error .assertionFailed := by
    unfold Arm64.GetMaskVariant
    rw [hf]
    rfl
  refine ⟨he, ?_⟩
  intro variant hv
  rw [he] at hv
  cases hv

/-- C7 at a concrete input: the vector operation `NI_Sve_And` in a registry that flags nothing. -/
theorem Arm64.GetMaskVariant_unflagged_witness :
    ¬ Carries ((Arm64.uniformRegistry HW_Flag_NoFlag Arm64.HW_Category_SIMD)
        .NI_Sve_And).flags Arm64.HW_Flag_HasAllMaskVariant ∧
      Arm64.GetMaskVariant (Arm64.uniformRegistry HW_Flag_NoFlag Arm64.HW_Category_SIMD)
        .NI_Sve_And = .error .assertionFailed :=
  ⟨by decide,
    (Arm64.GetMaskVariant_unflagged
      (Arm64.uniformRegistry HW_Flag_NoFlag Arm64.HW_Category_SIMD) .NI_Sve_And (by decide)).1⟩

/-- The switch of `GetMaskVariant` on the listed operations, once the assertion has passed. -/
theorem Arm64.GetMaskVariant_of_pair (lookup : Arm64.Info)
    (id variant : Arm64.NamedIntrinsic)
    (h : Carries (lookup id).flags Arm64.HW_Flag_HasAllMaskVariant)
    (hmem : (id, variant) ∈ Arm64.maskVariantPairs) :
    Arm64.GetMaskVariant lookup id = .ok variant := by
  have hf := (Arm64.HasAllMaskVariant_iff lookup id).mpr h
  simp only [Arm64.maskVariantPairs, List.mem_cons, Prod.mk.injEq, List.mem_singleton,
    List.not_mem_nil, or_false] at hmem
  unfold Arm64.GetMaskVariant
  rw [hf]
  repeat' rcases hmem with ⟨rfl, rfl⟩ | hmem
  all_goals first
    | rfl
    | (subst_vars
       rfl)

theorem Arm64.GetScalarInputVariant_of_unflagged (lookup : Arm64.Info)
    (id : Arm64.NamedIntrinsic)
    (h : ¬ Carries (lookup id).flags Arm64.HW_Flag_HasScalarInputVariant) :
    Arm64.GetScalarInputVariant lookup id = .error .assertionFailed := by
  have hf : Arm64.HasScalarInputVariant lookup id = false := by
    rw [← Bool.not_eq_true, Arm64.HasScalarInputVariant_iff]
    exact h
  unfold Arm64.GetScalarInputVariant
  rw [hf]
  rfl

namespace Arm64.HWIntrinsic

theorem inferBaseType_frame (lookup : Info) (self : Arm64.HWIntrinsic)
    (node : GenTreeHWIntrinsic) : SameButBaseType (inferBaseType lookup self node).2 self := by
  unfold inferBaseType SameButBaseType
  split
  · split <;> simp
  · split
    · split <;> simp
    · simp

theorem widenScalar_frame (genActualType : var_types → var_types) (self : Arm64.HWIntrinsic) :
    SameButBaseType (widenScalar genActualType self) self := by
  unfold widenScalar SameButBaseType
  split <;> simp

/-- The method `InitializeBaseType` writes no field but `baseType`. -/
theorem InitializeBaseType_frame (lookup : Info) (genActualType : var_types → var_types)
    (self : Arm64.HWIntrinsic) (node : GenTreeHWIntrinsic) :
    SameButBaseType (InitializeBaseType lookup genActualType self node).2 self := by
  unfold InitializeBaseType
  simp only []
  split
  · split
    · simp [SameButBaseType]
    · have hi := inferBaseType_frame lookup
        { self with baseType := node.GetSimdBaseType } node
      rcases hr : inferBaseType lookup { self with baseType := node.GetSimdBaseType } node with
        ⟨r, v⟩
      rw [hr] at hi
      cases r with
      | error e => exact hi
      | ok u =>
        have hw := widenScalar_frame genActualType v
        unfold SameButBaseType at hi hw ⊢
        simp only [] at hi ⊢
        exact ⟨hw.1.trans hi.1, hw.2.1.trans hi.2.1, hw.2.2.1.trans hi.2.2.1,
          hw.2.2.2.1.trans hi.2.2.2.1, hw.2.2.2.2.1.trans hi.2.2.2.2.1,
          hw.2.2.2.2.2.1.trans hi.2.2.2.2.2.1, hw.2.2.2.2.2.2.1.trans hi.2.2.2.2.2.2.1,
          hw.2.2.2.2.2.2.2.trans hi.2.2.2.2.2.2.2⟩
  · simp [SameButBaseType]

/-- What `InitializeOperands` leaves behind for a node with at most five operands. -/
theorem InitializeOperands_spec (self : Arm64.HWIntrinsic) (node : GenTreeHWIntrinsic)
    (hn : node.GetOperandCount ≤ 5) :
    (InitializeOperands self node).1 = .ok () ∧
      (InitializeOperands self node).2.numOperands = node.GetOperandCount ∧
      (∀ i (hi : i < node.operands.length),
        slot (InitializeOperands self node).2 (i + 1) = some (node.operands.get ⟨i, hi⟩)) ∧
      (∀ i, node.GetOperandCount < i → i ≤ 5 →
        slot (InitializeOperands self node).2 i = slot self i) := by
  obtain ⟨nid, ops, bt, ty⟩ := node
  match ops, hn with
  | [], _ =>
    refine ⟨rfl, rfl, fun i hi => absurd hi (Nat.not_lt_zero i), fun i _ _ => rfl⟩
  | [a], _ =>
    refine ⟨rfl, rfl, ?_, ?_⟩
    · intro i hi
      match i, hi with
      | 0, _ => rfl
    · intro i hi h5
      have hlt : 1 < i := hi
      interval_cases i <;> rfl
  | [a, b], _ =>
    refine ⟨rfl, rfl, ?_, ?_⟩
    · intro i hi
      match i, hi with
      | 0, _ => rfl
      | 1, _ => rfl
    · intro i hi h5
      have hlt : 2 < i := hi
      interval_cases i <;> rfl
  | [a, b, c], _ =>
    refine ⟨rfl, rfl, ?_, ?_⟩
    · intro i hi
      match i, hi with
      | 0, _ => rfl
      | 1, _ => rfl
      | 2, _ => rfl
    · intro i hi h5
      have hlt : 3 < i := hi
      interval_cases i <;> rfl
  | [a, b, c, d], _ =>
    refine ⟨rfl, rfl, ?_, ?_⟩
    · intro i hi
      match i, hi with
      | 0, _ => rfl
      | 1, _ => rfl
      | 2, _ => rfl
      | 3, _ => rfl
    · intro i hi h5
      have hlt : 4 < i := hi
      interval_cases i
      rfl
  | [a, b, c, d, e], _ =>
    refine ⟨rfl, rfl, ?_, ?_⟩
    · intro i hi
      match i, hi with
      | 0, _ => rfl
      | 1, _ => rfl
      | 2, _ => rfl
      | 3, _ => rfl
      | 4, _ => rfl
    · intro i hi h5
      have hlt : 5 < i := hi
      exact absurd h5 (Nat.not_le.mpr hlt)
  | a :: b :: c :: d :: e :: f :: rest, h =>
    exact absurd h (by simp [GenTreeHWIntrinsic.GetOperandCount])

theorem slot_eq_of_same {v self : Arm64.HWIntrinsic} (h : SameButBaseType v self) (i : Nat) :
    slot v i = slot self i := by
  obtain ⟨_, _, h1, h2, h3, h4, h5, _⟩ := h
  unfold slot
  split <;> first | assumption | rfl

/-- A view the constructor returns is the one `InitializeOperands` left behind
on the fresh view, up to `baseType`. -/
theorem constructed_same (lookup : Info) (genActualType : var_types → var_types)
    (node : GenTreeHWIntrinsic) (v : Arm64.HWIntrinsic)
    (hv : HWIntrinsic.HWIntrinsic lookup genActualType (some node) = .ok v) :
    SameButBaseType v
      (InitializeOperands
        (fresh node.GetHWIntrinsicId
          (HWIntrinsicInfo.lookupCategory lookup node.GetHWIntrinsicId)) node).2 := by
  unfold HWIntrinsic.HWIntrinsic at hv
  simp only [] at hv
  split at hv
  · cases hv
  · rcases hio : InitializeOperands
        (fresh node.GetHWIntrinsicId
          (HWIntrinsicInfo.lookupCategory lookup node.GetHWIntrinsicId)) node with ⟨r0, v0⟩
    rw [hio] at hv
    cases r0 with
    | error e => cases hv
    | ok u =>
      have hframe := InitializeBaseType_frame lookup genActualType v0 node
      rcases hib : InitializeBaseType lookup genActualType v0 node with ⟨r1, v1⟩
      rw [hib] at hframe
      dsimp only at hv
      rw [hib] at hv
      cases r1 with
      | error e => cases hv
      | ok u1 =>
        have hvv : v1 = v := Except.ok.inj hv
        subst hvv
        exact hframe

/-- The constructor succeeds on a node with at most five operands whose
identifier requires code generation and whose base type is known. -/
theorem constructed_of_known_base (lookup : Info) (genActualType : var_types → var_types)
    (node : GenTreeHWIntrinsic) (hn : node.GetOperandCount ≤ 5)
    (hreq : HWIntrinsicInfo.RequiresCodegen lookup node.GetHWIntrinsicId = true)
    (hbase : node.GetSimdBaseType ≠ TYP_UNKNOWN) :
    ∃ v, HWIntrinsic.HWIntrinsic lookup genActualType (some node) = .ok v := by
  have h1 := (InitializeOperands_spec
    (fresh node.GetHWIntrinsicId (HWIntrinsicInfo.lookupCategory lookup node.GetHWIntrinsicId))
    node hn).1
  unfold HWIntrinsic.HWIntrinsic
  simp only [hreq, Bool.not_true, Bool.false_eq_true, if_false]
  rcases hio : InitializeOperands
      (fresh node.GetHWIntrinsicId
        (HWIntrinsicInfo.lookupCategory lookup node.GetHWIntrinsicId)) node with ⟨r0, v0⟩
  rw [hio] at h1
  dsimp only at h1
  subst h1
  dsimp only
  have hb : (node.GetSimdBaseType == TYP_UNKNOWN) = false := by
    simpa using hbase
  unfold InitializeBaseType
  simp only [hb, Bool.false_eq_true, if_false]
  exact ⟨_, rfl⟩

end Arm64.HWIntrinsic

/-- C10: for every intrinsic node with `n` operands, `0 ≤ n ≤ 5`, operand
extraction on the freshly initialised view succeeds, sets `numOperands = n`,
sets slot `op_i` to the node's `i`-th operand for `1 ≤ i ≤ n` and leaves every
slot `op_i` with `n < i ≤ 5` null; every view the constructor returns for the
node has these operands, and the constructor returns one whenever the
identifier requires code generation and the node's base type is known. -/
theorem Arm64.HWIntrinsic.operands_extracted (lookup : Arm64.Info)
    (genActualType : var_types → var_types) (node : Arm64.GenTreeHWIntrinsic)
    (hn : node.GetOperandCount ≤ 5) :
    (∀ id category,
      (Arm64.HWIntrinsic.InitializeOperands (Arm64.HWIntrinsic.fresh id category) node).1 =
          .ok () ∧
        (Arm64.HWIntrinsic.InitializeOperands
          (Arm64.HWIntrinsic.fresh id category) node).2.numOperands = node.GetOperandCount ∧
        (∀ i (hi : i < node.operands.length),
          Arm64.HWIntrinsic.slot
              (Arm64.HWIntrinsic.InitializeOperands
                (Arm64.HWIntrinsic.fresh id category) node).2 (i + 1) =
            some (node.operands.get ⟨i, hi⟩)) ∧
        (∀ i, node.GetOperandCount < i → i ≤ 5 →
          Arm64.HWIntrinsic.slot
              (Arm64.HWIntrinsic.InitializeOperands
                (Arm64.HWIntrinsic.fresh id category) node).2 i = none)) ∧
    (∀ v, Arm64.HWIntrinsic.HWIntrinsic lookup genActualType (some node) = .ok v →
      v.numOperands = node.GetOperandCount ∧
        (∀ i (hi : i < node.operands.length),
          Arm64.HWIntrinsic.slot v (i + 1) = some (node.operands.get ⟨i, hi⟩)) ∧
        (∀ i, node.GetOperandCount < i → i ≤ 5 → Arm64.HWIntrinsic.slot v i = none)) ∧
    (HWIntrinsicInfo.RequiresCodegen lookup node.GetHWIntrinsicId = true →
      node.GetSimdBaseType ≠ TYP_UNKNOWN →
      ∃ v, Arm64.HWIntrinsic.HWIntrinsic lookup genActualType (some node) = .ok v) := by
  have hfresh : ∀ id category i, 0 < i → i ≤ 5 →
      Arm64.HWIntrinsic.slot (Arm64.HWIntrinsic.fresh id category) i = none := by
    intro id category i h0 h5
    interval_cases i <;> rfl
  have hextract : ∀ id category,
      (Arm64.HWIntrinsic.InitializeOperands (Arm64.HWIntrinsic.fresh id category) node).1 =
          .ok () ∧
        (Arm64.HWIntrinsic.InitializeOperands
          (Arm64.HWIntrinsic.fresh id category) node).2.numOperands = node.GetOperandCount ∧
        (∀ i (hi : i < node.operands.length),
          Arm64.HWIntrinsic.slot
              (Arm64.HWIntrinsic.InitializeOperands
                (Arm64.HWIntrinsic.fresh id category) node).2 (i + 1) =
            some (node.operands.get ⟨i, hi⟩)) ∧
        (∀ i, node.GetOperandCount < i → i ≤ 5 →
          Arm64.HWIntrinsic.slot
              (Arm64.HWIntrinsic.InitializeOperands
                (Arm64.HWIntrinsic.fresh id category) node).2 i = none) := by
    intro id category
    obtain ⟨h1, h2, h3, h4⟩ :=
      Arm64.HWIntrinsic.InitializeOperands_spec (Arm64.HWIntrinsic.fresh id category) node hn
    refine ⟨h1, h2, h3, ?_⟩
    intro i hi h5
    rw [h4 i hi h5]
    exact hfresh id category i (Nat.lt_of_le_of_lt (Nat.zero_le _) hi) h5
  refine ⟨hextract, ?_, Arm64.HWIntrinsic.constructed_of_known_base lookup genActualType node hn⟩
  intro v hv
  have hsame := Arm64.HWIntrinsic.constructed_same lookup genActualType node v hv
  obtain ⟨_, h2, h3, h4⟩ := hextract node.GetHWIntrinsicId
    (HWIntrinsicInfo.lookupCategory lookup node.GetHWIntrinsicId)
  refine ⟨hsame.2.2.2.2.2.2.2.trans h2, ?_, ?_⟩
  · intro i hi
    rw [Arm64.HWIntrinsic.slot_eq_of_same hsame]
    exact h3 i hi
  · intro i hi h5
    rw [Arm64.HWIntrinsic.slot_eq_of_same hsame]
    exact h4 i hi h5

/-- C10 at a concrete node: three operands fill `op1` to `op3` and leave `op4`, `op5` null. -/
theorem Arm64.HWIntrinsic.operands_extracted_witness :
    Arm64.sampleNode.GetOperandCount ≤ 5 ∧
      (∃ v, Arm64.HWIntrinsic.HWIntrinsic
          (Arm64.uniformRegistry HW_Flag_NoFlag Arm64.HW_Category_SIMD) (fun t => t)
          (some Arm64.sampleNode) = .ok v) ∧
      ∀ v, Arm64.HWIntrinsic.HWIntrinsic
          (Arm64.uniformRegistry HW_Flag_NoFlag Arm64.HW_Category_SIMD) (fun t => t)
          (some Arm64.sampleNode) = .ok v →
        v.numOperands = 3 ∧ v.op1 = some ⟨1, .other 3⟩ ∧ v.op2 = some ⟨2, .other 4⟩ ∧
          v.op3 = some ⟨3, .other 4⟩ ∧ v.op4 = none ∧ v.op5 = none := by
  have h := Arm64.HWIntrinsic.operands_extracted
    (Arm64.uniformRegistry HW_Flag_NoFlag Arm64.HW_Category_SIMD) (fun t => t) Arm64.sampleNode
    (by decide)
  refine ⟨by decide, h.2.2 (by decide) (by decide), ?_⟩
  intro v hv
  obtain ⟨hnum, hset, hnull⟩ := h.2.1 v hv
  exact ⟨hnum, hset 0 (by decide), hset 1 (by decide), hset 2 (by decide),
    hnull 4 (by decide) (by decide), hnull 5 (by decide) (by decide)⟩

/-! ## Operand counts outside the supported range -/

namespace Arm64.HWIntrinsic

/-- With more than five operands the switch of `InitializeOperands` takes its
default branch: only `numOperands` has been written. -/
theorem InitializeOperands_of_gt (self : Arm64.HWIntrinsic) (node : GenTreeHWIntrinsic)
    (hn : 5 < node.GetOperandCount) :
    InitializeOperands self node =
      (.error .unreachedCode, { self with numOperands := node.GetOperandCount }) := by
  obtain ⟨nid, ops, bt, ty⟩ := node
  match ops, hn with
  | a :: b :: c :: d :: e :: f :: rest, _ => rfl

/-- The constructor, once `RequiresCodegen` has passed, is `InitializeOperands`
on the fresh view followed by `InitializeBaseType`. -/
theorem constructor_eq (lookup : Info) (genActualType : var_types → var_types)
    (node : GenTreeHWIntrinsic)
    (hreq : HWIntrinsicInfo.RequiresCodegen lookup node.GetHWIntrinsicId = true) :
    HWIntrinsic.HWIntrinsic lookup genActualType (some node) =
      match InitializeOperands
          (fresh node.GetHWIntrinsicId
            (HWIntrinsicInfo.lookupCategory lookup node.GetHWIntrinsicId)) node with
      | (.error e, _) => .error e
      | (.ok (), self) =>
        match InitializeBaseType lookup genActualType self node with
        | (.error e, _) => .error e
        | (.ok (), self) => .ok self := by
  unfold HWIntrinsic.HWIntrinsic
  simp only [hreq, Bool.not_true, Bool.false_eq_true, if_false]

end Arm64.HWIntrinsic

/-- C11: for every intrinsic node with more than five operands, operand
extraction ends in the fatal unreachable path and copies no operand: every
slot of the view keeps the value it had, null on the fresh view of the
constructor, and the constructor returns no view. -/
theorem Arm64.HWIntrinsic.operands_out_of_range (lookup : Arm64.Info)
    (genActualType : var_types → var_types) (node : Arm64.GenTreeHWIntrinsic)
    (hn : 5 < node.GetOperandCount) :
    (∀ self : Arm64.HWIntrinsic,
      (Arm64.HWIntrinsic.InitializeOperands self node).1 = .error .unreachedCode ∧
        (Arm64.HWIntrinsic.InitializeOperands self node).2.op1 = self.op1 ∧
        (Arm64.HWIntrinsic.InitializeOperands self node).2.op2 = self.op2 ∧
        (Arm64.HWIntrinsic.InitializeOperands self node).2.op3 = self.op3 ∧
        (Arm64.HWIntrinsic.InitializeOperands self node).2.op4 = self.op4 ∧
        (Arm64.HWIntrinsic.InitializeOperands self node).2.op5 = self.op5) ∧
    (∀ i, Arm64.HWIntrinsic.slot (Arm64.HWIntrinsic.extracted lookup node) i = none) ∧
    (HWIntrinsicInfo.RequiresCodegen lookup node.GetHWIntrinsicId = true →
      Arm64.HWIntrinsic.HWIntrinsic lookup genActualType (some node) = .error .unreachedCode) ∧
    (∀ v, Arm64.HWIntrinsic.HWIntrinsic lookup genActualType (some node) ≠ .ok v) := by
  have hctor : HWIntrinsicInfo.RequiresCodegen lookup node.GetHWIntrinsicId = true →
      Arm64.HWIntrinsic.HWIntrinsic lookup genActualType (some node) =
        .error .unreachedCode := by
    intro hreq
    rw [Arm64.HWIntrinsic.constructor_eq lookup genActualType node hreq,
      Arm64.HWIntrinsic.InitializeOperands_of_gt _ node hn]
  refine ⟨?_, ?_, hctor, ?_⟩
  · intro self
    rw [Arm64.HWIntrinsic.InitializeOperands_of_gt self node hn]
    exact ⟨rfl, rfl, rfl, rfl, rfl, rfl⟩
  · intro i
    unfold Arm64.HWIntrinsic.extracted
    rw [Arm64.HWIntrinsic.InitializeOperands_of_gt _ node hn]
    unfold Arm64.HWIntrinsic.slot
    split <;> rfl
  · intro v hv
    cases hreq : HWIntrinsicInfo.RequiresCodegen lookup node.GetHWIntrinsicId
    · unfold Arm64.HWIntrinsic.HWIntrinsic at hv
      simp only [hreq, Bool.not_false, if_true] at hv
      cases hv
    · rw [hctor hreq] at hv
      cases hv

/-- C11 at a concrete node: six operands end in the unreachable path, with all slots null. -/
theorem Arm64.HWIntrinsic.operands_out_of_range_witness :
    5 < Arm64.sixOperandNode.GetOperandCount ∧
      Arm64.HWIntrinsic.InitializeOperands
          (Arm64.HWIntrinsic.fresh (.other 0) Arm64.HW_Category_SIMD) Arm64.sixOperandNode =
        (.error .unreachedCode,
          { Arm64.HWIntrinsic.fresh (.other 0) Arm64.HW_Category_SIMD with numOperands := 6 }) ∧
      Arm64.HWIntrinsic.HWIntrinsic
          (Arm64.uniformRegistry HW_Flag_NoFlag Arm64.HW_Category_SIMD) (fun t => t)
          (some Arm64.sixOperandNode) = .error .unreachedCode :=
  ⟨by decide, rfl,
    (Arm64.HWIntrinsic.operands_out_of_range
      (Arm64.uniformRegistry HW_Flag_NoFlag Arm64.HW_Category_SIMD) (fun t => t)
      Arm64.sixOperandNode (by decide)).2.2.1 (by decide)⟩

/-! ## Base-type inference of the invocation view -/

namespace HWIntrinsicInfo

variable {NI Cat : Type}

theorem BaseTypeFromFirstArg_iff (lookup : Registry NI Cat) (id : NI) :
    BaseTypeFromFirstArg lookup id = true ↔
      Carries (lookup id).flags HW_Flag_BaseTypeFromFirstArg :=
  test_ne_zero_iff (lookup id).flags 3

theorem BaseTypeFromSecondArg_iff (lookup : Registry NI Cat) (id : NI) :
    BaseTypeFromSecondArg lookup id = true ↔
      Carries (lookup id).flags HW_Flag_BaseTypeFromSecondArg :=
  test_ne_zero_iff (lookup id).flags 4

/-- The test of `RequiresCodegen` on the two-bit mask holds exactly when the
word carries neither bit. -/
theorem RequiresCodegen_iff (lookup : Registry NI Cat) (id : NI) :
    RequiresCodegen lookup id = true ↔
      ¬ Carries (lookup id).flags HW_Flag_NoCodeGen ∧
        ¬ Carries (lookup id).flags HW_Flag_InvalidNodeId := by
  have h1 := land_two_pow (lookup id).flags 1
  have h2 := land_two_pow (lookup id).flags 2
  show (((lookup id).flags &&& (2 ^ 1 ||| 2 ^ 2)) == 0) = true ↔
    ¬ ((lookup id).flags &&& 2 ^ 1 = 2 ^ 1) ∧ ¬ ((lookup id).flags &&& 2 ^ 2 = 2 ^ 2)
  rw [Nat.and_or_distrib_left, h1, h2]
  cases (lookup id).flags.testBit 1 <;> cases (lookup id).flags.testBit 2 <;> decide

end HWIntrinsicInfo

namespace Arm64.HWIntrinsic

/-- For at most five operands `InitializeOperands` succeeds on the fresh view, and
the view it leaves has the node's first two operands in `op1` and `op2`. -/
theorem extracted_spec (lookup : Info) (node : GenTreeHWIntrinsic)
    (hn : node.GetOperandCount ≤ 5) :
    InitializeOperands
        (fresh node.GetHWIntrinsicId
          (HWIntrinsicInfo.lookupCategory lookup node.GetHWIntrinsicId)) node =
        (.ok (), extracted lookup node) ∧
      (extracted lookup node).id = node.GetHWIntrinsicId ∧
      (extracted lookup node).category = (lookup node.GetHWIntrinsicId).category ∧
      (extracted lookup node).op1 = node.Op 1 ∧
      (extracted lookup node).op2 = node.Op 2 := by
  obtain ⟨nid, ops, bt, ty⟩ := node
  match ops, hn with
  | [], _ => exact ⟨rfl, rfl, rfl, rfl, rfl⟩
  | [a], _ => exact ⟨rfl, rfl, rfl, rfl, rfl⟩
  | [a, b], _ => exact ⟨rfl, rfl, rfl, rfl, rfl⟩
  | [a, b, c], _ => exact ⟨rfl, rfl, rfl, rfl, rfl⟩
  | [a, b, c, d], _ => exact ⟨rfl, rfl, rfl, rfl, rfl⟩
  | [a, b, c, d, e], _ => exact ⟨rfl, rfl, rfl, rfl, rfl⟩
  | a :: b :: c :: d :: e :: f :: rest, h =>
    exact absurd h (by simp [GenTreeHWIntrinsic.GetOperandCount])

/-- The constructor on a node that requires code generation and has at most
five operands is `InitializeBaseType` on the extracted view. -/
theorem constructor_of_extracted (lookup : Info) (genActualType : var_types → var_types)
    (node : GenTreeHWIntrinsic)
    (hreq : HWIntrinsicInfo.RequiresCodegen lookup node.GetHWIntrinsicId = true)
    (hn : node.GetOperandCount ≤ 5) :
    HWIntrinsic.HWIntrinsic lookup genActualType (some node) =
      match InitializeBaseType lookup genActualType (extracted lookup node) node with
      | (.error e, _) => .error e
      | (.ok (), self) => .ok self := by
  rw [constructor_eq lookup genActualType node hreq, (extracted_spec lookup node hn).1]

/-- A known base type is taken as it is. -/
theorem InitializeBaseType_known (lookup : Info) (genActualType : var_types → var_types)
    (self : Arm64.HWIntrinsic) (node : GenTreeHWIntrinsic)
    (hbase : node.GetSimdBaseType ≠ TYP_UNKNOWN) :
    InitializeBaseType lookup genActualType self node =
      (.ok (), { self with baseType := node.GetSimdBaseType }) := by
  have hb : (node.GetSimdBaseType == TYP_UNKNOWN) = false := by
    simpa using hbase
  unfold InitializeBaseType
  simp only [hb, Bool.false_eq_true, if_false]

/-- An unknown base type outside the scalar and special categories fails the assertion. -/
theorem InitializeBaseType_restricted (lookup : Info) (genActualType : var_types → var_types)
    (self : Arm64.HWIntrinsic) (node : GenTreeHWIntrinsic)
    (hbase : node.GetSimdBaseType = TYP_UNKNOWN)
    (hs : self.category ≠ HW_Category_Scalar) (hp : self.category ≠ HW_Category_Special) :
    InitializeBaseType lookup genActualType self node =
      (.error .assertionFailed, { self with baseType := TYP_UNKNOWN }) := by
  unfold InitializeBaseType
  simp [hbase, hs, hp]

/-- An unknown base type in the scalar and special categories is inferred and widened. -/
theorem InitializeBaseType_inferred (lookup : Info) (genActualType : var_types → var_types)
    (self : Arm64.HWIntrinsic) (node : GenTreeHWIntrinsic)
    (hbase : node.GetSimdBaseType = TYP_UNKNOWN)
    (hc : self.category = HW_Category_Scalar ∨ self.category = HW_Category_Special) :
    InitializeBaseType lookup genActualType self node =
      match inferBaseType lookup { self with baseType := TYP_UNKNOWN } node with
      | (.error e, self) => (.error e, self)
      | (.ok (), self) => (.ok (), widenScalar genActualType self) := by
  unfold InitializeBaseType
  rcases hc with hc | hc <;> simp [hbase, hc]

/-- The chain of `InitializeBaseType` follows the first-argument, second-argument,
node-type rule, and fails its assertion when the operand the rule names is null. -/
theorem inferBaseType_eq (lookup : Info) (self : Arm64.HWIntrinsic) (node : GenTreeHWIntrinsic)
    (h1 : self.op1 = node.Op 1) (h2 : self.op2 = node.Op 2) :
    inferBaseType lookup self node =
      match chosenType (lookup self.id).flags node with
      | none => (.error .assertionFailed, self)
      | some t => (.ok (), { self with baseType := t }) := by
  unfold inferBaseType chosenType
  by_cases hf : Carries (lookup self.id).flags HW_Flag_BaseTypeFromFirstArg
  · have hF := (HWIntrinsicInfo.BaseTypeFromFirstArg_iff lookup self.id).mpr hf
    rw [if_pos hF, if_pos hf, h1]
    cases node.Op 1 <;> rfl
  · have hF : ¬ HWIntrinsicInfo.BaseTypeFromFirstArg lookup self.id = true :=
      fun h => hf ((HWIntrinsicInfo.BaseTypeFromFirstArg_iff lookup self.id).mp h)
    rw [if_neg hF, if_neg hf]
    by_cases hs : Carries (lookup self.id).flags HW_Flag_BaseTypeFromSecondArg
    · have hS := (HWIntrinsicInfo.BaseTypeFromSecondArg_iff lookup self.id).mpr hs
      rw [if_pos hS, if_pos hs, h2]
      cases node.Op 2 <;> rfl
    · have hS : ¬ HWIntrinsicInfo.BaseTypeFromSecondArg lookup self.id = true :=
        fun h => hs ((HWIntrinsicInfo.BaseTypeFromSecondArg_iff lookup self.id).mp h)
      rw [if_neg hS, if_neg hs]

/-- The constructor on a node with an unknown base type, in the scalar and
special categories: the chosen type, widened for scalars, or the assertion
failure when the rule names a null operand. -/
theorem constructor_inferred (lookup : Info) (genActualType : var_types → var_types)
    (node : GenTreeHWIntrinsic)
    (hreq : HWIntrinsicInfo.RequiresCodegen lookup node.GetHWIntrinsicId = true)
    (hn : node.GetOperandCount ≤ 5) (hbase : node.GetSimdBaseType = TYP_UNKNOWN)
    (hc : (lookup node.GetHWIntrinsicId).category = HW_Category_Scalar ∨
      (lookup node.GetHWIntrinsicId).category = HW_Category_Special) :
    HWIntrinsic.HWIntrinsic lookup genActualType (some node) =
      match chosenType (lookup node.GetHWIntrinsicId).flags node with
      | none => .error .assertionFailed
      | some t =>
        .ok { extracted lookup node with
          baseType :=
            if (lookup node.GetHWIntrinsicId).category = HW_Category_Scalar then
              genActualType t
            else t } := by
  obtain ⟨_, hid, hcat, hop1, hop2⟩ := extracted_spec lookup node hn
  rw [constructor_of_extracted lookup genActualType node hreq hn,
    InitializeBaseType_inferred lookup genActualType (extracted lookup node) node hbase
      (by rw [hcat]; exact hc),
    inferBaseType_eq lookup { extracted lookup node with baseType := TYP_UNKNOWN } node
      hop1 hop2]
  simp only [hid]
  cases chosenType (lookup node.GetHWIntrinsicId).flags node with
  | none => rfl
  | some t =>
    simp only [widenScalar, hcat]
    rcases hc with hc | hc <;> simp [hc]

/-- Without `RequiresCodegen` the constructor fails its assertion. -/
theorem constructor_of_not_required (lookup : Info) (genActualType : var_types → var_types)
    (node : GenTreeHWIntrinsic)
    (hreq : HWIntrinsicInfo.RequiresCodegen lookup node.GetHWIntrinsicId = false) :
    HWIntrinsic.HWIntrinsic lookup genActualType (some node) = .error .assertionFailed := by
  unfold HWIntrinsic.HWIntrinsic
  simp only [hreq, Bool.not_false, if_true]

/-- A view is returned only for a node that requires code generation and has at
most five operands. -/
theorem constructor_ok_requires (lookup : Info) (genActualType : var_types → var_types)
    (node : GenTreeHWIntrinsic) (v : Arm64.HWIntrinsic)
    (hv : HWIntrinsic.HWIntrinsic lookup genActualType (some node) = .ok v) :
    HWIntrinsicInfo.RequiresCodegen lookup node.GetHWIntrinsicId = true ∧
      node.GetOperandCount ≤ 5 := by
  cases hreq : HWIntrinsicInfo.RequiresCodegen lookup node.GetHWIntrinsicId
  · rw [constructor_of_not_required lookup genActualType node hreq] at hv
    cases hv
  · refine ⟨rfl, ?_⟩
    by_contra hgt
    rw [constructor_eq lookup genActualType node hreq,
      InitializeOperands_of_gt _ node (Nat.lt_of_not_le hgt)] at hv
    cases hv

end Arm64.HWIntrinsic

/-- C12: when the node's own base type is `TYP_UNKNOWN` (and the constructor's
other assertions hold: code generation required, at most five operands, scalar
or special category), the base type is chosen by strict priority: operand 1's
type if the first-argument flag is carried, whether or not the second-argument
flag is carried too; otherwise operand 2's type if the second-argument flag is
carried; otherwise the node's own type. The chosen type is then widened by
`genActualType` in the scalar category only. -/
theorem Arm64.HWIntrinsic.baseType_priority (lookup : Arm64.Info)
    (genActualType : var_types → var_types) (node : Arm64.GenTreeHWIntrinsic)
    (hreq : HWIntrinsicInfo.RequiresCodegen lookup node.GetHWIntrinsicId = true)
    (hn : node.GetOperandCount ≤ 5) (hbase : node.GetSimdBaseType = TYP_UNKNOWN)
    (hc : (lookup node.GetHWIntrinsicId).category = Arm64.HW_Category_Scalar ∨
      (lookup node.GetHWIntrinsicId).category = Arm64.HW_Category_Special) :
    (Carries (lookup node.GetHWIntrinsicId).flags HW_Flag_BaseTypeFromFirstArg →
      ∀ op1, node.Op 1 = some op1 →
        ∃ v, Arm64.HWIntrinsic.HWIntrinsic lookup genActualType (some node) = .ok v ∧
          v.baseType =
            if (lookup node.GetHWIntrinsicId).category = Arm64.HW_Category_Scalar then
              genActualType op1.TypeGet
            else op1.TypeGet) ∧
    (¬ Carries (lookup node.GetHWIntrinsicId).flags HW_Flag_BaseTypeFromFirstArg →
      Carries (lookup node.GetHWIntrinsicId).flags HW_Flag_BaseTypeFromSecondArg →
      ∀ op2, node.Op 2 = some op2 →
        ∃ v, Arm64.HWIntrinsic.HWIntrinsic lookup genActualType (some node) = .ok v ∧
          v.baseType =
            if (lookup node.GetHWIntrinsicId).category = Arm64.HW_Category_Scalar then
              genActualType op2.TypeGet
            else op2.TypeGet) ∧
    (¬ Carries (lookup node.GetHWIntrinsicId).flags HW_Flag_BaseTypeFromFirstArg →
      ¬ Carries (lookup node.GetHWIntrinsicId).flags HW_Flag_BaseTypeFromSecondArg →
      ∃ v, Arm64.HWIntrinsic.HWIntrinsic lookup genActualType (some node) = .ok v ∧
        v.baseType =
          if (lookup node.GetHWIntrinsicId).category = Arm64.HW_Category_Scalar then
            genActualType node.TypeGet
          else node.TypeGet) := by
  have key := Arm64.HWIntrinsic.constructor_inferred lookup genActualType node hreq hn hbase hc
  refine ⟨?_, ?_, ?_⟩
  · intro hf op1 hop1
    have ht : Arm64.HWIntrinsic.chosenType (lookup node.GetHWIntrinsicId).flags node =
        some op1.TypeGet := by
      unfold Arm64.HWIntrinsic.chosenType
      rw [if_pos hf, hop1]
      rfl
    rw [ht] at key
    exact ⟨_, key, rfl⟩
  · intro hf hs op2 hop2
    have ht : Arm64.HWIntrinsic.chosenType (lookup node.GetHWIntrinsicId).flags node =
        some op2.TypeGet := by
      unfold Arm64.HWIntrinsic.chosenType
      rw [if_neg hf, if_pos hs, hop2]
      rfl
    rw [ht] at key
    exact ⟨_, key, rfl⟩
  · intro hf hs
    have ht : Arm64.HWIntrinsic.chosenType (lookup node.GetHWIntrinsicId).flags node =
        some node.TypeGet := by
      unfold Arm64.HWIntrinsic.chosenType
      rw [if_neg hf, if_neg hs]
    rw [ht] at key
    exact ⟨_, key, rfl⟩

/-- C12 at a concrete node: with both flags the first operand's type wins, with
the second-argument flag alone the second operand's type is taken, with
neither the node's own type. -/
theorem Arm64.HWIntrinsic.baseType_priority_witness :
    (∃ v, Arm64.HWIntrinsic.HWIntrinsic
        (Arm64.uniformRegistry (HW_Flag_BaseTypeFromFirstArg ||| HW_Flag_BaseTypeFromSecondArg)
          Arm64.HW_Category_Special) (fun t => t) (some Arm64.untypedNode) = .ok v ∧
      v.baseType = .other 3) ∧
    (∃ v, Arm64.HWIntrinsic.HWIntrinsic
        (Arm64.uniformRegistry HW_Flag_BaseTypeFromSecondArg Arm64.HW_Category_Special)
        (fun t => t) (some Arm64.untypedNode) = .ok v ∧
      v.baseType = .other 4) ∧
    (∃ v, Arm64.HWIntrinsic.HWIntrinsic
        (Arm64.uniformRegistry HW_Flag_NoFlag Arm64.HW_Category_Special)
        (fun t => t) (some Arm64.untypedNode) = .ok v ∧
      v.baseType = .other 9) :=
  ⟨(Arm64.HWIntrinsic.baseType_priority
      (Arm64.uniformRegistry (HW_Flag_BaseTypeFromFirstArg ||| HW_Flag_BaseTypeFromSecondArg)
        Arm64.HW_Category_Special) (fun t => t) Arm64.untypedNode
      (by decide) (by decide) rfl (Or.inr rfl)).1 (by decide) ⟨1, .other 3⟩ rfl,
    (Arm64.HWIntrinsic.baseType_priority
      (Arm64.uniformRegistry HW_Flag_BaseTypeFromSecondArg Arm64.HW_Category_Special)
      (fun t => t) Arm64.untypedNode
      (by decide) (by decide) rfl (Or.inr rfl)).2.1 (by decide) (by decide) ⟨2, .other 4⟩ rfl,
    (Arm64.HWIntrinsic.baseType_priority
      (Arm64.uniformRegistry HW_Flag_NoFlag Arm64.HW_Category_Special)
      (fun t => t) Arm64.untypedNode
      (by decide) (by decide) rfl (Or.inr rfl)).2.2 (by decide) (by decide)⟩

/-- C13: when the node's own base type is not `TYP_UNKNOWN`, `InitializeBaseType`
sets `baseType` to exactly that type on every view, whatever its category and
the flags of the descriptor; the constructor returns a view with that base type
whenever code generation is required and the node has at most five operands,
and every view it returns has that base type. -/
theorem Arm64.HWIntrinsic.baseType_known (lookup : Arm64.Info)
    (genActualType : var_types → var_types) (node : Arm64.GenTreeHWIntrinsic)
    (hbase : node.GetSimdBaseType ≠ TYP_UNKNOWN) :
    (∀ self : Arm64.HWIntrinsic,
      Arm64.HWIntrinsic.InitializeBaseType lookup genActualType self node =
        (.ok (), { self with baseType := node.GetSimdBaseType })) ∧
    (HWIntrinsicInfo.RequiresCodegen lookup node.GetHWIntrinsicId = true →
      node.GetOperandCount ≤ 5 →
      ∃ v, Arm64.HWIntrinsic.HWIntrinsic lookup genActualType (some node) = .ok v ∧
        v.baseType = node.GetSimdBaseType) ∧
    (∀ v, Arm64.HWIntrinsic.HWIntrinsic lookup genActualType (some node) = .ok v →
      v.baseType = node.GetSimdBaseType) := by
  have hctor : HWIntrinsicInfo.RequiresCodegen lookup node.GetHWIntrinsicId = true →
      node.GetOperandCount ≤ 5 →
      Arm64.HWIntrinsic.HWIntrinsic lookup genActualType (some node) =
        .ok { Arm64.HWIntrinsic.extracted lookup node with
          baseType := node.GetSimdBaseType } := by
    intro hreq hn
    rw [Arm64.HWIntrinsic.constructor_of_extracted lookup genActualType node hreq hn,
      Arm64.HWIntrinsic.InitializeBaseType_known lookup genActualType _ node hbase]
  refine ⟨fun self =>
    Arm64.HWIntrinsic.InitializeBaseType_known lookup genActualType self node hbase,
    fun hreq hn => ⟨_, hctor hreq hn, rfl⟩, ?_⟩
  intro v hv
  obtain ⟨hreq, hn⟩ := Arm64.HWIntrinsic.constructor_ok_requires lookup genActualType node v hv
  rw [hctor hreq hn] at hv
  rw [← Except.ok.inj hv]

/-- C13 at a concrete node: a scalar node with a known base type keeps it, although
the descriptor carries both base-type flags and the widening would change it. -/
theorem Arm64.HWIntrinsic.baseType_known_witness :
    Arm64.sampleNode.GetSimdBaseType ≠ TYP_UNKNOWN ∧
      ∃ v, Arm64.HWIntrinsic.HWIntrinsic
          (Arm64.uniformRegistry (HW_Flag_BaseTypeFromFirstArg ||| HW_Flag_BaseTypeFromSecondArg)
            Arm64.HW_Category_Scalar) (fun _ => .other 99) (some Arm64.sampleNode) = .ok v ∧
        v.baseType = .other 7 :=
  ⟨by decide,
    (Arm64.HWIntrinsic.baseType_known
      (Arm64.uniformRegistry (HW_Flag_BaseTypeFromFirstArg ||| HW_Flag_BaseTypeFromSecondArg)
        Arm64.HW_Category_Scalar) (fun _ => .other 99) Arm64.sampleNode (by decide)).2.1
      (by decide) (by decide)⟩

/-- C14: when the base type is inferred (the node's base type is `TYP_UNKNOWN`)
and `t` is the type the first-argument, second-argument, node-type rule
chooses, the view's `baseType` is `genActualType(t)` in the scalar category and
`t` unchanged in the special category. -/
theorem Arm64.HWIntrinsic.baseType_widened (lookup : Arm64.Info)
    (genActualType : var_types → var_types) (node : Arm64.GenTreeHWIntrinsic)
    (hreq : HWIntrinsicInfo.RequiresCodegen lookup node.GetHWIntrinsicId = true)
    (hn : node.GetOperandCount ≤ 5) (hbase : node.GetSimdBaseType = TYP_UNKNOWN)
    (t : var_types)
    (ht : Arm64.HWIntrinsic.chosenType (lookup node.GetHWIntrinsicId).flags node = some t) :
    ((lookup node.GetHWIntrinsicId).category = Arm64.HW_Category_Scalar →
      ∃ v, Arm64.HWIntrinsic.HWIntrinsic lookup genActualType (some node) = .ok v ∧
        v.baseType = genActualType t) ∧
    ((lookup node.GetHWIntrinsicId).category = Arm64.HW_Category_Special →
      ∃ v, Arm64.HWIntrinsic.HWIntrinsic lookup genActualType (some node) = .ok v ∧
        v.baseType = t) := by
  constructor
  · intro hc
    have key := Arm64.HWIntrinsic.constructor_inferred lookup genActualType node hreq hn hbase
      (Or.inl hc)
    rw [ht] at key
    exact ⟨_, key, if_pos hc⟩
  · intro hc
    have key := Arm64.HWIntrinsic.constructor_inferred lookup genActualType node hreq hn hbase
      (Or.inr hc)
    rw [ht] at key
    refine ⟨_, key, if_neg ?_⟩
    rw [hc]
    decide

/-- C14 at a concrete node: the first operand's type `other 3` is widened to
`other 30` for a scalar and kept for a special intrinsic. -/
theorem Arm64.HWIntrinsic.baseType_widened_witness :
    (∃ v, Arm64.HWIntrinsic.HWIntrinsic
        (Arm64.uniformRegistry HW_Flag_BaseTypeFromFirstArg Arm64.HW_Category_Scalar)
        Arm64.sampleActualType (some Arm64.untypedNode) = .ok v ∧
      v.baseType = .other 30) ∧
    (∃ v, Arm64.HWIntrinsic.HWIntrinsic
        (Arm64.uniformRegistry HW_Flag_BaseTypeFromFirstArg Arm64.HW_Category_Special)
        Arm64.sampleActualType (some Arm64.untypedNode) = .ok v ∧
      v.baseType = .other 3) :=
  ⟨(Arm64.HWIntrinsic.baseType_widened
      (Arm64.uniformRegistry HW_Flag_BaseTypeFromFirstArg Arm64.HW_Category_Scalar)
      Arm64.sampleActualType Arm64.untypedNode (by decide) (by decide) rfl (.other 3)
      (by decide)).1 rfl,
    (Arm64.HWIntrinsic.baseType_widened
      (Arm64.uniformRegistry HW_Flag_BaseTypeFromFirstArg Arm64.HW_Category_Special)
      Arm64.sampleActualType Arm64.untypedNode (by decide) (by decide) rfl (.other 3)
      (by decide)).2 rfl⟩

/-- C15: base-type inference is restricted to the scalar and special
categories. For a node whose base type is `TYP_UNKNOWN` and whose category is
any other, `InitializeBaseType` fails its assertion and leaves the base type
unknown; the constructor fails an assertion when the node has at most five
operands, and it never returns a view. -/
theorem Arm64.HWIntrinsic.baseType_restricted (lookup : Arm64.Info)
    (genActualType : var_types → var_types) (node : Arm64.GenTreeHWIntrinsic)
    (hbase : node.GetSimdBaseType = TYP_UNKNOWN)
    (hs : (lookup node.GetHWIntrinsicId).category ≠ Arm64.HW_Category_Scalar)
    (hp : (lookup node.GetHWIntrinsicId).category ≠ Arm64.HW_Category_Special) :
    (∀ self : Arm64.HWIntrinsic, self.category = (lookup node.GetHWIntrinsicId).category →
      Arm64.HWIntrinsic.InitializeBaseType lookup genActualType self node =
        (.error .assertionFailed, { self with baseType := TYP_UNKNOWN })) ∧
    (node.GetOperandCount ≤ 5 →
      Arm64.HWIntrinsic.HWIntrinsic lookup genActualType (some node) =
        .error .assertionFailed) ∧
    (∀ v, Arm64.HWIntrinsic.HWIntrinsic lookup genActualType (some node) ≠ .ok v) := by
  have hmethod : ∀ self : Arm64.HWIntrinsic,
      self.category = (lookup node.GetHWIntrinsicId).category →
      Arm64.HWIntrinsic.InitializeBaseType lookup genActualType self node =
        (.error .assertionFailed, { self with baseType := TYP_UNKNOWN }) := by
    intro self hcat
    exact Arm64.HWIntrinsic.InitializeBaseType_restricted lookup genActualType self node hbase
      (by rw [hcat]; exact hs) (by rw [hcat]; exact hp)
  have hctor : node.GetOperandCount ≤ 5 →
      Arm64.HWIntrinsic.HWIntrinsic lookup genActualType (some node) =
        .error .assertionFailed := by
    intro hn
    cases hreq : HWIntrinsicInfo.RequiresCodegen lookup node.GetHWIntrinsicId
    · exact Arm64.HWIntrinsic.constructor_of_not_required lookup genActualType node hreq
    · rw [Arm64.HWIntrinsic.constructor_of_extracted lookup genActualType node hreq hn,
        hmethod _ (Arm64.HWIntrinsic.extracted_spec lookup node hn).2.2.1]
  refine ⟨hmethod, hctor, ?_⟩
  intro v hv
  obtain ⟨_, hn⟩ := Arm64.HWIntrinsic.constructor_ok_requires lookup genActualType node v hv
  rw [hctor hn] at hv
  cases hv

/-- C15 at a concrete node: an untyped node of the SIMD category fails the assertion. -/
theorem Arm64.HWIntrinsic.baseType_restricted_witness :
    Arm64.HWIntrinsic.HWIntrinsic (Arm64.uniformRegistry HW_Flag_NoFlag Arm64.HW_Category_SIMD)
        (fun t => t) (some Arm64.untypedNode) = .error .assertionFailed :=
  (Arm64.HWIntrinsic.baseType_restricted
    (Arm64.uniformRegistry HW_Flag_NoFlag Arm64.HW_Category_SIMD) (fun t => t)
    Arm64.untypedNode rfl (by decide) (by decide)).2.1 (by decide)

/-! ## Construction of the invocation view -/

/-- C16, as the code has it: for every node whose descriptor carries
`HW_Flag_NoCodeGen` or `HW_Flag_InvalidNodeId` the constructor fails its
assertion; for every other node it returns a view exactly when operand
extraction and base-type inference raise no fatal error, which they do not for
at most five operands and a known base type; and every view it returns has the
node's identifier and the descriptor's category. -/
theorem Arm64.HWIntrinsic.constructor_requires_codegen (lookup : Arm64.Info)
    (genActualType : var_types → var_types) (node : Arm64.GenTreeHWIntrinsic) :
    (Carries (lookup node.GetHWIntrinsicId).flags HW_Flag_NoCodeGen ∨
        Carries (lookup node.GetHWIntrinsicId).flags HW_Flag_InvalidNodeId →
      Arm64.HWIntrinsic.HWIntrinsic lookup genActualType (some node) =
        .error .assertionFailed) ∧
    (¬ Carries (lookup node.GetHWIntrinsicId).flags HW_Flag_NoCodeGen →
      ¬ Carries (lookup node.GetHWIntrinsicId).flags HW_Flag_InvalidNodeId →
      ((∃ v, Arm64.HWIntrinsic.HWIntrinsic lookup genActualType (some node) = .ok v) ↔
        (Arm64.HWIntrinsic.InitializeOperands
            (Arm64.HWIntrinsic.fresh node.GetHWIntrinsicId
              (lookup node.GetHWIntrinsicId).category) node).1 = .ok () ∧
          (Arm64.HWIntrinsic.InitializeBaseType lookup genActualType
            (Arm64.HWIntrinsic.extracted lookup node) node).1 = .ok ())) ∧
    (¬ Carries (lookup node.GetHWIntrinsicId).flags HW_Flag_NoCodeGen →
      ¬ Carries (lookup node.GetHWIntrinsicId).flags HW_Flag_InvalidNodeId →
      node.GetOperandCount ≤ 5 → node.GetSimdBaseType ≠ TYP_UNKNOWN →
      ∃ v, Arm64.HWIntrinsic.HWIntrinsic lookup genActualType (some node) = .ok v) ∧
    (∀ v, Arm64.HWIntrinsic.HWIntrinsic lookup genActualType (some node) = .ok v →
      v.id = node.GetHWIntrinsicId ∧ v.category = (lookup node.GetHWIntrinsicId).category) := by
  refine ⟨?_, ?_, ?_, ?_⟩
  · intro hflag
    apply Arm64.HWIntrinsic.constructor_of_not_required
    rw [← Bool.not_eq_true, HWIntrinsicInfo.RequiresCodegen_iff]
    intro hnot
    rcases hflag with h | h
    · exact hnot.1 h
    · exact hnot.2 h
  · intro h1 h2
    have hreq := (HWIntrinsicInfo.RequiresCodegen_iff lookup node.GetHWIntrinsicId).mpr ⟨h1, h2⟩
    rw [Arm64.HWIntrinsic.constructor_eq lookup genActualType node hreq]
    unfold Arm64.HWIntrinsic.extracted HWIntrinsicInfo.lookupCategory
    rcases Arm64.HWIntrinsic.InitializeOperands
        (Arm64.HWIntrinsic.fresh node.GetHWIntrinsicId
          (lookup node.GetHWIntrinsicId).category) node with ⟨r0, v0⟩
    cases r0 with
    | error e => simp
    | ok u =>
      dsimp only
      rcases hib : Arm64.HWIntrinsic.InitializeBaseType lookup genActualType v0 node with
        ⟨r1, v1⟩
      cases r1 with
      | error e => simp
      | ok u1 => simp
  · intro h1 h2 hn hbase
    have hreq := (HWIntrinsicInfo.RequiresCodegen_iff lookup node.GetHWIntrinsicId).mpr ⟨h1, h2⟩
    exact Arm64.HWIntrinsic.constructed_of_known_base lookup genActualType node hn hreq hbase
  · intro v hv
    obtain ⟨_, hn⟩ := Arm64.HWIntrinsic.constructor_ok_requires lookup genActualType node v hv
    have hsame := Arm64.HWIntrinsic.constructed_same lookup genActualType node v hv
    obtain ⟨_, hid, hcat, _, _⟩ := Arm64.HWIntrinsic.extracted_spec lookup node hn
    exact ⟨hsame.1.trans hid, hsame.2.1.trans hcat⟩

/-- C16, as stated, fails: the descriptor carries neither `HW_Flag_NoCodeGen` nor
`HW_Flag_InvalidNodeId`, yet the constructor returns no view for a node with six
operands (unreachable path) nor for an untyped node of the SIMD category
(assertion). -/
theorem Arm64.HWIntrinsic.constructor_requires_codegen_counterexample :
    ¬ Carries ((Arm64.uniformRegistry HW_Flag_NoFlag Arm64.HW_Category_SIMD)
        Arm64.sixOperandNode.GetHWIntrinsicId).flags HW_Flag_NoCodeGen ∧
      ¬ Carries ((Arm64.uniformRegistry HW_Flag_NoFlag Arm64.HW_Category_SIMD)
        Arm64.sixOperandNode.GetHWIntrinsicId).flags HW_Flag_InvalidNodeId ∧
      Arm64.HWIntrinsic.HWIntrinsic (Arm64.uniformRegistry HW_Flag_NoFlag Arm64.HW_Category_SIMD)
        (fun t => t) (some Arm64.sixOperandNode) = .error .unreachedCode ∧
      Arm64.HWIntrinsic.HWIntrinsic (Arm64.uniformRegistry HW_Flag_NoFlag Arm64.HW_Category_SIMD)
        (fun t => t) (some Arm64.untypedNode) = .error .assertionFailed :=
  ⟨by decide, by decide, rfl, rfl⟩

/-! ## Predicates with target-specific polarity -/

/-- C17: `HasRMWSemantics` has opposite defaults in the two vocabularies: on x86
it is true exactly when `HW_Flag_NoRMWSemantics` is not carried, so a flagless
descriptor is read-modify-write; on ARM64 it is true exactly when
`HW_Flag_HasRMWSemantics` is carried, so a flagless descriptor is not. -/
theorem HasRMWSemantics_polarity :
    (∀ (lookup : XArch.Info) (id : XArch.NamedIntrinsic),
      (XArch.HasRMWSemantics lookup id = true ↔
        ¬ Carries (lookup id).flags XArch.HW_Flag_NoRMWSemantics) ∧
      ((lookup id).flags = HW_Flag_NoFlag → XArch.HasRMWSemantics lookup id = true)) ∧
    (∀ (lookup : Arm64.Info) (id : Arm64.NamedIntrinsic),
      (Arm64.HasRMWSemantics lookup id = true ↔
        Carries (lookup id).flags Arm64.HW_Flag_HasRMWSemantics) ∧
      ((lookup id).flags = HW_Flag_NoFlag → Arm64.HasRMWSemantics lookup id = false)) := by
  constructor
  · intro lookup id
    refine ⟨test_eq_zero_iff (lookup id).flags 15, ?_⟩
    intro h
    unfold XArch.HasRMWSemantics HWIntrinsicInfo.lookupFlags
    rw [h]
    rfl
  · intro lookup id
    refine ⟨test_ne_zero_iff (lookup id).flags 11, ?_⟩
    intro h
    unfold Arm64.HasRMWSemantics HWIntrinsicInfo.lookupFlags
    rw [h]
    rfl

/-- C17 at flagless descriptors of both targets. -/
theorem HasRMWSemantics_polarity_witness :
    XArch.HasRMWSemantics (XArch.uniformRegistry HW_Flag_NoFlag XArch.HW_Category_SimpleSIMD)
        .NI_Vector128_Create = true ∧
      Arm64.HasRMWSemantics (Arm64.uniformRegistry HW_Flag_NoFlag Arm64.HW_Category_SIMD)
        .NI_Vector128_Create = false :=
  ⟨(HasRMWSemantics_polarity.1 _ _).2 rfl, (HasRMWSemantics_polarity.2 _ _).2 rfl⟩

/-- C18: `HasImmediateOperand(id)` is decided by category on x86 and by flag on
ARM64: on x86 it is true exactly when the descriptor's category is
`HW_Category_IMM`, whatever the flag word; on ARM64 exactly when
`HW_Flag_HasImmediateOperand` is carried, whatever the category. -/
theorem HasImmediateOperand_decided :
    (∀ (lookup : XArch.Info) (id : XArch.NamedIntrinsic),
      XArch.HasImmediateOperand lookup id = true ↔
        (lookup id).category = XArch.HW_Category_IMM) ∧
    (∀ (lookup other : XArch.Info) (id : XArch.NamedIntrinsic),
      (lookup id).category = (other id).category →
        XArch.HasImmediateOperand lookup id = XArch.HasImmediateOperand other id) ∧
    (∀ (lookup : Arm64.Info) (id : Arm64.NamedIntrinsic),
      Arm64.HasImmediateOperand lookup id = true ↔
        Carries (lookup id).flags Arm64.HW_Flag_HasImmediateOperand) ∧
    (∀ (lookup other : Arm64.Info) (id : Arm64.NamedIntrinsic),
      (lookup id).flags = (other id).flags →
        Arm64.HasImmediateOperand lookup id = Arm64.HasImmediateOperand other id) := by
  refine ⟨?_, ?_, ?_, ?_⟩
  · intro lookup id
    unfold XArch.HasImmediateOperand HWIntrinsicInfo.lookupCategory
    exact beq_iff_eq
  · intro lookup other id h
    unfold XArch.HasImmediateOperand HWIntrinsicInfo.lookupCategory
    rw [h]
  · intro lookup id
    exact test_ne_zero_iff (lookup id).flags 10
  · intro lookup other id h
    unfold Arm64.HasImmediateOperand HWIntrinsicInfo.lookupFlags
    rw [h]

/-- C18 at concrete descriptors: an x86 descriptor of another category that
carries `HW_Flag_MaybeIMM` and `HW_Flag_FullRangeIMM` has no immediate operand,
and an ARM64 descriptor carrying the flag has one in the helper category. -/
theorem HasImmediateOperand_decided_witness :
    XArch.HasImmediateOperand
        (XArch.uniformRegistry (XArch.HW_Flag_MaybeIMM ||| XArch.HW_Flag_FullRangeIMM)
          XArch.HW_Category_SimpleSIMD) .NI_Vector128_Create = false ∧
      XArch.HasImmediateOperand (XArch.uniformRegistry HW_Flag_NoFlag XArch.HW_Category_IMM)
        .NI_Vector128_Create = true ∧
      Arm64.HasImmediateOperand
        (Arm64.uniformRegistry Arm64.HW_Flag_HasImmediateOperand Arm64.HW_Category_Helper)
        .NI_Vector128_Create = true :=
  ⟨by decide, (HasImmediateOperand_decided.1 _ _).mpr rfl,
    (HasImmediateOperand_decided.2.2.1 _ _).mpr (by decide)⟩

/-! ## Instruction and size lookup -/

/-- C19: for every non-null intrinsic node, `lookupIns(node, comp)` is
`lookupIns(id, type, comp)` with the node's own result type when the
identifier's category is `HW_Category_Scalar` and with the node's SIMD base
type for every other category, on both targets. -/
theorem lookupIns_dispatch (Compiler : Type) (comp : Compiler) :
    (∀ (lookup : XArch.Info)
        (lookupInsOfType :
          XArch.NamedIntrinsic → var_types → Compiler → Except JitError instruction)
        (node : XArch.GenTreeHWIntrinsic),
      ((lookup node.GetHWIntrinsicId).category = XArch.HW_Category_Scalar →
        XArch.lookupIns lookup lookupInsOfType (some node) comp =
          lookupInsOfType node.GetHWIntrinsicId node.TypeGet comp) ∧
      ((lookup node.GetHWIntrinsicId).category ≠ XArch.HW_Category_Scalar →
        XArch.lookupIns lookup lookupInsOfType (some node) comp =
          lookupInsOfType node.GetHWIntrinsicId node.GetSimdBaseType comp)) ∧
    (∀ (lookup : Arm64.Info)
        (lookupInsOfType :
          Arm64.NamedIntrinsic → var_types → Compiler → Except JitError instruction)
        (node : Arm64.GenTreeHWIntrinsic),
      ((lookup node.GetHWIntrinsicId).category = Arm64.HW_Category_Scalar →
        Arm64.lookupIns lookup lookupInsOfType (some node) comp =
          lookupInsOfType node.GetHWIntrinsicId node.TypeGet comp) ∧
      ((lookup node.GetHWIntrinsicId).category ≠ Arm64.HW_Category_Scalar →
        Arm64.lookupIns lookup lookupInsOfType (some node) comp =
          lookupInsOfType node.GetHWIntrinsicId node.GetSimdBaseType comp)) := by
  constructor
  · intro lookup lookupInsOfType node
    constructor
    · intro hc
      simp [XArch.lookupIns, HWIntrinsicInfo.lookupCategory, hc]
    · intro hc
      simp [XArch.lookupIns, HWIntrinsicInfo.lookupCategory, hc]
  · intro lookup lookupInsOfType node
    constructor
    · intro hc
      simp [Arm64.lookupIns, HWIntrinsicInfo.lookupCategory, hc]
    · intro hc
      simp [Arm64.lookupIns, HWIntrinsicInfo.lookupCategory, hc]

/-- C19 at concrete nodes, with an instruction table that returns the number of
the type it is given: the scalar node is looked up by its own type `other 9`,
the SIMD node by its base type `other 7`. -/
theorem lookupIns_dispatch_witness :
    XArch.lookupIns (XArch.uniformRegistry HW_Flag_NoFlag XArch.HW_Category_Scalar)
        (fun _ type (_ : Unit) =>
          match type with
          | .other n => .ok n
          | _ => .ok 0)
        (some XArch.sampleNode) () = .ok 9 ∧
      Arm64.lookupIns (Arm64.uniformRegistry HW_Flag_NoFlag Arm64.HW_Category_SIMD)
        (fun _ type (_ : Unit) =>
          match type with
          | .other n => .ok n
          | _ => .ok 0)
        (some Arm64.sampleNode) () = .ok 7 :=
  ⟨((lookupIns_dispatch Unit ()).1 _ _ XArch.sampleNode).1 rfl,
    ((lookupIns_dispatch Unit ()).2 _ _ Arm64.sampleNode).2 (by decide)⟩

/-- C20: `tryLookupSimdSize(id, pSimdSize)` returns true exactly when the
descriptor's `simdSize` is not the sentinel -1; then `*pSimdSize` is the
descriptor's `simdSize` converted to `unsigned`, which is `simdSize` itself for
every non-negative size; when it returns false `*pSimdSize` is unchanged. -/
theorem HWIntrinsicInfo.tryLookupSimdSize_spec {NI Cat : Type} (lookup : Registry NI Cat)
    (id : NI) (pSimdSize : Nat) :
    ((HWIntrinsicInfo.tryLookupSimdSize lookup id pSimdSize).1 = true ↔
      (lookup id).simdSize ≠ -1) ∧
    ((HWIntrinsicInfo.tryLookupSimdSize lookup id pSimdSize).1 = true →
      ((HWIntrinsicInfo.tryLookupSimdSize lookup id pSimdSize).2 : Int) =
          (lookup id).simdSize % 2 ^ 32 ∧
        (0 ≤ (lookup id).simdSize → (lookup id).simdSize ≤ 127 →
          ((HWIntrinsicInfo.tryLookupSimdSize lookup id pSimdSize).2 : Int) =
            (lookup id).simdSize)) ∧
    ((HWIntrinsicInfo.tryLookupSimdSize lookup id pSimdSize).1 = false →
      (HWIntrinsicInfo.tryLookupSimdSize lookup id pSimdSize).2 = pSimdSize) := by
  unfold HWIntrinsicInfo.tryLookupSimdSize
  by_cases h : (lookup id).simdSize = -1
  · simp [h]
  · have hb : ((lookup id).simdSize != -1) = true := by simpa using h
    simp only [hb, if_true, true_iff, ne_eq, h, not_false_eq_true, true_and, forall_const,
      Bool.true_eq_false, false_implies, and_true]
    have hmod : (0 : Int) ≤ (lookup id).simdSize % 2 ^ 32 :=
      Int.emod_nonneg _ (by norm_num)
    have hcast : ((HWIntrinsicInfo.toUnsigned (lookup id).simdSize : Nat) : Int) =
        (lookup id).simdSize % 2 ^ 32 := by
      unfold HWIntrinsicInfo.toUnsigned
      exact Int.toNat_of_nonneg hmod
    refine ⟨hcast, ?_⟩
    intro h0 h127
    rw [hcast]
    exact Int.emod_eq_of_lt h0 (by omega)

/-- C20 at concrete descriptors: a fixed size of 16 is stored, the sentinel leaves
the caller's value 5 in place. -/
theorem HWIntrinsicInfo.tryLookupSimdSize_spec_witness :
    HWIntrinsicInfo.tryLookupSimdSize
        (fun id => { Arm64.descriptor id HW_Flag_NoFlag Arm64.HW_Category_SIMD with
          simdSize := 16 })
        Arm64.NamedIntrinsic.NI_Vector128_Create 5 = (true, 16) ∧
      HWIntrinsicInfo.tryLookupSimdSize
        (Arm64.uniformRegistry HW_Flag_NoFlag Arm64.HW_Category_SIMD)
        Arm64.NamedIntrinsic.NI_Vector128_Create 5 = (false, 5) := by
  have h := HWIntrinsicInfo.tryLookupSimdSize_spec
    (Arm64.uniformRegistry HW_Flag_NoFlag Arm64.HW_Category_SIMD)
    Arm64.NamedIntrinsic.NI_Vector128_Create 5
  exact ⟨by decide, Prod.ext (by decide) (h.2.2 (by decide))⟩

/-! ## Independence of the flags -/

theorem Carries_two_pow_iff (flags k : Nat) : Carries flags (2 ^ k) ↔ flags.testBit k = true := by
  unfold Carries
  rw [land_two_pow]
  by_cases hx : flags.testBit k
  · simp [hx]
  · simp only [hx, Bool.false_eq_true, if_false, iff_false]
    exact fun h => two_pow_ne_zero k h.symm

/-- Setting or clearing bit `j` of a flag word leaves every other bit below 32 as it was. -/
theorem Carries_other_bit (flags j k : Nat) (hjk : j ≠ k) (hk : k < 32) :
    (Carries (setFlag flags (2 ^ j)) (2 ^ k) ↔ Carries flags (2 ^ k)) ∧
      (Carries (clearFlag flags (2 ^ j)) (2 ^ k) ↔ Carries flags (2 ^ k)) := by
  have hmask : (0xFFFFFFFF : Nat) = 2 ^ 32 - 1 := by norm_num
  rw [Carries_two_pow_iff, Carries_two_pow_iff, Carries_two_pow_iff]
  unfold setFlag clearFlag
  rw [Nat.testBit_or, Nat.testBit_and, Nat.testBit_xor, hmask, Nat.testBit_two_pow_sub_one,
    Nat.testBit_two_pow]
  simp [hjk, hk]

theorem XArch.allFlags_bits_x86 : ∀ f ∈ XArch.allFlags, ∃ k, k < 32 ∧ f = 2 ^ k := by
  decide

theorem Arm64.allFlags_bits_arm64 : ∀ f ∈ Arm64.allFlags, ∃ k, k < 32 ∧ f = 2 ^ k := by
  decide

/-- Two different flags of a vocabulary of single bits stay independent under setting and
clearing. -/
theorem independent_of_bits (flags : List HWIntrinsicFlag)
    (hbits : ∀ f ∈ flags, ∃ k, k < 32 ∧ f = 2 ^ k)
    (f g : HWIntrinsicFlag) (hf : f ∈ flags) (hg : g ∈ flags) (hne : f ≠ g)
    (word : HWIntrinsicFlag) :
    (Carries (setFlag word f) g ↔ Carries word g) ∧
      (Carries (clearFlag word f) g ↔ Carries word g) := by
  obtain ⟨j, _, rfl⟩ := hbits f hf
  obtain ⟨k, hk, rfl⟩ := hbits g hg
  have hjk : j ≠ k := fun h => hne (by rw [h])
  exact Carries_other_bit word j k hjk hk

/-- C26: in each platform vocabulary every flag other than `HW_Flag_NoFlag` and
`HW_Flag_SpecialSideEffectMask` is a single bit of a 32-bit word, no two flags
share a bit, and setting or clearing one flag never changes whether a word
carries a different flag; `HW_Flag_SpecialSideEffectMask` is exactly the union
of the barrier and the other side-effect bit. -/
theorem flags_independent :
    ((∀ f ∈ XArch.allFlags, ∃ k, k < 32 ∧ f = 2 ^ k) ∧
      XArch.allFlags.Pairwise (fun f g => f ≠ g ∧ f &&& g = 0) ∧
      ∀ f ∈ XArch.allFlags, ∀ g ∈ XArch.allFlags, f ≠ g → ∀ word,
        (Carries (setFlag word f) g ↔ Carries word g) ∧
          (Carries (clearFlag word f) g ↔ Carries word g)) ∧
    ((∀ f ∈ Arm64.allFlags, ∃ k, k < 32 ∧ f = 2 ^ k) ∧
      Arm64.allFlags.Pairwise (fun f g => f ≠ g ∧ f &&& g = 0) ∧
      ∀ f ∈ Arm64.allFlags, ∀ g ∈ Arm64.allFlags, f ≠ g → ∀ word,
        (Carries (setFlag word f) g ↔ Carries word g) ∧
          (Carries (clearFlag word f) g ↔ Carries word g)) ∧
    (HW_Flag_SpecialSideEffectMask =
        HW_Flag_SpecialSideEffect_Barrier ||| HW_Flag_SpecialSideEffect_Other ∧
      ∀ word, word &&& HW_Flag_SpecialSideEffectMask = 0 ↔
        ¬ Carries word HW_Flag_SpecialSideEffect_Barrier ∧
          ¬ Carries word HW_Flag_SpecialSideEffect_Other) := by
  refine ⟨⟨XArch.allFlags_bits_x86, by decide, ?_⟩, ⟨Arm64.allFlags_bits_arm64, by decide, ?_⟩, rfl, ?_⟩
  · intro f hf g hg hne word
    exact independent_of_bits XArch.allFlags XArch.allFlags_bits_x86 f g hf hg hne word
  · intro f hf g hg hne word
    exact independent_of_bits Arm64.allFlags Arm64.allFlags_bits_arm64 f g hf hg hne word
  · intro word
    have h1 := land_two_pow word 27
    have h2 := land_two_pow word 28
    show word &&& (2 ^ 27 ||| 2 ^ 28) = 0 ↔
      ¬ (word &&& 2 ^ 27 = 2 ^ 27) ∧ ¬ (word &&& 2 ^ 28 = 2 ^ 28)
    rw [Nat.and_or_distrib_left, h1, h2]
    cases word.testBit 27 <;> cases word.testBit 28 <;> decide

/-- C26 at a concrete word: setting the x86 no-containment bit in a commutative word
leaves it commutative, and clearing it leaves the ARM64 scalable bit set. -/
theorem flags_independent_witness :
    Carries (setFlag HW_Flag_Commutative XArch.HW_Flag_NoContainment) HW_Flag_Commutative ∧
      Carries (clearFlag (Arm64.HW_Flag_Scalable ||| Arm64.HW_Flag_SIMDScalar)
        Arm64.HW_Flag_SIMDScalar) Arm64.HW_Flag_Scalable :=
  ⟨((flags_independent.1.2.2 XArch.HW_Flag_NoContainment (by decide) HW_Flag_Commutative
      (by decide) (by decide) HW_Flag_Commutative).1).mpr (by decide),
    ((flags_independent.2.1.2.2 Arm64.HW_Flag_SIMDScalar (by decide) Arm64.HW_Flag_Scalable
      (by decide) (by decide) (Arm64.HW_Flag_Scalable ||| Arm64.HW_Flag_SIMDScalar)).2).mpr
      (by decide)⟩

/-! ## Code generation, import and containment predicates -/

/-- C28: for every identifier, `IsInvalidNodeId(id)` implies that
`RequiresCodegen(id)` is false and `HasSpecialImport(id)` is true, and
`RequiresCodegen(id)` is true exactly when the descriptor carries neither
`HW_Flag_NoCodeGen` nor `HW_Flag_InvalidNodeId`. -/
theorem HWIntrinsicInfo.invalid_node_id {NI Cat : Type} (lookup : Registry NI Cat) (id : NI) :
    (HWIntrinsicInfo.IsInvalidNodeId lookup id = true →
      HWIntrinsicInfo.RequiresCodegen lookup id = false ∧
        HWIntrinsicInfo.HasSpecialImport lookup id = true) ∧
    (HWIntrinsicInfo.RequiresCodegen lookup id = true ↔
      ¬ Carries (lookup id).flags HW_Flag_NoCodeGen ∧
        ¬ Carries (lookup id).flags HW_Flag_InvalidNodeId) := by
  refine ⟨?_, HWIntrinsicInfo.RequiresCodegen_iff lookup id⟩
  intro hinv
  have hc : Carries (lookup id).flags HW_Flag_InvalidNodeId :=
    (test_ne_zero_iff (lookup id).flags 2).mp hinv
  constructor
  · rw [← Bool.not_eq_true, HWIntrinsicInfo.RequiresCodegen_iff]
    exact fun h => h.2 hc
  · have h2 := land_two_pow (lookup id).flags 2
    have h8 := land_two_pow (lookup id).flags 8
    have hbit := (Carries_two_pow_iff (lookup id).flags 2).mp hc
    show (((lookup id).flags &&& (2 ^ 8 ||| 2 ^ 2)) != 0) = true
    rw [Nat.and_or_distrib_left, h2, h8, hbit]
    cases (lookup id).flags.testBit 8 <;> decide

/-- C28 at a concrete descriptor that carries only `HW_Flag_InvalidNodeId`. -/
theorem HWIntrinsicInfo.invalid_node_id_witness :
    HWIntrinsicInfo.RequiresCodegen
        (Arm64.uniformRegistry HW_Flag_InvalidNodeId Arm64.HW_Category_SIMD)
        Arm64.NamedIntrinsic.NI_Sve_And = false ∧
      HWIntrinsicInfo.HasSpecialImport
        (Arm64.uniformRegistry HW_Flag_InvalidNodeId Arm64.HW_Category_SIMD)
        Arm64.NamedIntrinsic.NI_Sve_And = true :=
  (HWIntrinsicInfo.invalid_node_id
    (Arm64.uniformRegistry HW_Flag_InvalidNodeId Arm64.HW_Category_SIMD)
    Arm64.NamedIntrinsic.NI_Sve_And).1 (by decide)

/-- C29: `SupportsContainment` has opposite polarity in the two vocabularies: on
x86 it is true exactly when `HW_Flag_NoContainment` is not carried, so a
descriptor with no flags or with only `HW_Flag_Commutative` supports
containment; on ARM64 it is true exactly when `HW_Flag_SupportsContainment` is
carried, so a descriptor with no flags does not. -/
theorem SupportsContainment_polarity :
    (∀ (lookup : XArch.Info) (id : XArch.NamedIntrinsic),
      (XArch.SupportsContainment lookup id = true ↔
        ¬ Carries (lookup id).flags XArch.HW_Flag_NoContainment) ∧
      ((lookup id).flags = HW_Flag_NoFlag ∨ (lookup id).flags = HW_Flag_Commutative →
        XArch.SupportsContainment lookup id = true)) ∧
    (∀ (lookup : Arm64.Info) (id : Arm64.NamedIntrinsic),
      (Arm64.SupportsContainment lookup id = true ↔
        Carries (lookup id).flags Arm64.HW_Flag_SupportsContainment) ∧
      ((lookup id).flags = HW_Flag_NoFlag → Arm64.SupportsContainment lookup id = false)) := by
  constructor
  · intro lookup id
    refine ⟨test_eq_zero_iff (lookup id).flags 16, ?_⟩
    intro h
    unfold XArch.SupportsContainment HWIntrinsicInfo.lookupFlags
    rcases h with h | h <;> rw [h] <;> rfl
  · intro lookup id
    refine ⟨test_ne_zero_iff (lookup id).flags 13, ?_⟩
    intro h
    unfold Arm64.SupportsContainment HWIntrinsicInfo.lookupFlags
    rw [h]
    rfl

/-- C29 at concrete descriptors of both targets. -/
theorem SupportsContainment_polarity_witness :
    XArch.SupportsContainment
        (XArch.uniformRegistry HW_Flag_Commutative XArch.HW_Category_SimpleSIMD)
        .NI_Vector128_Create = true ∧
      Arm64.SupportsContainment (Arm64.uniformRegistry HW_Flag_NoFlag Arm64.HW_Category_SIMD)
        .NI_Vector128_Create = false :=
  ⟨(SupportsContainment_polarity.1 _ _).2 (Or.inr rfl),
    (SupportsContainment_polarity.2 _ _).2 rfl⟩

/-! ## The mask-variant table as a relation -/

theorem Arm64.GetMaskVariant_of_unflagged (lookup : Arm64.Info) (id : Arm64.NamedIntrinsic)
    (h : ¬ Carries (lookup id).flags Arm64.HW_Flag_HasAllMaskVariant) :
    Arm64.GetMaskVariant lookup id = .error .assertionFailed := by
  have hf : Arm64.HasAllMaskVariant lookup id = false := by
    rw [← Bool.not_eq_true, Arm64.HasAllMaskVariant_iff]
    exact h
  unfold Arm64.GetMaskVariant
  rw [hf]
  rfl

/-- Whatever the registry, `GetMaskVariant` returns an identifier only along a pair of the
table. -/
theorem Arm64.GetMaskVariant_ok_mem (lookup : Arm64.Info) (id variant : Arm64.NamedIntrinsic)
    (h : Arm64.GetMaskVariant lookup id = .ok variant) :
    (id, variant) ∈ Arm64.maskVariantPairs := by
  by_cases hc : Carries (lookup id).flags Arm64.HW_Flag_HasAllMaskVariant
  · have hf := (Arm64.HasAllMaskVariant_iff lookup id).mpr hc
    unfold Arm64.GetMaskVariant at h
    rw [hf] at h
    cases id with
    | other n => cases h
    | _ =>
      first
        | (cases h
           done)
        | (obtain rfl : _ = variant := Except.ok.inj h
           decide)
  · rw [Arm64.GetMaskVariant_of_unflagged lookup id hc] at h
    cases h

theorem Arm64.maskVariantPairs_injective :
    ∀ p ∈ Arm64.maskVariantPairs, ∀ q ∈ Arm64.maskVariantPairs, p.2 = q.2 → p.1 = q.1 := by
  decide

theorem Arm64.maskVariantPairs_results_unhandled :
    ∀ p ∈ Arm64.maskVariantPairs, ∀ q ∈ Arm64.maskVariantPairs, q.1 ≠ p.2 := by
  decide

/-- C30: `GetMaskVariant` is injective on the identifiers it handles: two
identifiers with the same predicate-typed counterpart are the same; and none of
its results is an identifier it handles, so applying `GetMaskVariant` to its
own result never returns an identifier, whatever the registry. -/
theorem Arm64.GetMaskVariant_injective (lookup : Arm64.Info) :
    (∀ id1 id2 variant, Arm64.GetMaskVariant lookup id1 = .ok variant →
      Arm64.GetMaskVariant lookup id2 = .ok variant → id1 = id2) ∧
    (∀ id variant, Arm64.GetMaskVariant lookup id = .ok variant →
      ∀ again, Arm64.GetMaskVariant lookup variant ≠ .ok again) ∧
    (∀ id variant, (id, variant) ∈ Arm64.maskVariantPairs →
      Carries (lookup id).flags Arm64.HW_Flag_HasAllMaskVariant →
      Arm64.GetMaskVariant lookup id = .ok variant ∧
        ∀ again, Arm64.GetMaskVariant lookup variant ≠ .ok again) := by
  have hagain : ∀ id variant, (id, variant) ∈ Arm64.maskVariantPairs →
      ∀ again, Arm64.GetMaskVariant lookup variant ≠ .ok again := by
    intro id variant hmem again h
    have h2 := Arm64.GetMaskVariant_ok_mem lookup variant again h
    exact Arm64.maskVariantPairs_results_unhandled (id, variant) hmem (variant, again) h2 rfl
  refine ⟨?_, ?_, ?_⟩
  · intro id1 id2 variant h1 h2
    exact Arm64.maskVariantPairs_injective (id1, variant)
      (Arm64.GetMaskVariant_ok_mem lookup id1 variant h1) (id2, variant)
      (Arm64.GetMaskVariant_ok_mem lookup id2 variant h2) rfl
  · intro id variant h
    exact hagain id variant (Arm64.GetMaskVariant_ok_mem lookup id variant h)
  · intro id variant hmem hc
    exact ⟨Arm64.GetMaskVariant_of_pair lookup id variant hc hmem, hagain id variant hmem⟩

/-- C30 at a concrete registry that flags every identifier: `NI_Sve_Xor` maps to its
counterpart and the counterpart ends in the unreachable default. -/
theorem Arm64.GetMaskVariant_injective_witness :
    Arm64.GetMaskVariant
        (Arm64.uniformRegistry Arm64.HW_Flag_HasAllMaskVariant Arm64.HW_Category_SIMD)
        .NI_Sve_Xor = .ok .NI_Sve_Xor_Predicates ∧
      Arm64.GetMaskVariant
        (Arm64.uniformRegistry Arm64.HW_Flag_HasAllMaskVariant Arm64.HW_Category_SIMD)
        .NI_Sve_Xor_Predicates = .error .unreachedCode ∧
      ∀ again, Arm64.GetMaskVariant
        (Arm64.uniformRegistry Arm64.HW_Flag_HasAllMaskVariant Arm64.HW_Category_SIMD)
        .NI_Sve_Xor_Predicates ≠ .ok again :=
  ⟨((Arm64.GetMaskVariant_injective
      (Arm64.uniformRegistry Arm64.HW_Flag_HasAllMaskVariant Arm64.HW_Category_SIMD)).2.2
      .NI_Sve_Xor .NI_Sve_Xor_Predicates (by decide) (by decide)).1,
    rfl,
    ((Arm64.GetMaskVariant_injective
      (Arm64.uniformRegistry Arm64.HW_Flag_HasAllMaskVariant Arm64.HW_Category_SIMD)).2.2
      .NI_Sve_Xor .NI_Sve_Xor_Predicates (by decide) (by decide)).2⟩

/-! ## The ternary logic vocabulary -/

/-- One step `useFlagsBits |= static_cast<uint8_t>(use)` of `GetAllUseFlags` on 3-bit
values. -/
theorem XArch.useFlagsBits_step :
    ∀ x < 8, ∀ y < 8,
      (Carries ((x ||| y % 256) % 256) 1 ↔ Carries x 1 ∨ Carries y 1) ∧
      (Carries ((x ||| y % 256) % 256) 2 ↔ Carries x 2 ∨ Carries y 2) ∧
      (Carries ((x ||| y % 256) % 256) 4 ↔ Carries x 4 ∨ Carries y 4) ∧
      ((x ||| y % 256) % 256 = 0 ↔ x = 0 ∧ y = 0) ∧
      (x ||| y % 256) % 256 < 8 := by
  decide

/-- The accumulator of `GetAllUseFlags` on three 3-bit values. -/
theorem XArch.useFlagsBits_union (a b c : Nat) (ha : a < 8) (hb : b < 8) (hc : c < 8) :
    (Carries ((((0 ||| a % 256) % 256 ||| b % 256) % 256 ||| c % 256) % 256) 1 ↔
        Carries a 1 ∨ Carries b 1 ∨ Carries c 1) ∧
      (Carries ((((0 ||| a % 256) % 256 ||| b % 256) % 256 ||| c % 256) % 256) 2 ↔
        Carries a 2 ∨ Carries b 2 ∨ Carries c 2) ∧
      (Carries ((((0 ||| a % 256) % 256 ||| b % 256) % 256 ||| c % 256) % 256) 4 ↔
        Carries a 4 ∨ Carries b 4 ∨ Carries c 4) ∧
      ((((0 ||| a % 256) % 256 ||| b % 256) % 256 ||| c % 256) % 256 = 0 ↔
        a = 0 ∧ b = 0 ∧ c = 0) ∧
      (((0 ||| a % 256) % 256 ||| b % 256) % 256 ||| c % 256) % 256 < 8 := by
  have h0 : (0 ||| a % 256) % 256 = a := by
    rw [Nat.zero_or, Nat.mod_mod, Nat.mod_eq_of_lt (by omega)]
  rw [h0]
  obtain ⟨s1, s2, s4, sz, slt⟩ := XArch.useFlagsBits_step a ha b hb
  obtain ⟨t1, t2, t4, tz, tlt⟩ := XArch.useFlagsBits_step _ slt c hc
  refine ⟨?_, ?_, ?_, ?_, tlt⟩
  · rw [t1, s1, or_assoc]
  · rw [t2, s2, or_assoc]
  · rw [t4, s4, or_assoc]
  · rw [tz, sz, and_assoc]

theorem XArch.useFlags_of_lt (flags : XArch.TernaryLogicUseFlags) (h : flags.bits < 8) :
    flags ∈ XArch.TernaryLogicUseFlags.all := by
  obtain ⟨bits⟩ := flags
  have hb : bits < 8 := h
  interval_cases bits <;> decide

/-- C25: for every `TernaryLogicInfo` entry, `GetAllUseFlags()` is the union of
the three per-slot use-flag sets: input A (resp. B, C) is in the result exactly
when one of `oper1Use`, `oper2Use`, `oper3Use` contains it; the result is
`None` exactly when all three are `None`; and it is one of the eight
`TernaryLogicUseFlags` values. -/
theorem XArch.TernaryLogicInfo.GetAllUseFlags_union (self : XArch.TernaryLogicInfo)
    (hfields : self.InFields) :
    (∀ input, input = XArch.TernaryLogicUseFlags.A ∨ input = XArch.TernaryLogicUseFlags.B ∨
        input = XArch.TernaryLogicUseFlags.C →
      (self.GetAllUseFlags.Uses input ↔
        self.oper1Use.Uses input ∨ self.oper2Use.Uses input ∨ self.oper3Use.Uses input)) ∧
    (self.GetAllUseFlags = XArch.TernaryLogicUseFlags.None ↔
      self.oper1Use = XArch.TernaryLogicUseFlags.None ∧
        self.oper2Use = XArch.TernaryLogicUseFlags.None ∧
        self.oper3Use = XArch.TernaryLogicUseFlags.None) ∧
    self.GetAllUseFlags ∈ XArch.TernaryLogicUseFlags.all := by
  obtain ⟨_, h1, _, h2, _, h3⟩ := hfields
  obtain ⟨hA, hB, hC, hzero, hlt⟩ :=
    XArch.useFlagsBits_union self.oper1Use.bits self.oper2Use.bits self.oper3Use.bits h1 h2 h3
  refine ⟨?_, ?_, XArch.useFlags_of_lt _ hlt⟩
  · intro input hinput
    rcases hinput with rfl | rfl | rfl
    · exact hA
    · exact hB
    · exact hC
  · have hnone : ∀ flags : XArch.TernaryLogicUseFlags,
        flags = XArch.TernaryLogicUseFlags.None ↔ flags.bits = 0 := by
      intro flags
      obtain ⟨bits⟩ := flags
      exact XArch.TernaryLogicUseFlags.mk.injEq bits 0 ▸ Iff.rfl
    rw [hnone, hnone, hnone, hnone]
    exact hzero

/-- C25 at a concrete entry: `And` of A and B uses exactly the inputs A and B. -/
theorem XArch.TernaryLogicInfo.GetAllUseFlags_union_witness :
    XArch.sampleTernary.InFields ∧
      XArch.sampleTernary.GetAllUseFlags = XArch.TernaryLogicUseFlags.AB ∧
      XArch.sampleTernary.GetAllUseFlags ∈ XArch.TernaryLogicUseFlags.all :=
  ⟨by decide, by decide,
    (XArch.TernaryLogicInfo.GetAllUseFlags_union XArch.sampleTernary (by decide)).2.2⟩

theorem XArch.operKind_stored (oper : XArch.TernaryLogicOperKind) (h : oper.code < 2 ^ 4) :
    (⟨XArch.bitField 4 oper.code⟩ : XArch.TernaryLogicOperKind) = oper := by
  obtain ⟨code⟩ := oper
  unfold XArch.bitField
  rw [Nat.mod_eq_of_lt h]

theorem XArch.useFlags_stored (use : XArch.TernaryLogicUseFlags) (h : use.bits < 2 ^ 3) :
    (⟨XArch.bitField 3 use.bits⟩ : XArch.TernaryLogicUseFlags) = use := by
  obtain ⟨bits⟩ := use
  unfold XArch.bitField
  rw [Nat.mod_eq_of_lt h]

/-- C27: the operator vocabulary has exactly the fourteen kinds none, select,
true, false, not, and, nand, or, nor, xor, xnor, cond, major, minor, with the
distinct codes 0 to 13; every operator code fits the 4-bit field and every
use-flag set the 3-bit field of `TernaryLogicInfo`, so storing an operator and
a use-flag set in any of the three slots and reading them back returns the
same pair. -/
theorem XArch.TernaryLogicOperKind.codes_fit :
    XArch.TernaryLogicOperKind.all.map XArch.TernaryLogicOperKind.code = List.range 14 ∧
    XArch.TernaryLogicOperKind.all.Nodup ∧
    (∀ oper ∈ XArch.TernaryLogicOperKind.all, oper.code < 2 ^ 4) ∧
    (∀ use ∈ XArch.TernaryLogicUseFlags.all, use.bits < 2 ^ 3) ∧
    (∀ (info : XArch.TernaryLogicInfo), ∀ oper ∈ XArch.TernaryLogicOperKind.all,
      ∀ use ∈ XArch.TernaryLogicUseFlags.all,
        ((info.storeSlot1 oper use).oper1 = oper ∧ (info.storeSlot1 oper use).oper1Use = use) ∧
        ((info.storeSlot2 oper use).oper2 = oper ∧ (info.storeSlot2 oper use).oper2Use = use) ∧
        ((info.storeSlot3 oper use).oper3 = oper ∧
          (info.storeSlot3 oper use).oper3Use = use)) := by
  have hoper : ∀ oper ∈ XArch.TernaryLogicOperKind.all, oper.code < 2 ^ 4 := by decide
  have huse : ∀ use ∈ XArch.TernaryLogicUseFlags.all, use.bits < 2 ^ 3 := by decide
  refine ⟨by decide, by decide, hoper, huse, ?_⟩
  intro info oper ho use hu
  have h1 := XArch.operKind_stored oper (hoper oper ho)
  have h2 := XArch.useFlags_stored use (huse use hu)
  exact ⟨⟨h1, h2⟩, ⟨h1, h2⟩, ⟨h1, h2⟩⟩

/-- C27 at a concrete entry: storing `Minor` with the inputs A, B, C in the third slot of an
entry and reading the slot back. -/
theorem XArch.TernaryLogicOperKind.codes_fit_witness :
    (XArch.sampleTernary.storeSlot3 .Minor .ABC).oper3 = XArch.TernaryLogicOperKind.Minor ∧
      (XArch.sampleTernary.storeSlot3 .Minor .ABC).oper3Use = XArch.TernaryLogicUseFlags.ABC :=
  (XArch.TernaryLogicOperKind.codes_fit.2.2.2.2 XArch.sampleTernary .Minor (by decide) .ABC
    (by decide)).2.2

/-! ## The registry round trip and the immediate bounds -/

theorem HWIntrinsicInfo.registryLookup_id {NI Cat : Type} [DecidableEq NI]
    (table : List (HWIntrinsicInfo NI Cat)) (id : NI) (entry : HWIntrinsicInfo NI Cat)
    (h : HWIntrinsicInfo.registryLookup table id = .ok entry) : entry.id = id := by
  unfold HWIntrinsicInfo.registryLookup at h
  cases hfind : table.find? (fun entry => entry.id == id) with
  | none =>
    rw [hfind] at h
    cases h
  | some found =>
    rw [hfind] at h
    have hfe : found = entry := Except.ok.inj h
    subst hfe
    have := List.find?_some hfind
    simpa using this

theorem HWIntrinsicInfo.registryLookup_valid {NI Cat : Type} [DecidableEq NI]
    (table : List (HWIntrinsicInfo NI Cat)) (id : NI) (h : HWIntrinsicInfo.ValidId table id) :
    ∃ entry, HWIntrinsicInfo.registryLookup table id = .ok entry := by
  unfold HWIntrinsicInfo.registryLookup
  cases hfind : table.find? (fun entry => entry.id == id) with
  | some found => exact ⟨found, rfl⟩
  | none =>
    obtain ⟨entry, hmem, hid⟩ := h
    have := List.find?_eq_none.mp hfind entry hmem
    simp [hid] at this

/-- C21: for every valid identifier `id`, the descriptor `lookup(id)` returns carries that
identifier, so `lookupId(id) == id`: the registry's reverse index returns a descriptor for
every valid identifier, the descriptor it returns has the identifier asked for, and a
registry accessor that agrees with it has `lookupId(id) = id`. -/
theorem HWIntrinsicInfo.lookupId_round_trip {NI Cat : Type} [DecidableEq NI]
    (table : List (HWIntrinsicInfo NI Cat)) (lookup : Registry NI Cat)
    (hlookup : ∀ id, HWIntrinsicInfo.ValidId table id →
      HWIntrinsicInfo.registryLookup table id = .ok (lookup id))
    (id : NI) (hvalid : HWIntrinsicInfo.ValidId table id) :
    (∃ entry, HWIntrinsicInfo.registryLookup table id = .ok entry ∧ entry.id = id) ∧
      HWIntrinsicInfo.lookupId lookup id = id := by
  obtain ⟨entry, hentry⟩ := HWIntrinsicInfo.registryLookup_valid table id hvalid
  refine ⟨⟨entry, hentry, HWIntrinsicInfo.registryLookup_id table id entry hentry⟩, ?_⟩
  exact HWIntrinsicInfo.registryLookup_id table id (lookup id) (hlookup id hvalid)

theorem Arm64.sampleTable_lookup (id : Arm64.NamedIntrinsic)
    (h : HWIntrinsicInfo.ValidId Arm64.sampleTable id) :
    HWIntrinsicInfo.registryLookup Arm64.sampleTable id =
      .ok (Arm64.uniformRegistry HW_Flag_NoFlag Arm64.HW_Category_SIMD id) := by
  obtain ⟨entry, hmem, hid⟩ := h
  simp only [Arm64.sampleTable, List.mem_cons, List.mem_singleton, List.not_mem_nil,
    or_false] at hmem
  rcases hmem with rfl | rfl
  · subst hid
    rfl
  · subst hid
    rfl

/-- C21 at a concrete table of two descriptors. -/
theorem HWIntrinsicInfo.lookupId_round_trip_witness :
    HWIntrinsicInfo.ValidId Arm64.sampleTable Arm64.NamedIntrinsic.NI_Sve_Or ∧
      HWIntrinsicInfo.lookupId (Arm64.uniformRegistry HW_Flag_NoFlag Arm64.HW_Category_SIMD)
        Arm64.NamedIntrinsic.NI_Sve_Or = Arm64.NamedIntrinsic.NI_Sve_Or :=
  ⟨⟨_, List.mem_cons_of_mem _ (List.mem_singleton.mpr rfl), rfl⟩,
    (HWIntrinsicInfo.lookupId_round_trip Arm64.sampleTable
      (Arm64.uniformRegistry HW_Flag_NoFlag Arm64.HW_Category_SIMD) Arm64.sampleTable_lookup
      Arm64.NamedIntrinsic.NI_Sve_Or
      ⟨_, List.mem_cons_of_mem _ (List.mem_singleton.mpr rfl), rfl⟩).2⟩

/-- C24: for every x86 identifier that carries `HW_Flag_FullRangeIMM` the legal
immediate range is the whole 8-bit range 0 to 255 and the upper bound is 255;
for every identifier without that flag the legal range is a non-empty strict
subset of 0 to 255: it holds 0 and lacks 255. -/
theorem XArch.lookupImmUpperBound_range (lookup : XArch.Info)
    (restricted : XArch.NamedIntrinsic → Fin 255) (id : XArch.NamedIntrinsic) :
    (Carries (lookup id).flags XArch.HW_Flag_FullRangeIMM →
      XArch.lookupImmUpperBound lookup restricted id = 255 ∧
        ∀ imm, XArch.LegalImm lookup restricted id imm ↔ 0 ≤ imm ∧ imm ≤ 255) ∧
    (¬ Carries (lookup id).flags XArch.HW_Flag_FullRangeIMM →
      XArch.LegalImm lookup restricted id 0 ∧
        ¬ XArch.LegalImm lookup restricted id 255 ∧
        ∀ imm, XArch.LegalImm lookup restricted id imm → 0 ≤ imm ∧ imm ≤ 255) := by
  have hiff : XArch.HasFullRangeImm lookup id = true ↔
      Carries (lookup id).flags XArch.HW_Flag_FullRangeIMM :=
    test_ne_zero_iff (lookup id).flags 10
  constructor
  · intro h
    have hb : XArch.lookupImmUpperBound lookup restricted id = 255 := by
      unfold XArch.lookupImmUpperBound
      rw [if_pos (hiff.mpr h)]
    refine ⟨hb, ?_⟩
    intro imm
    unfold XArch.LegalImm
    rw [hb]
  · intro h
    have hb : XArch.lookupImmUpperBound lookup restricted id = ((restricted id : Nat) : Int) := by
      unfold XArch.lookupImmUpperBound
      rw [if_neg (fun hf => h (hiff.mp hf))]
    have hlt : (restricted id : Nat) < 255 := (restricted id).isLt
    unfold XArch.LegalImm
    rw [hb]
    refine ⟨⟨le_refl _, by omega⟩, ?_, ?_⟩
    · intro hle
      omega
    · intro imm himm
      omega

/-- C24 at concrete descriptors: the full-range flag gives the bound 255, and without it
the bound 31 of the table makes 31 legal and 32 illegal. -/
theorem XArch.lookupImmUpperBound_range_witness :
    XArch.lookupImmUpperBound
        (XArch.uniformRegistry XArch.HW_Flag_FullRangeIMM XArch.HW_Category_IMM)
        (fun _ => 31) .NI_Vector128_Create = 255 ∧
      XArch.LegalImm (XArch.uniformRegistry HW_Flag_NoFlag XArch.HW_Category_IMM)
        (fun _ => 31) .NI_Vector128_Create 0 ∧
      ¬ XArch.LegalImm (XArch.uniformRegistry HW_Flag_NoFlag XArch.HW_Category_IMM)
        (fun _ => 31) .NI_Vector128_Create 255 :=
  ⟨((XArch.lookupImmUpperBound_range
      (XArch.uniformRegistry XArch.HW_Flag_FullRangeIMM XArch.HW_Category_IMM)
      (fun _ => 31) .NI_Vector128_Create).1 (by decide)).1,
    ((XArch.lookupImmUpperBound_range
      (XArch.uniformRegistry HW_Flag_NoFlag XArch.HW_Category_IMM)
      (fun _ => 31) .NI_Vector128_Create).2 (by decide)).1,
    ((XArch.lookupImmUpperBound_range
      (XArch.uniformRegistry HW_Flag_NoFlag XArch.HW_Category_IMM)
      (fun _ => 31) .NI_Vector128_Create).2 (by decide)).2.1⟩

/-! ## Positions of the immediate operands -/

/-- Whatever the registry, `GetScalarInputVariant` returns an identifier only along a pair
of the table. -/
theorem Arm64.GetScalarInputVariant_ok_mem (lookup : Arm64.Info)
    (id variant : Arm64.NamedIntrinsic)
    (h : Arm64.GetScalarInputVariant lookup id = .ok variant) :
    (id, variant) ∈ Arm64.scalarInputPairs := by
  by_cases hc : Carries (lookup id).flags Arm64.HW_Flag_HasScalarInputVariant
  · have hf := (Arm64.HasScalarInputVariant_iff lookup id).mpr hc
    unfold Arm64.GetScalarInputVariant at h
    rw [hf] at h
    cases id with
    | other n => cases h
    | _ =>
      first
        | (cases h
           done)
        | (obtain rfl : _ = variant := Except.ok.inj h
           decide)
  · rw [Arm64.GetScalarInputVariant_of_unflagged lookup id hc] at h
    cases h

/-- Along every pair of the scalar-input table the two identifiers fall in the same case of
`GetImmOpsPositions`. -/
theorem Arm64.GetImmOpsPositions_of_pair (id variant : Arm64.NamedIntrinsic)
    (hmem : (id, variant) ∈ Arm64.scalarInputPairs) (sig : Arm64.CORINFO_SIG_INFO)
    (imm1Pos imm2Pos : Int) :
    Arm64.GetImmOpsPositions variant sig imm1Pos imm2Pos =
      Arm64.GetImmOpsPositions id sig imm1Pos imm2Pos := by
  simp only [Arm64.scalarInputPairs, List.mem_cons, Prod.mk.injEq, List.mem_singleton,
    List.not_mem_nil, or_false] at hmem
  repeat' rcases hmem with ⟨rfl, rfl⟩ | hmem
  all_goals first | rfl | (subst_vars; rfl)

/-- C31: switching to the scalar-input variant never moves the immediate
operands. For every registry and every identifier `id` for which
`GetScalarInputVariant` returns a variant, and for every signature and every
pair of values the caller has in the two position cells, `GetImmOpsPositions`
has the same outcome on the variant as on `id`: the same assertion failure, or
the same two positions. Every case label of `GetScalarInputVariant` is such an
identifier under a registry that flags it. -/
theorem Arm64.GetImmOpsPositions_scalar_variant (lookup : Arm64.Info)
    (id variant : Arm64.NamedIntrinsic)
    (h : Arm64.GetScalarInputVariant lookup id = .ok variant)
    (sig : Arm64.CORINFO_SIG_INFO) (imm1Pos imm2Pos : Int) :
    Arm64.GetImmOpsPositions variant sig imm1Pos imm2Pos =
      Arm64.GetImmOpsPositions id sig imm1Pos imm2Pos :=
  Arm64.GetImmOpsPositions_of_pair id variant
    (Arm64.GetScalarInputVariant_ok_mem lookup id variant h) sig imm1Pos imm2Pos

/-- C31 at a concrete registry and signature: the 16-bit saturating decrement
and its scalar variant both put the immediates at positions 1 and 0. -/
theorem Arm64.GetImmOpsPositions_scalar_variant_witness :
    Arm64.GetScalarInputVariant Arm64.scalarInputRegistry
        .NI_Sve_SaturatingDecrementBy16BitElementCount =
        .ok .NI_Sve_SaturatingDecrementBy16BitElementCountScalar ∧
      Arm64.GetImmOpsPositions .NI_Sve_SaturatingDecrementBy16BitElementCountScalar ⟨3⟩ 7 9 =
        Arm64.GetImmOpsPositions .NI_Sve_SaturatingDecrementBy16BitElementCount ⟨3⟩ 7 9 ∧
      Arm64.GetImmOpsPositions .NI_Sve_SaturatingDecrementBy16BitElementCount ⟨3⟩ 7 9 =
        .ok (1, 0) :=
  ⟨rfl,
    Arm64.GetImmOpsPositions_scalar_variant Arm64.scalarInputRegistry
      .NI_Sve_SaturatingDecrementBy16BitElementCount
      .NI_Sve_SaturatingDecrementBy16BitElementCountScalar rfl ⟨3⟩ 7 9,
    rfl⟩

theorem Arm64.GetImmOpsPositions_eq (id : Arm64.NamedIntrinsic) (sig : Arm64.CORINFO_SIG_INFO)
    (imm1Pos imm2Pos : Int) :
    Arm64.GetImmOpsPositions id sig imm1Pos imm2Pos =
      if id ∈ Arm64.singleImmediateIds then
        (assert (sig.numArgs == 3)).bind fun _ => .ok ((1 : Int), imm2Pos)
      else if id ∈ Arm64.twoImmediateIds then
        match Arm64.assertedNumArgs id with
        | some 4 => (assert (sig.numArgs == 4)).bind fun _ => .ok (2, 0)
        | some 5 => (assert (sig.numArgs == 5)).bind fun _ => .ok (0, 1)
        | _ => (assert (sig.numArgs == 3)).bind fun _ => .ok (1, 0)
      else
        (assert (decide (sig.numArgs > 0))).bind fun _ => .ok ((0 : Int), imm2Pos) := by
  cases id
  case other n =>
    simp [Arm64.singleImmediateIds, Arm64.twoImmediateIds]
    rfl
  all_goals rfl

/-- A passed assertion continues, a failed one ends the computation. -/
theorem assert_bind {α : Type} (cond : Bool) (value : α) :
    ((assert cond).bind fun _ => Except.ok value) =
      if cond = true then .ok value else .error .assertionFailed := by
  cases cond <;> rfl

theorem Arm64.singleImmediateIds_disjoint :
    ∀ id ∈ Arm64.singleImmediateIds, id ∉ Arm64.twoImmediateIds := by
  decide

theorem Arm64.assertedNumArgs_single :
    ∀ id ∈ Arm64.singleImmediateIds, Arm64.assertedNumArgs id = some 3 := by
  decide

theorem Arm64.assertedNumArgs_two :
    ∀ id ∈ Arm64.twoImmediateIds,
      Arm64.assertedNumArgs id = some 3 ∨ Arm64.assertedNumArgs id = some 4 ∨
        Arm64.assertedNumArgs id = some 5 := by
  decide

theorem Arm64.assertedNumArgs_default (id : Arm64.NamedIntrinsic)
    (h1 : id ∉ Arm64.singleImmediateIds) (h2 : id ∉ Arm64.twoImmediateIds) :
    Arm64.assertedNumArgs id = none := by
  have ha : id ≠ .NI_AdvSimd_Arm64_InsertSelectedScalar := fun h => h2 (h ▸ by decide)
  have hb : id ≠ .NI_Sve_MultiplyAddRotateComplexBySelectedScalar := fun h => h2 (h ▸ by decide)
  have hc : id ≠ .NI_Sve2_DotProductRotateComplexBySelectedIndex := fun h => h2 (h ▸ by decide)
  simp [Arm64.assertedNumArgs, h1, h2, ha, hb, hc]

/-- The outcome of `GetImmOpsPositions` in terms of the argument count its case asserts. -/
theorem Arm64.GetImmOpsPositions_cases (id : Arm64.NamedIntrinsic) (sig : Arm64.CORINFO_SIG_INFO)
    (imm1Pos imm2Pos : Int) :
    (id ∈ Arm64.singleImmediateIds ∧ Arm64.assertedNumArgs id = some 3 ∧
      Arm64.GetImmOpsPositions id sig imm1Pos imm2Pos =
        if sig.numArgs = 3 then .ok (1, imm2Pos) else .error .assertionFailed) ∨
    (id ∈ Arm64.twoImmediateIds ∧ Arm64.assertedNumArgs id = some 3 ∧
      Arm64.GetImmOpsPositions id sig imm1Pos imm2Pos =
        if sig.numArgs = 3 then .ok (1, 0) else .error .assertionFailed) ∨
    (id ∈ Arm64.twoImmediateIds ∧ Arm64.assertedNumArgs id = some 4 ∧
      Arm64.GetImmOpsPositions id sig imm1Pos imm2Pos =
        if sig.numArgs = 4 then .ok (2, 0) else .error .assertionFailed) ∨
    (id ∈ Arm64.twoImmediateIds ∧ Arm64.assertedNumArgs id = some 5 ∧
      Arm64.GetImmOpsPositions id sig imm1Pos imm2Pos =
        if sig.numArgs = 5 then .ok (0, 1) else .error .assertionFailed) ∨
    (id ∉ Arm64.twoImmediateIds ∧ Arm64.assertedNumArgs id = none ∧
      Arm64.GetImmOpsPositions id sig imm1Pos imm2Pos =
        if 0 < sig.numArgs then .ok (0, imm2Pos) else .error .assertionFailed) := by
  rw [Arm64.GetImmOpsPositions_eq]
  by_cases h1 : id ∈ Arm64.singleImmediateIds
  · refine Or.inl ⟨h1, Arm64.assertedNumArgs_single id h1, ?_⟩
    rw [if_pos h1, assert_bind]
    simp
  · rw [if_neg h1]
    by_cases h2 : id ∈ Arm64.twoImmediateIds
    · rw [if_pos h2]
      rcases Arm64.assertedNumArgs_two id h2 with h | h | h
      · refine Or.inr (Or.inl ⟨h2, h, ?_⟩)
        rw [h]
        simp only [assert_bind]
        simp
      · refine Or.inr (Or.inr (Or.inl ⟨h2, h, ?_⟩))
        rw [h]
        simp only [assert_bind]
        simp
      · refine Or.inr (Or.inr (Or.inr (Or.inl ⟨h2, h, ?_⟩)))
        rw [h]
        simp only [assert_bind]
        simp
    · refine Or.inr (Or.inr (Or.inr (Or.inr ⟨h2, Arm64.assertedNumArgs_default id h1 h2, ?_⟩)))
      rw [if_neg h2, assert_bind]
      simp

/-- C32: for every identifier and every signature, `GetImmOpsPositions` returns
exactly when the signature satisfies the argument-count assertion of the case
of the identifier, and fails that assertion otherwise. When it returns, the
position in `*imm1Pos` does not depend on what the caller had there and lies in
`[0, sig->numArgs)`; in the cases that store both positions, `*imm2Pos` does not
depend on the caller either, lies in `[0, sig->numArgs)` and differs from
`*imm1Pos`; in every other case (the `Insert` and `LoadAndInsertScalar` group
and the default case) `*imm2Pos` keeps the caller's value. -/
theorem Arm64.GetImmOpsPositions_in_range (id : Arm64.NamedIntrinsic)
    (sig : Arm64.CORINFO_SIG_INFO) (imm1Pos imm2Pos : Int) :
    (Arm64.ArgCountAccepted id sig →
      ∃ p1 p2, Arm64.GetImmOpsPositions id sig imm1Pos imm2Pos = .ok (p1, p2)) ∧
    (¬ Arm64.ArgCountAccepted id sig →
      Arm64.GetImmOpsPositions id sig imm1Pos imm2Pos = .error .assertionFailed) ∧
    (∀ p1 p2, Arm64.GetImmOpsPositions id sig imm1Pos imm2Pos = .ok (p1, p2) →
      (0 ≤ p1 ∧ p1 < sig.numArgs) ∧
      (∀ caller1, Arm64.GetImmOpsPositions id sig caller1 imm2Pos = .ok (p1, p2)) ∧
      (id ∈ Arm64.twoImmediateIds →
        (0 ≤ p2 ∧ p2 < sig.numArgs) ∧ p1 ≠ p2 ∧
          ∀ caller1 caller2, Arm64.GetImmOpsPositions id sig caller1 caller2 = .ok (p1, p2)) ∧
      (id ∉ Arm64.twoImmediateIds → p2 = imm2Pos)) := by
  have hsame : ∀ caller1 caller2, Arm64.GetImmOpsPositions id sig caller1 caller2 =
      Arm64.GetImmOpsPositions id sig imm1Pos caller2 := by
    intro caller1 caller2
    rw [Arm64.GetImmOpsPositions_eq, Arm64.GetImmOpsPositions_eq id sig imm1Pos]
  unfold Arm64.ArgCountAccepted
  rcases Arm64.GetImmOpsPositions_cases id sig imm1Pos imm2Pos with
    ⟨h1, ha, he⟩ | ⟨h2, ha, he⟩ | ⟨h2, ha, he⟩ | ⟨h2, ha, he⟩ | ⟨h2, ha, he⟩
  · have hn2 := Arm64.singleImmediateIds_disjoint id h1
    rw [ha, he]
    refine ⟨fun h => ⟨1, imm2Pos, by rw [if_pos h]⟩, fun h => by rw [if_neg h], ?_⟩
    intro p1 p2 hp
    by_cases hn : sig.numArgs = 3
    · rw [if_pos hn] at hp
      obtain ⟨rfl, rfl⟩ := Prod.mk.inj (Except.ok.inj hp)
      refine ⟨⟨by decide, by rw [hn]; decide⟩, fun c => ?_, fun h => absurd h hn2, fun _ => rfl⟩
      rw [hsame c imm2Pos, he, if_pos hn]
    · rw [if_neg hn] at hp
      cases hp
  · rw [ha, he]
    refine ⟨fun h => ⟨1, 0, by rw [if_pos h]⟩, fun h => by rw [if_neg h], ?_⟩
    intro p1 p2 hp
    by_cases hn : sig.numArgs = 3
    · rw [if_pos hn] at hp
      obtain ⟨rfl, rfl⟩ := Prod.mk.inj (Except.ok.inj hp)
      have hall : ∀ caller1 caller2,
          Arm64.GetImmOpsPositions id sig caller1 caller2 = .ok (1, 0) := by
        intro c1 c2
        rcases Arm64.GetImmOpsPositions_cases id sig c1 c2 with
          ⟨h1, _, _⟩ | ⟨_, _, e⟩ | ⟨_, b, _⟩ | ⟨_, b, _⟩ | ⟨h, _, _⟩
        · exact absurd h2 (Arm64.singleImmediateIds_disjoint id h1)
        · rw [e, if_pos hn]
        · rw [ha] at b; cases b
        · rw [ha] at b; cases b
        · exact absurd h2 h
      refine ⟨⟨by decide, by rw [hn]; decide⟩, fun c => hall c imm2Pos,
        fun _ => ⟨⟨by decide, by rw [hn]; decide⟩, by decide, hall⟩, fun h => absurd h2 h⟩
    · rw [if_neg hn] at hp
      cases hp
  · rw [ha, he]
    refine ⟨fun h => ⟨2, 0, by rw [if_pos h]⟩, fun h => by rw [if_neg h], ?_⟩
    intro p1 p2 hp
    by_cases hn : sig.numArgs = 4
    · rw [if_pos hn] at hp
      obtain ⟨rfl, rfl⟩ := Prod.mk.inj (Except.ok.inj hp)
      have hall : ∀ caller1 caller2,
          Arm64.GetImmOpsPositions id sig caller1 caller2 = .ok (2, 0) := by
        intro c1 c2
        rcases Arm64.GetImmOpsPositions_cases id sig c1 c2 with
          ⟨h1, _, _⟩ | ⟨_, b, _⟩ | ⟨_, _, e⟩ | ⟨_, b, _⟩ | ⟨h, _, _⟩
        · exact absurd h2 (Arm64.singleImmediateIds_disjoint id h1)
        · rw [ha] at b; cases b
        · rw [e, if_pos hn]
        · rw [ha] at b; cases b
        · exact absurd h2 h
      refine ⟨⟨by decide, by rw [hn]; decide⟩, fun c => hall c imm2Pos,
        fun _ => ⟨⟨by decide, by rw [hn]; decide⟩, by decide, hall⟩, fun h => absurd h2 h⟩
    · rw [if_neg hn] at hp
      cases hp
  · rw [ha, he]
    refine ⟨fun h => ⟨0, 1, by rw [if_pos h]⟩, fun h => by rw [if_neg h], ?_⟩
    intro p1 p2 hp
    by_cases hn : sig.numArgs = 5
    · rw [if_pos hn] at hp
      obtain ⟨rfl, rfl⟩ := Prod.mk.inj (Except.ok.inj hp)
      have hall : ∀ caller1 caller2,
          Arm64.GetImmOpsPositions id sig caller1 caller2 = .ok (0, 1) := by
        intro c1 c2
        rcases Arm64.GetImmOpsPositions_cases id sig c1 c2 with
          ⟨h1, _, _⟩ | ⟨_, b, _⟩ | ⟨_, b, _⟩ | ⟨_, _, e⟩ | ⟨h, _, _⟩
        · exact absurd h2 (Arm64.singleImmediateIds_disjoint id h1)
        · rw [ha] at b; cases b
        · rw [ha] at b; cases b
        · rw [e, if_pos hn]
        · exact absurd h2 h
      refine ⟨⟨by decide, by rw [hn]; decide⟩, fun c => hall c imm2Pos,
        fun _ => ⟨⟨by decide, by rw [hn]; decide⟩, by decide, hall⟩, fun h => absurd h2 h⟩
    · rw [if_neg hn] at hp
      cases hp
  · rw [ha, he]
    refine ⟨fun h => ⟨0, imm2Pos, by rw [if_pos h]⟩, fun h => by rw [if_neg h], ?_⟩
    intro p1 p2 hp
    by_cases hn : 0 < sig.numArgs
    · rw [if_pos hn] at hp
      obtain ⟨rfl, rfl⟩ := Prod.mk.inj (Except.ok.inj hp)
      refine ⟨⟨le_refl _, by exact_mod_cast hn⟩, fun c => ?_, fun h => absurd h h2, fun _ => rfl⟩
      rw [hsame c imm2Pos, he, if_pos hn]
    · rw [if_neg hn] at hp
      cases hp

/-- C32 at concrete signatures: a labelled case with both positions, the
`Insert` case and the default case. -/
theorem Arm64.GetImmOpsPositions_in_range_witness :
    Arm64.GetImmOpsPositions .NI_AdvSimd_Arm64_InsertSelectedScalar ⟨4⟩ 7 9 = .ok (2, 0) ∧
      Arm64.GetImmOpsPositions .NI_AdvSimd_Insert ⟨3⟩ 7 9 = .ok (1, 9) ∧
      Arm64.GetImmOpsPositions .NI_Sve_And ⟨2⟩ 7 9 = .ok (0, 9) ∧
      ((0 : Int) ≤ 2 ∧ (2 : Int) < (4 : Nat)) ∧
      (∀ caller1 caller2,
        Arm64.GetImmOpsPositions .NI_AdvSimd_Arm64_InsertSelectedScalar ⟨4⟩ caller1 caller2 =
          .ok (2, 0)) :=
  ⟨rfl, rfl, rfl,
    ((Arm64.GetImmOpsPositions_in_range .NI_AdvSimd_Arm64_InsertSelectedScalar ⟨4⟩ 7 9).2.2
      2 0 rfl).1,
    (((Arm64.GetImmOpsPositions_in_range .NI_AdvSimd_Arm64_InsertSelectedScalar ⟨4⟩ 7 9).2.2
      2 0 rfl).2.2.1 (by decide)).2.2⟩

/-! ## Base-type inference without the operand it names -/

/-- The rule names no type when the operand it reads is missing: the first
operand of a node without operands, or the second operand of a node with fewer
than two when the first-argument flag is clear. -/
theorem Arm64.HWIntrinsic.chosenType_missing (flags : HWIntrinsicFlag)
    (node : Arm64.GenTreeHWIntrinsic)
    (hmiss : (Carries flags HW_Flag_BaseTypeFromFirstArg ∧ node.GetOperandCount = 0) ∨
      (Carries flags HW_Flag_BaseTypeFromSecondArg ∧
        ¬ Carries flags HW_Flag_BaseTypeFromFirstArg ∧ node.GetOperandCount < 2)) :
    Arm64.HWIntrinsic.chosenType flags node = none := by
  obtain ⟨nid, ops, bt, ty⟩ := node
  unfold Arm64.HWIntrinsic.chosenType
  rcases hmiss with ⟨hf, hn⟩ | ⟨hs, hf, hn⟩
  · rw [if_pos hf]
    have hops : ops = [] := List.length_eq_zero.mp hn
    subst hops
    rfl
  · rw [if_neg hf, if_pos hs]
    match ops, hn with
    | [], _ => rfl
    | [a], _ => rfl
    | a :: b :: rest, h =>
      exact absurd h (by simp [Arm64.GenTreeHWIntrinsic.GetOperandCount])

/-- C33: base-type inference without the operand it names fails the non-null
operand assertion. For a node whose base type is `TYP_UNKNOWN`, in the scalar
or special category, whose descriptor carries `BaseTypeFromFirstArg` while the
node has no operand, or carries `BaseTypeFromSecondArg` without
`BaseTypeFromFirstArg` while the node has fewer than two operands: operand
extraction succeeds and leaves the slot null, the inference chain fails its
assertion on the null slot, `InitializeBaseType` ends with that failure and
leaves the base type `TYP_UNKNOWN` (no type is read), and the constructor fails
the assertion instead of returning a view. -/
theorem Arm64.HWIntrinsic.baseType_missing_operand (lookup : Arm64.Info)
    (genActualType : var_types → var_types) (node : Arm64.GenTreeHWIntrinsic)
    (hbase : node.GetSimdBaseType = TYP_UNKNOWN)
    (hc : (lookup node.GetHWIntrinsicId).category = Arm64.HW_Category_Scalar ∨
      (lookup node.GetHWIntrinsicId).category = Arm64.HW_Category_Special)
    (hmiss :
      (Carries (lookup node.GetHWIntrinsicId).flags HW_Flag_BaseTypeFromFirstArg ∧
        node.GetOperandCount = 0) ∨
      (Carries (lookup node.GetHWIntrinsicId).flags HW_Flag_BaseTypeFromSecondArg ∧
        ¬ Carries (lookup node.GetHWIntrinsicId).flags HW_Flag_BaseTypeFromFirstArg ∧
        node.GetOperandCount < 2)) :
    ((Carries (lookup node.GetHWIntrinsicId).flags HW_Flag_BaseTypeFromFirstArg →
        (Arm64.HWIntrinsic.extracted lookup node).op1 = none) ∧
      (¬ Carries (lookup node.GetHWIntrinsicId).flags HW_Flag_BaseTypeFromFirstArg →
        (Arm64.HWIntrinsic.extracted lookup node).op2 = none)) ∧
    Arm64.HWIntrinsic.inferBaseType lookup
        { Arm64.HWIntrinsic.extracted lookup node with baseType := TYP_UNKNOWN } node =
      (.error .assertionFailed,
        { Arm64.HWIntrinsic.extracted lookup node with baseType := TYP_UNKNOWN }) ∧
    Arm64.HWIntrinsic.InitializeBaseType lookup genActualType
        (Arm64.HWIntrinsic.extracted lookup node) node =
      (.error .assertionFailed,
        { Arm64.HWIntrinsic.extracted lookup node with baseType := TYP_UNKNOWN }) ∧
    Arm64.HWIntrinsic.HWIntrinsic lookup genActualType (some node) = .error .assertionFailed := by
  have hn : node.GetOperandCount ≤ 5 := by
    rcases hmiss with ⟨_, h⟩ | ⟨_, _, h⟩ <;> omega
  have hnone := Arm64.HWIntrinsic.chosenType_missing (lookup node.GetHWIntrinsicId).flags node
    hmiss
  obtain ⟨_, hid, hcat, hop1, hop2⟩ := Arm64.HWIntrinsic.extracted_spec lookup node hn
  have hinfer : Arm64.HWIntrinsic.inferBaseType lookup
      { Arm64.HWIntrinsic.extracted lookup node with baseType := TYP_UNKNOWN } node =
      (.error .assertionFailed,
        { Arm64.HWIntrinsic.extracted lookup node with baseType := TYP_UNKNOWN }) := by
    rw [Arm64.HWIntrinsic.inferBaseType_eq lookup
      { Arm64.HWIntrinsic.extracted lookup node with baseType := TYP_UNKNOWN } node hop1 hop2]
    simp only [hid, hnone]
  have hinit : Arm64.HWIntrinsic.InitializeBaseType lookup genActualType
      (Arm64.HWIntrinsic.extracted lookup node) node =
      (.error .assertionFailed,
        { Arm64.HWIntrinsic.extracted lookup node with baseType := TYP_UNKNOWN }) := by
    rw [Arm64.HWIntrinsic.InitializeBaseType_inferred lookup genActualType
      (Arm64.HWIntrinsic.extracted lookup node) node hbase (by rw [hcat]; exact hc), hinfer]
  refine ⟨⟨?_, ?_⟩, hinfer, hinit, ?_⟩
  · intro hf
    have h := hnone
    unfold Arm64.HWIntrinsic.chosenType at h
    rw [if_pos hf] at h
    rw [hop1]
    cases hop : node.Op 1 with
    | none => rfl
    | some t => rw [hop] at h; cases h
  · intro hf
    have hs : Carries (lookup node.GetHWIntrinsicId).flags HW_Flag_BaseTypeFromSecondArg := by
      rcases hmiss with ⟨h, _⟩ | ⟨h, _, _⟩
      · exact absurd h hf
      · exact h
    have h := hnone
    unfold Arm64.HWIntrinsic.chosenType at h
    rw [if_neg hf, if_pos hs] at h
    rw [hop2]
    cases hop : node.Op 2 with
    | none => rfl
    | some t => rw [hop] at h; cases h
  · cases hreq : HWIntrinsicInfo.RequiresCodegen lookup node.GetHWIntrinsicId
    · exact Arm64.HWIntrinsic.constructor_of_not_required lookup genActualType node hreq
    · rw [Arm64.HWIntrinsic.constructor_of_extracted lookup genActualType node hreq hn, hinit]

/-- C33 at concrete nodes: a scalar descriptor that takes the base type from the
first argument on a node without operands, and one that takes it from the
second argument on a node without operands. -/
theorem Arm64.HWIntrinsic.baseType_missing_operand_witness :
    Arm64.HWIntrinsic.HWIntrinsic
        (Arm64.uniformRegistry HW_Flag_BaseTypeFromFirstArg Arm64.HW_Category_Scalar)
        (fun t => t) (some Arm64.bareNode) = .error .assertionFailed ∧
      Arm64.HWIntrinsic.HWIntrinsic
        (Arm64.uniformRegistry HW_Flag_BaseTypeFromSecondArg Arm64.HW_Category_Special)
        (fun t => t) (some Arm64.bareNode) = .error .assertionFailed :=
  ⟨(Arm64.HWIntrinsic.baseType_missing_operand
      (Arm64.uniformRegistry HW_Flag_BaseTypeFromFirstArg Arm64.HW_Category_Scalar)
      (fun t => t) Arm64.bareNode rfl (Or.inl rfl) (Or.inl ⟨by decide, rfl⟩)).2.2.2,
    (Arm64.HWIntrinsic.baseType_missing_operand
      (Arm64.uniformRegistry HW_Flag_BaseTypeFromSecondArg Arm64.HW_Category_Special)
      (fun t => t) Arm64.bareNode rfl (Or.inr rfl)
      (Or.inr ⟨by decide, by decide, by decide⟩)).2.2.2⟩

/-! ## Rounding a size up to a power of two -/

/-- Clearing the low `k` bits of a `w`-bit value leaves the largest multiple of `2 ^ k`
that does not exceed it. -/
theorem land_bitNot_two_pow (w k x : Nat) (hk : k ≤ w) (hx : x < 2 ^ w) :
    x &&& bitNot w (2 ^ k - 1) = 2 ^ k * (x / 2 ^ k) := by
  unfold bitNot
  apply Nat.eq_of_testBit_eq
  intro j
  rw [Nat.testBit_and, Nat.testBit_xor, Nat.testBit_two_pow_sub_one,
    Nat.testBit_two_pow_sub_one, Nat.testBit_mul_pow_two]
  by_cases hj : j < k
  · have hjw : j < w := Nat.lt_of_lt_of_le hj hk
    simp [hj, hjw]
  · have hge : k ≤ j := Nat.le_of_not_lt hj
    have hbit : (x / 2 ^ k).testBit (j - k) = x.testBit j := by
      rw [← Nat.shiftRight_eq_div_pow, Nat.testBit_shiftRight, Nat.add_sub_cancel' hge]
    rw [hbit]
    by_cases hjw : j < w
    · simp [hj, hjw, hge]
    · have hfalse : x.testBit j = false :=
        Nat.testBit_lt_two_pow
          (Nat.lt_of_lt_of_le hx (Nat.pow_le_pow_right (by decide) (Nat.le_of_not_lt hjw)))
      simp [hfalse]

/-- The value `mult - 1` of a power of two that fits the type. -/
theorem wrappingPred_two_pow (w k : Nat) (hk : k < w) : wrappingPred w (2 ^ k) = 2 ^ k - 1 := by
  unfold wrappingPred
  have hpos : 0 < 2 ^ k := Nat.two_pow_pos k
  have hlt : 2 ^ k < 2 ^ w := Nat.pow_lt_pow_right (by decide) hk
  have h : 2 ^ k + 2 ^ w - 1 = (2 ^ k - 1) + 2 ^ w := by omega
  rw [h, Nat.add_mod_right, Nat.mod_eq_of_lt (by omega)]

/-- The function on a power of two that fits the type: the assertion holds, and the result is
the sum with the low bits cleared. -/
theorem roundUp_two_pow (w k size : Nat) (hk : k < w) (hsum : size + (2 ^ k - 1) < 2 ^ w) :
    roundUp w size (2 ^ k) = .ok (2 ^ k * ((size + (2 ^ k - 1)) / 2 ^ k)) := by
  have hpos : 0 < 2 ^ k := Nat.two_pow_pos k
  have hand : 2 ^ k &&& (2 ^ k - 1) = 0 := by
    rw [Nat.and_pow_two_sub_one_eq_mod, Nat.mod_self]
  have hne : ((2 : Nat) ^ k != 0) = true := by
    simp
  unfold roundUp
  rw [wrappingPred_two_pow w k hk, hand, hne, Nat.mod_eq_of_lt hsum,
    land_bitNot_two_pow w k _ (Nat.le_of_lt hk) hsum]
  rfl

/-- C34: for every width `w` of `size_t`, every power of two `mult = 2 ^ k` the
type can hold and every `size` such that `size + mult - 1` does not overflow,
`roundUp(size, mult)` passes its assertion and returns the smallest multiple
of `mult` that is greater than or equal to `size`; rounding the result up again
returns it unchanged. -/
theorem roundUp_smallest_multiple (w k size : Nat) (hk : k < w)
    (hsum : size + (2 ^ k - 1) < 2 ^ w) :
    ∃ r, roundUp w size (2 ^ k) = .ok r ∧
      2 ^ k ∣ r ∧ size ≤ r ∧ (∀ m, 2 ^ k ∣ m → size ≤ m → r ≤ m) ∧
      roundUp w r (2 ^ k) = .ok r := by
  have hpos : 0 < 2 ^ k := Nat.two_pow_pos k
  have hdm := Nat.div_add_mod (size + (2 ^ k - 1)) (2 ^ k)
  have hmod := Nat.mod_lt (size + (2 ^ k - 1)) hpos
  refine ⟨2 ^ k * ((size + (2 ^ k - 1)) / 2 ^ k), roundUp_two_pow w k size hk hsum,
    Nat.dvd_mul_right _ _, by omega, ?_, ?_⟩
  · rintro m ⟨q, rfl⟩ hm
    apply Nat.mul_le_mul_left
    by_contra hlt
    have hq : q + 1 ≤ (size + (2 ^ k - 1)) / 2 ^ k := by omega
    have hmul := Nat.mul_le_mul_left (2 ^ k) hq
    rw [Nat.mul_add, Nat.mul_one] at hmul
    omega
  · have hw : 2 ^ w = 2 ^ k * 2 ^ (w - k) := by
      rw [← Nat.pow_add, Nat.add_sub_cancel' (Nat.le_of_lt hk)]
    have hq : (size + (2 ^ k - 1)) / 2 ^ k < 2 ^ (w - k) := by
      apply Nat.div_lt_of_lt_mul
      rw [← hw]
      exact hsum
    have hmul := Nat.mul_le_mul_left (2 ^ k) (Nat.succ_le_of_lt hq)
    rw [Nat.mul_succ, ← hw] at hmul
    have hsum2 : 2 ^ k * ((size + (2 ^ k - 1)) / 2 ^ k) + (2 ^ k - 1) < 2 ^ w := by omega
    rw [roundUp_two_pow w k _ hk hsum2]
    congr 2
    rw [Nat.mul_comm, Nat.add_comm, Nat.add_mul_div_right _ _ hpos,
      Nat.div_eq_of_lt (by omega), Nat.zero_add]

/-- C34 on a 64-bit host: 13 rounded up to a multiple of 8 is 16, and 16 stays 16. -/
theorem roundUp_smallest_multiple_witness :
    roundUp 64 13 (2 ^ 3) = .ok 16 ∧ roundUp 64 16 (2 ^ 3) = .ok 16 ∧
      ∃ r, roundUp 64 13 (2 ^ 3) = .ok r ∧
        2 ^ 3 ∣ r ∧ 13 ≤ r ∧ (∀ m, 2 ^ 3 ∣ m → 13 ≤ m → r ≤ m) ∧
        roundUp 64 r (2 ^ 3) = .ok r :=
  ⟨rfl, rfl, roundUp_smallest_multiple 64 3 13 (by decide) (by decide)⟩

/-! ## Integer comparison modes and their negations -/

/-- Over a linear order, `b ≤ a` is decided as the negation of `a < b`. -/
theorem decide_ge_eq_not_lt {α : Type} [LinearOrder α] (a b : α) :
    decide (b ≤ a) = !decide (a < b) := by
  rw [← decide_not, decide_eq_decide]
  exact not_lt.symm

/-- Over a linear order, `b < a` is decided as the negation of `a ≤ b`. -/
theorem decide_gt_eq_not_le {α : Type} [LinearOrder α] (a b : α) :
    decide (b < a) = !decide (a ≤ b) := by
  rw [← decide_not, decide_eq_decide]
  exact not_le.symm

/-- C39: in `IntComparisonMode`, flipping bit 2 of the code of a mode (the code
XOR 4) gives the code of the negated comparison: `Equal` and `NotEqual`,
`LessThan` and `GreaterThanOrEqual`, `LessThanOrEqual` and `GreaterThan`,
`False` and `True` are exchanged; every `Not...` alias has the code of the
comparison it is equivalent to; and, with each code read as the comparison its
enumerator names, over every linearly ordered type the flipped mode holds
exactly when the mode does not, and each alias holds exactly when the
comparison in its name does not. -/
theorem XArch.IntComparisonMode.flip_negates :
    ((⟨XArch.IntComparisonMode.Equal.code ^^^ 4⟩ : XArch.IntComparisonMode) =
        XArch.IntComparisonMode.NotEqual ∧
      (⟨XArch.IntComparisonMode.LessThan.code ^^^ 4⟩ : XArch.IntComparisonMode) =
        XArch.IntComparisonMode.GreaterThanOrEqual ∧
      (⟨XArch.IntComparisonMode.LessThanOrEqual.code ^^^ 4⟩ : XArch.IntComparisonMode) =
        XArch.IntComparisonMode.GreaterThan ∧
      (⟨XArch.IntComparisonMode.False.code ^^^ 4⟩ : XArch.IntComparisonMode) =
        XArch.IntComparisonMode.True) ∧
    ((⟨XArch.IntComparisonMode.NotEqual.code ^^^ 4⟩ : XArch.IntComparisonMode) =
        XArch.IntComparisonMode.Equal ∧
      (⟨XArch.IntComparisonMode.GreaterThanOrEqual.code ^^^ 4⟩ : XArch.IntComparisonMode) =
        XArch.IntComparisonMode.LessThan ∧
      (⟨XArch.IntComparisonMode.GreaterThan.code ^^^ 4⟩ : XArch.IntComparisonMode) =
        XArch.IntComparisonMode.LessThanOrEqual ∧
      (⟨XArch.IntComparisonMode.True.code ^^^ 4⟩ : XArch.IntComparisonMode) =
        XArch.IntComparisonMode.False) ∧
    (XArch.IntComparisonMode.NotGreaterThanOrEqual.code = XArch.IntComparisonMode.LessThan.code ∧
      XArch.IntComparisonMode.NotGreaterThan.code =
        XArch.IntComparisonMode.LessThanOrEqual.code ∧
      XArch.IntComparisonMode.NotLessThan.code =
        XArch.IntComparisonMode.GreaterThanOrEqual.code ∧
      XArch.IntComparisonMode.NotLessThanOrEqual.code =
        XArch.IntComparisonMode.GreaterThan.code) ∧
    (∀ mode ∈ XArch.IntComparisonMode.all,
      (⟨mode.code ^^^ 4⟩ : XArch.IntComparisonMode) ∈ XArch.IntComparisonMode.all ∧
        mode.code < 2 ^ 8) ∧
    (∀ (α : Type) [LinearOrder α] (a b : α), ∀ mode ∈ XArch.IntComparisonMode.all,
      XArch.IntComparisonMode.holds ⟨mode.code ^^^ 4⟩ a b =
        (XArch.IntComparisonMode.holds mode a b).map not) ∧
    (∀ (α : Type) [LinearOrder α] (a b : α),
      XArch.IntComparisonMode.holds XArch.IntComparisonMode.NotGreaterThanOrEqual a b =
          (XArch.IntComparisonMode.holds XArch.IntComparisonMode.GreaterThanOrEqual a b).map
            not ∧
        XArch.IntComparisonMode.holds XArch.IntComparisonMode.NotGreaterThan a b =
          (XArch.IntComparisonMode.holds XArch.IntComparisonMode.GreaterThan a b).map not ∧
        XArch.IntComparisonMode.holds XArch.IntComparisonMode.NotLessThan a b =
          (XArch.IntComparisonMode.holds XArch.IntComparisonMode.LessThan a b).map not ∧
        XArch.IntComparisonMode.holds XArch.IntComparisonMode.NotLessThanOrEqual a b =
          (XArch.IntComparisonMode.holds XArch.IntComparisonMode.LessThanOrEqual a b).map
            not) := by
  refine ⟨by decide, by decide, by decide, by decide, ?_, ?_⟩
  · intro α _ a b mode hmem
    simp only [XArch.IntComparisonMode.all, List.mem_cons, List.mem_singleton,
      List.not_mem_nil, or_false] at hmem
    rcases hmem with rfl | rfl | rfl | rfl | rfl | rfl | rfl | rfl
    · show some (decide (a ≠ b)) = some (!decide (a = b))
      rw [decide_not]
    · exact congrArg some (decide_ge_eq_not_lt a b)
    · exact congrArg some (decide_gt_eq_not_le a b)
    · rfl
    · show some (decide (a = b)) = some (!decide (a ≠ b))
      rw [decide_not, Bool.not_not]
    · show some (decide (a < b)) = some (!decide (b ≤ a))
      rw [decide_ge_eq_not_lt, Bool.not_not]
    · show some (decide (a ≤ b)) = some (!decide (b < a))
      rw [decide_gt_eq_not_le, Bool.not_not]
    · rfl
  · intro α _ a b
    refine ⟨?_, ?_, congrArg some (decide_ge_eq_not_lt a b),
      congrArg some (decide_gt_eq_not_le a b)⟩
    · show some (decide (a < b)) = some (!decide (b ≤ a))
      rw [decide_ge_eq_not_lt, Bool.not_not]
    · show some (decide (a ≤ b)) = some (!decide (b < a))
      rw [decide_gt_eq_not_le, Bool.not_not]

/-- C39 on the integers 3 and 5: `LessThan` holds, and the mode with the flipped
bit, `GreaterThanOrEqual`, does not. -/
theorem XArch.IntComparisonMode.flip_negates_witness :
    XArch.IntComparisonMode.holds XArch.IntComparisonMode.LessThan (3 : Int) 5 = some true ∧
      XArch.IntComparisonMode.holds ⟨XArch.IntComparisonMode.LessThan.code ^^^ 4⟩ (3 : Int) 5 =
        (XArch.IntComparisonMode.holds XArch.IntComparisonMode.LessThan (3 : Int) 5).map not :=
  ⟨by decide,
    XArch.IntComparisonMode.flip_negates.2.2.2.2.1 Int 3 5 XArch.IntComparisonMode.LessThan
      (by decide)⟩

end Jit

/-! # Properties of the interlocked helpers -/

/-- What `PalInterlockedExchange64` does for every previous content: the new value is
stored, and the returned value is the previous content converted to `int32_t`. -/
theorem NativeAot.PalInterlockedExchange64_eq (previous iValue : Int) :
    NativeAot.PalInterlockedExchange64 previous iValue =
      (NativeAot.toInt32 previous, iValue) := by
  unfold NativeAot.PalInterlockedExchange64 NativeAot.atomicExchange NativeAot.toInt64
    NativeAot.toInt32
  simp only [Prod.mk.injEq, and_true]
  omega

/-- C35 at the failing input: with `2 ^ 32` in `*pDst`, a value outside the
32-bit signed range, `PalInterlockedExchange64` stores the new value 7 and
returns 0, not the previous content; with `2 ^ 31` it returns `-2 ^ 31`; and
`PalInterlockedExchangePointer` of a 64-bit host returns the null pointer for
the previous pointer `2 ^ 32`. A previous content inside the 32-bit range, such
as -5, is returned unchanged. -/
theorem NativeAot.PalInterlockedExchange64_truncates :
    NativeAot.PalInterlockedExchange64 4294967296 7 = (0, 7) ∧
      NativeAot.PalInterlockedExchange64 2147483648 7 = (-2147483648, 7) ∧
      NativeAot.PalInterlockedExchangePointer 4294967296 7 = (0, 7) ∧
      NativeAot.PalInterlockedExchange64 (-5) 7 = (-5, 7) := by
  decide

/-- The two words of a 128-bit value built from two 64-bit words are read back unchanged. -/
theorem NativeAot.int128OfWords_words (high low : Int) (hh : NativeAot.IsInt64 high)
    (hl : NativeAot.IsInt64 low) :
    NativeAot.int128OfWords high low = high * 2 ^ 64 + low % 2 ^ 64 ∧
      NativeAot.toInt64 (NativeAot.int128OfWords high low) = low ∧
      NativeAot.toInt64 (NativeAot.int128OfWords high low / 2 ^ 64) = high := by
  unfold NativeAot.IsInt64 at hh hl
  unfold NativeAot.int128OfWords NativeAot.toInt128 NativeAot.toInt64 NativeAot.toUInt64
  have e63 : (2 : Int) ^ 63 = 9223372036854775808 := by norm_num
  have e64 : (2 : Int) ^ 64 = 18446744073709551616 := by norm_num
  have e127 : (2 : Int) ^ 127 = 170141183460469231731687303715884105728 := by norm_num
  have e128 : (2 : Int) ^ 128 = 340282366920938463463374607431768211456 := by norm_num
  rw [e63] at hh hl
  rw [e63, e64, e127, e128]
  refine ⟨?_, ?_, ?_⟩ <;> omega

/-- Two pairs of 64-bit words build the same 128-bit value only when they are the same pair. -/
theorem NativeAot.int128OfWords_inj (h1 l1 h2 l2 : Int) (hh1 : NativeAot.IsInt64 h1)
    (hl1 : NativeAot.IsInt64 l1) (hh2 : NativeAot.IsInt64 h2) (hl2 : NativeAot.IsInt64 l2) :
    NativeAot.int128OfWords h1 l1 = NativeAot.int128OfWords h2 l2 ↔ h1 = h2 ∧ l1 = l2 := by
  constructor
  · intro h
    have a := NativeAot.int128OfWords_words h1 l1 hh1 hl1
    have b := NativeAot.int128OfWords_words h2 l2 hh2 hl2
    rw [h] at a
    exact ⟨a.2.2.symm.trans b.2.2, a.2.1.symm.trans b.2.1⟩
  · rintro ⟨rfl, rfl⟩
    rfl

/-- C36: in a single-threaded run, for all signed 64-bit words,
`PalInterlockedCompareExchange128` returns 1 when the destination (high word
`pDst[1]`, low word `pDst[0]`) equals the comparand (high word
`pComparandAndResult[1]`, low word `pComparandAndResult[0]`) and 0 otherwise;
exactly when it returns 1 the destination becomes `(iValueHigh, iValueLow)`,
otherwise it is unchanged; and in both cases `pComparandAndResult` receives the
previous value of the destination, low word in `[0]` and high word in `[1]`. -/
theorem NativeAot.PalInterlockedCompareExchange128_spec (dst0 dst1 iValueHigh iValueLow
    cmp0 cmp1 : Int)
    (hd0 : NativeAot.IsInt64 dst0) (hd1 : NativeAot.IsInt64 dst1)
    (hvh : NativeAot.IsInt64 iValueHigh) (hvl : NativeAot.IsInt64 iValueLow)
    (hc0 : NativeAot.IsInt64 cmp0) (hc1 : NativeAot.IsInt64 cmp1) :
    NativeAot.PalInterlockedCompareExchange128 (dst0, dst1) iValueHigh iValueLow (cmp0, cmp1) =
      (if dst1 = cmp1 ∧ dst0 = cmp0 then 1 else 0,
        if dst1 = cmp1 ∧ dst0 = cmp0 then (iValueLow, iValueHigh) else (dst0, dst1),
        (dst0, dst1)) ∧
    ((NativeAot.PalInterlockedCompareExchange128 (dst0, dst1) iValueHigh iValueLow
        (cmp0, cmp1)).1 = 1 ↔ dst1 = cmp1 ∧ dst0 = cmp0) := by
  have hd := NativeAot.int128OfWords_words dst1 dst0 hd1 hd0
  have hv := NativeAot.int128OfWords_words iValueHigh iValueLow hvh hvl
  have hinj := NativeAot.int128OfWords_inj dst1 dst0 cmp1 cmp0 hd1 hd0 hc1 hc0
  have heq : NativeAot.PalInterlockedCompareExchange128 (dst0, dst1) iValueHigh iValueLow
      (cmp0, cmp1) =
      (if dst1 = cmp1 ∧ dst0 = cmp0 then 1 else 0,
        if dst1 = cmp1 ∧ dst0 = cmp0 then (iValueLow, iValueHigh) else (dst0, dst1),
        (dst0, dst1)) := by
    unfold NativeAot.PalInterlockedCompareExchange128 NativeAot.atomicCompareAndSwap
    by_cases h : dst1 = cmp1 ∧ dst0 = cmp0
    · have h128 := hinj.mpr h
      simp only [if_pos h, if_pos h128, if_pos h128.symm, hv.2.1, hv.2.2, hd.2.1, hd.2.2]
    · have h128 : ¬ NativeAot.int128OfWords dst1 dst0 = NativeAot.int128OfWords cmp1 cmp0 :=
        fun e => h (hinj.mp e)
      have h128b : ¬ NativeAot.int128OfWords cmp1 cmp0 = NativeAot.int128OfWords dst1 dst0 :=
        fun e => h128 e.symm
      simp only [if_neg h, if_neg h128, if_neg h128b, hd.2.1, hd.2.2]
  refine ⟨heq, ?_⟩
  rw [heq]
  by_cases h : dst1 = cmp1 ∧ dst0 = cmp0
  · simp only [if_pos h, true_iff]
    exact h
  · simp only [if_neg h]
    constructor
    · intro h01
      exact absurd h01 (by decide)
    · intro h2
      exact absurd h2 h

/-- C36 on concrete words: a destination with a negative low word that equals
the comparand is replaced, and one that differs is kept. -/
theorem NativeAot.PalInterlockedCompareExchange128_spec_witness :
    NativeAot.PalInterlockedCompareExchange128 (-1, 2) 30 (-40) (-1, 2) =
        (1, (-40, 30), (-1, 2)) ∧
      NativeAot.PalInterlockedCompareExchange128 (-1, 2) 30 (-40) (-1, 3) =
        (0, (-1, 2), (-1, 2)) :=
  ⟨(NativeAot.PalInterlockedCompareExchange128_spec (-1) 2 30 (-40) (-1) 2
      (by decide) (by decide) (by decide) (by decide) (by decide) (by decide)).1,
    (NativeAot.PalInterlockedCompareExchange128_spec (-1) 2 30 (-40) (-1) 3
      (by decide) (by decide) (by decide) (by decide) (by decide) (by decide)).1⟩

/-! # Properties of the host path predicates and the platform identifier -/

/-- C37: every fully qualified path is rooted, whatever the directory
separator of the build: `is_path_fully_qualified(p)` implies
`is_path_rooted(p)` for every string `p`. The converse fails: the path of the
single character `/` is rooted and not fully qualified for every separator, and
with the backslash as separator so are the drive-relative path `C:x` and the
path of a backslash followed by `x`. -/
theorem pal.fully_qualified_is_rooted (DIR_SEPARATOR : pal.char_t) :
    (∀ path : pal.string_t, pal.is_path_fully_qualified DIR_SEPARATOR path = true →
      pal.is_path_rooted DIR_SEPARATOR path = true) ∧
    (pal.is_path_rooted DIR_SEPARATOR (pal._X "/") = true ∧
      pal.is_path_fully_qualified DIR_SEPARATOR (pal._X "/") = false) ∧
    (pal.is_path_rooted pal.backslash (pal._X "C:x") = true ∧
      pal.is_path_fully_qualified pal.backslash (pal._X "C:x") = false) ∧
    (pal.is_path_rooted pal.backslash [pal.backslash, 'x'] = true ∧
      pal.is_path_fully_qualified pal.backslash [pal.backslash, 'x'] = false) := by
  refine ⟨?_, ⟨?_, rfl⟩, by decide, by decide⟩
  · intro path h
    unfold pal.is_path_fully_qualified at h
    unfold pal.is_path_rooted
    by_cases hlen : path.length < 2
    · rw [if_pos hlen] at h
      cases h
    · rw [if_neg hlen] at h
      have h2 : decide (path.length ≥ 2) = true := decide_eq_true (Nat.le_of_not_lt hlen)
      have h1 : decide (path.length ≥ 1) = true := by
        apply decide_eq_true
        omega
      by_cases hsep : pal.is_directory_separator DIR_SEPARATOR (pal.charAt path 0) = true
      · rw [hsep, h1]
        rfl
      · rw [if_neg hsep] at h
        simp only [Bool.and_eq_true] at h
        rw [h.1.2, h2]
        simp
  · show ((decide (1 ≥ 1) && pal.is_directory_separator DIR_SEPARATOR '/') ||
      (decide (1 ≥ 2) && pal.charAt (pal._X "/") 1 == ':')) = true
    unfold pal.is_directory_separator
    simp

/-- C37 on the drive-absolute path `C:` followed by a backslash: it is fully qualified, hence
rooted. -/
theorem pal.fully_qualified_is_rooted_witness :
    pal.is_path_fully_qualified pal.backslash ['C', ':', pal.backslash] = true ∧
      pal.is_path_rooted pal.backslash ['C', ':', pal.backslash] = true :=
  ⟨by decide,
    (pal.fully_qualified_is_rooted pal.backslash).1 ['C', ':', pal.backslash] (by decide)⟩

/-- What `get_current_os_rid_platform` returns for every reported version: the major
version is raised to 6 and the minor version, taken from the report unless the major
version is above 6, is raised to 1 (to 0 above 6). -/
theorem pal.get_current_os_rid_platform_eq (to_string : Nat → pal.string_t) (major minor : Nat) :
    (major ≤ 6 → minor ≤ 1 →
      pal.get_current_os_rid_platform to_string (some ⟨major, minor⟩) = pal._X "win7") ∧
    (major ≤ 6 → minor = 2 →
      pal.get_current_os_rid_platform to_string (some ⟨major, minor⟩) = pal._X "win8") ∧
    (major ≤ 6 → 3 ≤ minor →
      pal.get_current_os_rid_platform to_string (some ⟨major, minor⟩) = pal._X "win81") ∧
    (10 ≤ major →
      pal.get_current_os_rid_platform to_string (some ⟨major, minor⟩) =
        pal._X "win" ++ to_string major) ∧
    (7 ≤ major → major ≤ 9 →
      pal.get_current_os_rid_platform to_string (some ⟨major, minor⟩) = []) := by
  unfold pal.get_current_os_rid_platform
  refine ⟨?_, ?_, ?_, ?_, ?_⟩
  · intro hM hm
    have h1 : ¬ major > 6 := by omega
    have h2 : ¬ minor > 1 := by omega
    simp only [if_neg h1, if_neg h2]
    rfl
  · intro hM hm
    have h1 : ¬ major > 6 := by omega
    subst hm
    simp only [if_neg h1]
    rfl
  · intro hM hm
    have h1 : ¬ major > 6 := by omega
    have h2 : minor > 1 := by omega
    simp only [if_neg h1, if_pos h2]
    obtain ⟨n, rfl⟩ : ∃ n, minor = n + 3 := ⟨minor - 3, by omega⟩
    rfl
  · intro hM
    have h1 : major > 6 := by omega
    have h3 : (major == 6) = false := by
      simp
      omega
    have h4 : major ≥ 10 := hM
    simp only [if_pos h1]
    by_cases h2 : minor > 0
    · simp only [if_pos h2, h3, Bool.false_eq_true, if_false, if_pos h4, List.nil_append]
    · simp only [if_neg h2, h3, Bool.false_eq_true, if_false, if_pos h4, List.nil_append]
  · intro hlo hhi
    have h1 : major > 6 := by omega
    have h3 : (major == 6) = false := by
      simp
      omega
    have h4 : ¬ major ≥ 10 := by omega
    simp only [if_pos h1]
    by_cases h2 : minor > 0
    · simp only [if_pos h2, h3, Bool.false_eq_true, if_false, if_neg h4]
    · simp only [if_neg h2, h3, Bool.false_eq_true, if_false, if_neg h4]

/-- C38 at the failing input: when the query reports version 5.2, which is
below 6.1, `get_current_os_rid_platform` keeps the major version 6 and takes
the minor version 2 of the report, and returns `win8`, not `win7`; for 5.3 it
returns `win81`. Versions 6.0, 6.1 and 5.1 give `win7`, 6.2 gives `win8`, 6.3
and 6.4 give `win81`, and 10.0 gives `win10`. -/
theorem pal.get_current_os_rid_platform_below_win7 :
    pal.get_current_os_rid_platform pal.decimal (some ⟨5, 2⟩) = pal._X "win8" ∧
      pal.get_current_os_rid_platform pal.decimal (some ⟨5, 3⟩) = pal._X "win81" ∧
      pal.get_current_os_rid_platform pal.decimal (some ⟨6, 0⟩) = pal._X "win7" ∧
      pal.get_current_os_rid_platform pal.decimal (some ⟨6, 1⟩) = pal._X "win7" ∧
      pal.get_current_os_rid_platform pal.decimal (some ⟨5, 1⟩) = pal._X "win7" ∧
      pal.get_current_os_rid_platform pal.decimal (some ⟨6, 2⟩) = pal._X "win8" ∧
      pal.get_current_os_rid_platform pal.decimal (some ⟨6, 3⟩) = pal._X "win81" ∧
      pal.get_current_os_rid_platform pal.decimal (some ⟨6, 4⟩) = pal._X "win81" ∧
      pal.get_current_os_rid_platform pal.decimal (some ⟨10, 0⟩) = pal._X "win10" := by
  decide
